import Mathlib

/-!
# Little Navmap: the viewport query cache (`src/query/mapquery.cpp`)

A shallow embedding of `MapQuery`: rectangle inflation and splitting at the
anti-meridian, and the by-viewport getters with their caches.

Angles are degrees, modelled as exact rationals (the C++ code uses `qreal`
radians inside Marble and converts at the API; rounding is not modelled).
The Marble class `GeoDataLatLonBox` is a library type; its operations used by
`MapQuery` are modelled in the namespace `Marble` below.
-/

namespace Marble

/-- Bounding box `Marble::GeoDataLatLonBox`, all four edges in degrees. -/
structure GeoDataLatLonBox where
  north : ℚ
  south : ℚ
  east : ℚ
  west : ℚ
deriving DecidableEq

/-- The C++ cast `(int) x` of a floating point value: truncation towards zero. -/
def truncToInt (x : ℚ) : ℤ :=
  if 0 ≤ x then ⌊x⌋ else ⌈x⌉

/-- Library function `GeoDataCoordinates::normalizeLon(lon, Degree)`. -/
def normalizeLon (lon : ℚ) : ℚ :=
  if lon > 180 then
    lon - (truncToInt ((lon + 180) / 360) : ℚ) * 360
  else if lon < -180 then
    lon - (truncToInt ((lon - 180) / 360) : ℚ) * 360
  else lon

/-- Library function `GeoDataCoordinates::normalizeLat(lat, Degree)`. -/
def normalizeLat (lat : ℚ) : ℚ :=
  if lat > 90 then
    let cycles := truncToInt ((lat + 180) / 360)
    let temp := if cycles = 0 then 180 - lat else lat - (cycles : ℚ) * 360
    if temp > 90 then 180 - temp
    else if temp < -90 then -180 - temp
    else temp
  else if lat < -90 then
    let cycles := truncToInt ((lat - 180) / 360)
    let temp := if cycles = 0 then -180 - lat else lat - (cycles : ℚ) * 360
    if temp > 90 then 180 - temp
    else if temp < -90 then -180 - temp
    else temp
  else lat

namespace GeoDataLatLonBox

/-- Type invariant of a box built through the Marble setters: latitudes
within ±90 and longitudes within ±180. -/
def Valid (b : GeoDataLatLonBox) : Prop :=
  (-90 ≤ b.south ∧ b.south ≤ 90) ∧ (-90 ≤ b.north ∧ b.north ≤ 90) ∧
  (-180 ≤ b.west ∧ b.west ≤ 180) ∧ (-180 ≤ b.east ∧ b.east ≤ 180)

instance (b : GeoDataLatLonBox) : Decidable b.Valid := by
  unfold Valid; infer_instance

/-- Library function `GeoDataLatLonBox::crossesDateLine()`: the east edge lies
west of the west edge, or the box spans the whole longitude range. -/
def crossesDateLine (b : GeoDataLatLonBox) : Bool :=
  decide (b.east < b.west) || (decide (b.east = 180) && decide (b.west = -180))

/-- Library function `GeoDataLatLonBox::width(Degree)`. -/
def width (b : GeoDataLatLonBox) : ℚ :=
  let w := |if b.crossesDateLine then 360 - b.west + b.east else b.east - b.west|
  if w > 360 then 360 else w

/-- Library function `GeoDataLatLonBox::height(Degree)`. -/
def height (b : GeoDataLatLonBox) : ℚ :=
  |b.south - b.north|

/-- Library function `GeoDataLatLonBox::isEmpty()`: equal to the default box. -/
def isEmpty (b : GeoDataLatLonBox) : Bool :=
  decide (b = ⟨0, 0, 0, 0⟩)

/-- Longitude of `GeoDataLatLonBox::center()`. -/
def centerLon (b : GeoDataLatLonBox) : ℚ :=
  if b.isEmpty then 0
  else if b.crossesDateLine then
    normalizeLon (b.east + 360 - (b.east + 360 - b.west) / 2)
  else b.east - (b.east - b.west) / 2

/-- Latitude of `GeoDataLatLonBox::center()`. -/
def centerLat (b : GeoDataLatLonBox) : ℚ :=
  if b.isEmpty then 0 else b.north - (b.north - b.south) / 2

/-- Library function `GeoDataLatLonBox::scale(verticalFactor, horizontalFactor)`. -/
def scale (b : GeoDataLatLonBox) (verticalFactor horizontalFactor : ℚ) : GeoDataLatLonBox :=
  let deltaY := (1 / 2) * b.height * verticalFactor
  let deltaX := (1 / 2) * b.width * horizontalFactor
  let n := min (b.centerLat + deltaY) 90
  let s := max (b.centerLat - deltaY) (-90)
  if deltaX > 180 then
    { north := n, south := s, east := 180, west := -180 }
  else
    { north := n, south := s,
      east := normalizeLon (b.centerLon + deltaX),
      west := normalizeLon (b.centerLon - deltaX) }

/-- Library function `GeoDataLatLonBox::setEast(east, Degree)`. -/
def setEast (b : GeoDataLatLonBox) (east : ℚ) : GeoDataLatLonBox :=
  { b with east := normalizeLon east }

/-- Library function `GeoDataLatLonBox::setWest(west, Degree)`. -/
def setWest (b : GeoDataLatLonBox) (west : ℚ) : GeoDataLatLonBox :=
  { b with west := normalizeLon west }

/-- Library function `GeoDataLatLonBox::setNorth(north, Degree)`. -/
def setNorth (b : GeoDataLatLonBox) (north : ℚ) : GeoDataLatLonBox :=
  { b with north := normalizeLat north }

/-- Library function `GeoDataLatLonBox::setSouth(south, Degree)`. -/
def setSouth (b : GeoDataLatLonBox) (south : ℚ) : GeoDataLatLonBox :=
  { b with south := normalizeLat south }

/-- Library function `GeoDataLatLonBox::setBoundaries(north, south, east, west, Degree)`
applied to a default constructed box. -/
def setBoundaries (north south east west : ℚ) : GeoDataLatLonBox :=
  { north := normalizeLat north, south := normalizeLat south,
    east := normalizeLon east, west := normalizeLon west }

/-- Geographic membership of a point in a box: latitude between south and
north; longitude between west and east, where a box with `east < west` wraps
through the ±180 seam. -/
def containsPoint (b : GeoDataLatLonBox) (lon lat : ℚ) : Prop :=
  (b.south ≤ lat ∧ lat ≤ b.north) ∧
  (if b.east < b.west then (b.west ≤ lon ∨ lon ≤ b.east) else (b.west ≤ lon ∧ lon ≤ b.east))

instance (b : GeoDataLatLonBox) (lon lat : ℚ) : Decidable (b.containsPoint lon lat) := by
  unfold containsPoint; infer_instance

end GeoDataLatLonBox

end Marble

namespace MapQuery

open Marble

/-- The tunables read by the constructor `MapQuery::MapQuery` from the settings. -/
structure Settings where
  queryRectInflationFactor : ℚ
  queryRectInflationIncrement : ℚ
  queryMaxRows : ℤ

/-- The defaults passed to `getAndStoreValue` in the constructor. -/
def defaultSettings : Settings :=
  { queryRectInflationFactor := 3 / 10, queryRectInflationIncrement := 1 / 10, queryMaxRows := 5000 }

/-- `MapQuery::inflateRect`: scale about the centre, then move each edge by the
increment if the moved edge stays strictly inside the limit. -/
def inflateRect (cfg : Settings) (rect : GeoDataLatLonBox) : GeoDataLatLonBox :=
  let r0 := rect.scale (1 + cfg.queryRectInflationFactor) (1 + cfg.queryRectInflationFactor)
  let r1 := if r0.east + cfg.queryRectInflationIncrement < 180
            then r0.setEast (r0.east + cfg.queryRectInflationIncrement) else r0
  let r2 := if r1.west - cfg.queryRectInflationIncrement > -180
            then r1.setWest (r1.west - cfg.queryRectInflationIncrement) else r1
  let r3 := if r2.north + cfg.queryRectInflationIncrement < 90
            then r2.setNorth (r2.north + cfg.queryRectInflationIncrement) else r2
  if r3.south - cfg.queryRectInflationIncrement > -90
  then r3.setSouth (r3.south - cfg.queryRectInflationIncrement) else r3

/-- `MapQuery::splitAtAntiMeridian`: inflate, then split into a western and an
eastern part if the inflated box crosses the date line. -/
def splitAtAntiMeridian (cfg : Settings) (rect : GeoDataLatLonBox) : List GeoDataLatLonBox :=
  let newRect := inflateRect cfg rect
  if newRect.crossesDateLine then
    let westOf := GeoDataLatLonBox.setBoundaries newRect.north newRect.south 180 newRect.west
    let eastOf := GeoDataLatLonBox.setBoundaries newRect.north newRect.south newRect.east (-180)
    [westOf, eastOf]
  else
    [newRect]

/-! ## Result rows, statements and the execution log -/

/-- One row of a result set (`SqlRecord`) with the columns the by-rectangle
getters read: the id column of the table (`waypoint_id`, `airway_id`,
`boundary_id`, ...), the position, the bounding box (`top_laty`/`max_laty`,
`bottom_laty`/`min_laty`, `right_lonx`/`max_lonx`, `left_lonx`/`min_lonx`),
the type and the altitude limits. -/
structure SqlRecord where
  id : ℤ
  lonx : ℚ
  laty : ℚ
  top_laty : ℚ
  bottom_laty : ℚ
  right_lonx : ℚ
  left_lonx : ℚ
  type : String
  min_altitude : ℤ
  max_altitude : ℤ
deriving DecidableEq

/-- The by-rectangle prepared statements of `MapQuery`. -/
inductive Statement where
  | airportByRectQuery
  | airportMediumByRectQuery
  | airportLargeByRectQuery
  | waypointsByRectQuery
  | vorsByRectQuery
  | ndbsByRectQuery
  | markersByRectQuery
  | ilsByRectQuery
  | airwayByRectQuery
  | airspaceByRectQuery
  | airspaceByRectBelowAltQuery
  | airspaceByRectAboveAltQuery
  | airspaceByRectAtAltQuery
deriving DecidableEq

/-- The values a getter binds before one `exec()`: the rectangle
(`bindCoordinatePointInRect`: `:leftx`, `:rightx`, `:bottomy`, `:topy`), and,
where the getter binds them, `:type`, `:alt` and `:minlength`;
`none` stands for "not bound by this call". -/
structure Bindings where
  rect : GeoDataLatLonBox
  type : Option String
  alt : Option ℤ
  minlength : Option ℤ
deriving DecidableEq

/-- One call of `SqlQuery::exec()`. -/
structure Execution where
  stmt : Statement
  bound : Bindings
deriving DecidableEq

/-- The datastore: the rows a statement returns for given bound values. -/
abbrev Database := Statement → Bindings → List SqlRecord

/-- `MapQuery::bindCoordinatePointInRect`. -/
def bindCoordinatePointInRect (rect : GeoDataLatLonBox) : Bindings :=
  { rect := rect, type := none, alt := none, minlength := none }

/-- The clause `whereRect` of `initQueries`,
`lonx between :leftx and :rightx and laty between :bottomy and :topy`,
with the values bound by `bindCoordinatePointInRect`. -/
def whereRect (rect : GeoDataLatLonBox) (row : SqlRecord) : Bool :=
  (decide (rect.west ≤ row.lonx) && decide (row.lonx ≤ rect.east)) &&
  (decide (rect.south ≤ row.laty) && decide (row.laty ≤ rect.north))

/-- The clause `whereLimit`, `limit N`: at most `N` rows; a negative `N` is no
bound in SQLite. -/
def whereLimit (queryMaxRows : ℤ) (rows : List SqlRecord) : List SqlRecord :=
  if queryMaxRows < 0 then rows else rows.take queryMaxRows.toNat

/-- The point statements `select ... from <table> where whereRect limit N`
(`waypointsByRectQuery`, `vorsByRectQuery`, `ndbsByRectQuery`,
`markersByRectQuery`, `ilsByRectQuery`, `airportMediumByRectQuery`,
`airportLargeByRectQuery`) over a table. -/
def selectByRect (table : List SqlRecord) (queryMaxRows : ℤ) (rect : GeoDataLatLonBox) :
    List SqlRecord :=
  whereLimit queryMaxRows (table.filter (whereRect rect))

/-- A datastore in which every point statement reads `table`. -/
def pointDatabase (table : List SqlRecord) (queryMaxRows : ℤ) : Database :=
  fun _ b => selectByRect table queryMaxRows b.rect

/-! ## The per-kind cache -/

/-- Data source tier of a layer (`layer::ALL`, `layer::MEDIUM`, `layer::LARGE`). -/
inductive DataSource where
  | ALL
  | MEDIUM
  | LARGE
deriving DecidableEq

/-- The part of `MapLayer` (declared in `mapgui/maplayer.h`) that `MapQuery`
calls, for a layer type `L`. -/
structure MapLayerApi (L : Type) where
  getDataSource : L → DataSource
  getMinRunwayLength : L → ℤ
  hasSameQueryParametersAirport : L → L → Bool
  hasSameQueryParametersWaypoint : L → L → Bool
  hasSameQueryParametersVor : L → L → Bool
  hasSameQueryParametersNdb : L → L → Bool
  hasSameQueryParametersMarker : L → L → Bool
  hasSameQueryParametersIls : L → L → Bool
  hasSameQueryParametersAirway : L → L → Bool
  hasSameQueryParametersAirspace : L → L → Bool

/-- The cache of one entity kind: entity list, stored viewport, stored layer
and validity flag. -/
structure SimpleRectCache (L T : Type) where
  list : List T
  curRect : GeoDataLatLonBox
  curMapLayer : Option L
  valid : Bool

/-- Modelled from the spec: `SimpleRectCache::updateCache` is declared outside
`mapquery.cpp`. With `lazy` nothing changes; otherwise, if the stored viewport
does not cover the requested one (`covers`, a containment check) or the
compatibility predicate rejects the stored layer, the list is cleared and the
cache is marked for refetch against the new viewport and layer; otherwise it
is reused as it is. -/
def SimpleRectCache.updateCache {L T : Type} (covers : GeoDataLatLonBox → GeoDataLatLonBox → Bool)
    (c : SimpleRectCache L T) (rect : GeoDataLatLonBox) (mapLayer : L) (lazy : Bool)
    (funcSameLayer : L → L → Bool) : SimpleRectCache L T :=
  if lazy then c
  else if !(covers c.curRect rect) ||
      !(match c.curMapLayer with
        | some curLayer => funcSameLayer curLayer mapLayer
        | none => false) then
    { list := [], curRect := rect, curMapLayer := some mapLayer, valid := false }
  else c

/-- Modelled from the spec: `SimpleRectCache::validate` is declared outside
`mapquery.cpp`; after a getter the cache is marked valid. -/
def SimpleRectCache.validate {L T : Type} (c : SimpleRectCache L T) : SimpleRectCache L T :=
  { c with valid := true }

/-- What a getter reads besides its own cache: the tunables, the datastore,
the layer interface, the containment check of the cache and
`GeoDataLatLonBox::intersects`. -/
structure Env (L : Type) where
  cfg : Settings
  db : Database
  layer : MapLayerApi L
  covers : GeoDataLatLonBox → GeoDataLatLonBox → Bool
  intersects : GeoDataLatLonBox → GeoDataLatLonBox → Bool

/-- The state one by-viewport getter works on: the cache of its kind and the
log of executed statements. -/
structure QueryState (L T : Type) where
  cache : SimpleRectCache L T
  executed : List Execution

/-! ## By-viewport getters of the point kinds -/

/-- The fetch loop shared by `getWaypoints`, `getVors`, `getNdbs`, `getMarkers`
and `getIls`: for every sub-rectangle bind it, execute the statement and
append one filled entity per row. -/
def fetchByRect {L T : Type} (env : Env L) (stmt : Statement) (fill : SqlRecord → T)
    (rect : GeoDataLatLonBox) (st : QueryState L T) : QueryState L T :=
  (splitAtAntiMeridian env.cfg rect).foldl
    (fun st r =>
      let b := bindCoordinatePointInRect r
      (env.db stmt b).foldl
        (fun st row => { st with cache := { st.cache with list := st.cache.list ++ [fill row] } })
        { st with executed := st.executed ++ [{ stmt := stmt, bound := b }] })
    st

/-- The body shared by the five point getters; `funcSameLayer` is the lambda
passed to `updateCache`. -/
def getByRect {L T : Type} (env : Env L) (stmt : Statement) (funcSameLayer : L → L → Bool)
    (fill : SqlRecord → T) (st : QueryState L T) (rect : GeoDataLatLonBox) (mapLayer : L)
    (lazy : Bool) : QueryState L T :=
  let st1 : QueryState L T :=
    { st with cache := st.cache.updateCache env.covers rect mapLayer lazy funcSameLayer }
  let st2 := if st1.cache.list.isEmpty && !lazy then fetchByRect env stmt fill rect st1 else st1
  { st2 with cache := st2.cache.validate }

/-- `MapQuery::getWaypoints`. -/
def getWaypoints {L T : Type} (env : Env L) (fillWaypoint : SqlRecord → T) (st : QueryState L T)
    (rect : GeoDataLatLonBox) (mapLayer : L) (lazy : Bool) : QueryState L T :=
  getByRect env .waypointsByRectQuery env.layer.hasSameQueryParametersWaypoint fillWaypoint
    st rect mapLayer lazy

/-- `MapQuery::getVors`. -/
def getVors {L T : Type} (env : Env L) (fillVor : SqlRecord → T) (st : QueryState L T)
    (rect : GeoDataLatLonBox) (mapLayer : L) (lazy : Bool) : QueryState L T :=
  getByRect env .vorsByRectQuery env.layer.hasSameQueryParametersVor fillVor st rect mapLayer lazy

/-- `MapQuery::getNdbs`. -/
def getNdbs {L T : Type} (env : Env L) (fillNdb : SqlRecord → T) (st : QueryState L T)
    (rect : GeoDataLatLonBox) (mapLayer : L) (lazy : Bool) : QueryState L T :=
  getByRect env .ndbsByRectQuery env.layer.hasSameQueryParametersNdb fillNdb st rect mapLayer lazy

/-- `MapQuery::getMarkers`. -/
def getMarkers {L T : Type} (env : Env L) (fillMarker : SqlRecord → T) (st : QueryState L T)
    (rect : GeoDataLatLonBox) (mapLayer : L) (lazy : Bool) : QueryState L T :=
  getByRect env .markersByRectQuery env.layer.hasSameQueryParametersMarker fillMarker
    st rect mapLayer lazy

/-- `MapQuery::getIls`. -/
def getIls {L T : Type} (env : Env L) (fillIls : SqlRecord → T) (st : QueryState L T)
    (rect : GeoDataLatLonBox) (mapLayer : L) (lazy : Bool) : QueryState L T :=
  getByRect env .ilsByRectQuery env.layer.hasSameQueryParametersIls fillIls st rect mapLayer lazy

/-! ## Airports -/

/-- `MapQuery::fetchAirports`: `bound` carries what `getAirports` bound to the
statement before the call (`:minlength`); `fillOverview` and `fillComplete`
are `fillAirportForOverview` and `fillAirport`. -/
def fetchAirports {L T : Type} (env : Env L) (fillOverview fillComplete : SqlRecord → T)
    (st : QueryState L T) (rect : GeoDataLatLonBox) (query : Statement) (minlength : Option ℤ)
    (reverse lazy overview : Bool) : QueryState L T :=
  let st2 :=
    if st.cache.list.isEmpty && !lazy then
      (splitAtAntiMeridian env.cfg rect).foldl
        (fun st r =>
          let b : Bindings := { bindCoordinatePointInRect r with minlength := minlength }
          (env.db query b).foldl
            (fun st row =>
              let ap := if overview then fillOverview row else fillComplete row
              if reverse then { st with cache := { st.cache with list := ap :: st.cache.list } }
              else { st with cache := { st.cache with list := st.cache.list ++ [ap] } })
            { st with executed := st.executed ++ [{ stmt := query, bound := b }] })
        st
    else st
  { st2 with cache := st2.cache.validate }

/-- `MapQuery::getAirports`. -/
def getAirports {L T : Type} (env : Env L) (fillOverview fillComplete : SqlRecord → T)
    (st : QueryState L T) (rect : GeoDataLatLonBox) (mapLayer : L) (lazy : Bool) :
    QueryState L T :=
  let st1 : QueryState L T :=
    { st with cache := st.cache.updateCache env.covers rect mapLayer lazy
                          env.layer.hasSameQueryParametersAirport }
  match env.layer.getDataSource mapLayer with
  | .ALL =>
    fetchAirports env fillOverview fillComplete st1 rect .airportByRectQuery
      (some (env.layer.getMinRunwayLength mapLayer)) true lazy false
  | .MEDIUM =>
    fetchAirports env fillOverview fillComplete st1 rect .airportMediumByRectQuery none
      false lazy true
  | .LARGE =>
    fetchAirports env fillOverview fillComplete st1 rect .airportLargeByRectQuery none
      false lazy true

/-! ## Airways -/

/-- The box built from the bounding columns of a row,
`GeoDataLatLonBox(top, bottom, right, left, Degree)`. -/
def recordBox (row : SqlRecord) : GeoDataLatLonBox :=
  GeoDataLatLonBox.setBoundaries row.top_laty row.bottom_laty row.right_lonx row.left_lonx

/-- The loop state of a fetch with a visited-id set: the getter state and the
local `QSet<int> ids`. -/
structure FetchState (S : Type) where
  st : S
  ids : List ℤ

/-- `MapQuery::getAirways`; `idOf` reads `MapAirway::id`. -/
def getAirways {L T : Type} (env : Env L) (fillAirway : SqlRecord → T) (idOf : T → ℤ)
    (st : QueryState L T) (rect : GeoDataLatLonBox) (mapLayer : L) (lazy : Bool) :
    QueryState L T :=
  let st1 : QueryState L T :=
    { st with cache := st.cache.updateCache env.covers rect mapLayer lazy
                          env.layer.hasSameQueryParametersAirway }
  let st2 :=
    if st1.cache.list.isEmpty && !lazy then
      ((splitAtAntiMeridian env.cfg rect).foldl
        (fun (fs : FetchState (QueryState L T)) r =>
          let b := bindCoordinatePointInRect r
          (env.db .airwayByRectQuery b).foldl
            (fun (fs : FetchState (QueryState L T)) row =>
              if row.id ∈ fs.ids then fs
              else if env.intersects rect (recordBox row) then
                let airway := fillAirway row
                { st := { fs.st with
                          cache := { fs.st.cache with list := fs.st.cache.list ++ [airway] } },
                  ids := idOf airway :: fs.ids }
              else fs)
            { fs with st := { fs.st with
                executed := fs.st.executed ++ [{ stmt := .airwayByRectQuery, bound := b }] } })
        { st := st1, ids := [] }).st
    else st1
  { st2 with cache := st2.cache.validate }

/-! ## Airspaces -/

/-- The filter `map::MapAirspaceFilter`: a bit mask of airspace types and a bit
mask of flags. -/
structure MapAirspaceFilter where
  types : ℕ
  flags : ℕ
deriving DecidableEq

/-- What `getAirspaces` uses from the namespace `map` (declared in
`common/maptypes.h`) and from `MapTypesFactory`, for an airspace type `T`:
the constants of the type and flag masks, `airspaceTypeToDatabase`,
`airspaceDrawingOrder`, `fillAirspace`, and the members `id` and `type` of
`MapAirspace`. -/
structure AirspaceApi (T : Type) where
  AIRSPACE_NONE : ℕ
  AIRSPACE_ALL : ℕ
  MAP_AIRSPACE_TYPE_BITS : ℕ
  AIRSPACE_AT_FLIGHTPLAN : ℕ
  AIRSPACE_BELOW_10000 : ℕ
  AIRSPACE_BELOW_18000 : ℕ
  AIRSPACE_ABOVE_10000 : ℕ
  AIRSPACE_ABOVE_18000 : ℕ
  airspaceTypeToDatabase : ℕ → String
  airspaceDrawingOrder : ℕ → ℤ
  fillAirspace : SqlRecord → T
  idOf : T → ℤ
  typeOf : T → ℕ

/-- Library function `atools::roundToInt`: rounding to the nearest integer,
halves away from zero. -/
def roundToInt (x : ℚ) : ℤ :=
  if 0 ≤ x then ⌊x + 1 / 2⌋ else ⌈x - 1 / 2⌉

/-- The machine epsilon of `float`, `2^-23`. -/
def floatEpsilon : ℚ := 1 / 8388608

/-- Library function `atools::almostNotEqual` on `float`: the values differ by
at least the machine epsilon. -/
def almostNotEqual (f1 f2 : ℚ) : Bool :=
  decide (floatEpsilon ≤ |f1 - f2|)

/-- The state `getAirspaces` works on: the airspace cache, the remembered
filter and flight plan altitude, and the log of executed statements. -/
structure AirspaceState (L T : Type) where
  cache : SimpleRectCache L T
  executed : List Execution
  lastAirspaceFilter : MapAirspaceFilter
  lastFlightplanAltitude : ℚ

/-- The list `typeStrings` built in `getAirspaces` from the type bit field
(for a mask different from `AIRSPACE_NONE`). -/
def airspaceTypeStrings {T : Type} (api : AirspaceApi T) (filter : MapAirspaceFilter) :
    List String :=
  if filter.types = api.AIRSPACE_ALL then ["%"]
  else
    (List.range (api.MAP_AIRSPACE_TYPE_BITS + 1)).filterMap
      (fun i =>
        let t := 1 <<< i
        if filter.types &&& t ≠ 0 then some (api.airspaceTypeToDatabase t) else none)

/-- The statement and the altitude chosen in `getAirspaces` from the filter flags. -/
def airspaceQueryAndAlt {T : Type} (api : AirspaceApi T) (filter : MapAirspaceFilter)
    (flightPlanAltitude : ℚ) : Statement × ℤ :=
  if filter.flags &&& api.AIRSPACE_AT_FLIGHTPLAN ≠ 0 then
    (.airspaceByRectAtAltQuery, roundToInt flightPlanAltitude)
  else if filter.flags &&& api.AIRSPACE_BELOW_10000 ≠ 0 then
    (.airspaceByRectBelowAltQuery, 10000)
  else if filter.flags &&& api.AIRSPACE_BELOW_18000 ≠ 0 then
    (.airspaceByRectBelowAltQuery, 18000)
  else if filter.flags &&& api.AIRSPACE_ABOVE_10000 ≠ 0 then
    (.airspaceByRectAboveAltQuery, 10000)
  else if filter.flags &&& api.AIRSPACE_ABOVE_18000 ≠ 0 then
    (.airspaceByRectAboveAltQuery, 18000)
  else
    (.airspaceByRectQuery, 0)

/-- The call of `std::sort` at the end of an airspace fetch, with the comparator
`airspaceDrawingOrder(a1.type) < airspaceDrawingOrder(a2.type)`; `std::sort`
leaves the relative order of equivalent elements open, here it is the one of
insertion sort. -/
def sortByDrawingOrder {T : Type} (api : AirspaceApi T) (l : List T) : List T :=
  l.insertionSort
    (fun a b => api.airspaceDrawingOrder (api.typeOf a) ≤ api.airspaceDrawingOrder (api.typeOf b))

/-- The fetch of `getAirspaces`, the body of `if(filter.types != map::AIRSPACE_NONE)`:
the queries per sub-rectangle and type string with the visited-id set, then
the sort. -/
def fetchAirspaces {L T : Type} (env : Env L) (api : AirspaceApi T) (st : AirspaceState L T)
    (rect : GeoDataLatLonBox) (filter : MapAirspaceFilter) (flightPlanAltitude : ℚ) :
    AirspaceState L T :=
  let typeStrings := airspaceTypeStrings api filter
  let query := (airspaceQueryAndAlt api filter flightPlanAltitude).1
  let alt := (airspaceQueryAndAlt api filter flightPlanAltitude).2
  let fetched :=
    ((splitAtAntiMeridian env.cfg rect).foldl
      (fun (fs : FetchState (AirspaceState L T)) r =>
        typeStrings.foldl
          (fun (fs : FetchState (AirspaceState L T)) typeStr =>
            let b : Bindings :=
              { bindCoordinatePointInRect r with
                type := some typeStr, alt := if alt > 0 then some alt else none }
            (env.db query b).foldl
              (fun (fs : FetchState (AirspaceState L T)) row =>
                if row.id ∈ fs.ids then fs
                else if env.intersects rect (recordBox row) then
                  let airspace := api.fillAirspace row
                  { st := { fs.st with
                            cache := { fs.st.cache with list := fs.st.cache.list ++ [airspace] } },
                    ids := api.idOf airspace :: fs.ids }
                else fs)
              { fs with st := { fs.st with
                  executed := fs.st.executed ++ [{ stmt := query, bound := b }] } })
          fs)
      { st := st, ids := [] }).st
  { fetched with cache := { fetched.cache with list := sortByDrawingOrder api fetched.cache.list } }

/-- `MapQuery::getAirspaces`. -/
def getAirspaces {L T : Type} (env : Env L) (api : AirspaceApi T) (st : AirspaceState L T)
    (rect : GeoDataLatLonBox) (mapLayer : L) (filter : MapAirspaceFilter)
    (flightPlanAltitude : ℚ) (lazy : Bool) : AirspaceState L T :=
  let st1 : AirspaceState L T :=
    { st with cache := st.cache.updateCache env.covers rect mapLayer lazy
                          env.layer.hasSameQueryParametersAirspace }
  let st2 : AirspaceState L T :=
    if filter.types ≠ st1.lastAirspaceFilter.types ∨ filter.flags ≠ st1.lastAirspaceFilter.flags ∨
        almostNotEqual st1.lastFlightplanAltitude flightPlanAltitude = true then
      { st1 with cache := { st1.cache with list := [] },
                 lastAirspaceFilter := filter,
                 lastFlightplanAltitude := flightPlanAltitude }
    else st1
  let st3 :=
    if st2.cache.list.isEmpty && !lazy then
      if filter.types ≠ api.AIRSPACE_NONE then
        fetchAirspaces env api st2 rect filter flightPlanAltitude
      else st2
    else st2
  { st3 with cache := st3.cache.validate }

/-! ## Sample collaborators for the concrete scenarios -/

/-- A layer interface over the one-element layer type: data source `ALL`, every
layer compatible with every other. -/
def sampleLayerApi : MapLayerApi Unit :=
  { getDataSource := fun _ => .ALL
    getMinRunwayLength := fun _ => 0
    hasSameQueryParametersAirport := fun _ _ => true
    hasSameQueryParametersWaypoint := fun _ _ => true
    hasSameQueryParametersVor := fun _ _ => true
    hasSameQueryParametersNdb := fun _ _ => true
    hasSameQueryParametersMarker := fun _ _ => true
    hasSameQueryParametersIls := fun _ _ => true
    hasSameQueryParametersAirway := fun _ _ => true
    hasSameQueryParametersAirspace := fun _ _ => true }

/-- An environment with the default settings over a given datastore; the
stored viewport always covers the requested one and every two boxes intersect. -/
def sampleEnv (db : Database) : Env Unit :=
  { cfg := defaultSettings
    db := db
    layer := sampleLayerApi
    covers := fun _ _ => true
    intersects := fun _ _ => true }

/-- An airspace interface in which the entity is the row itself; the mask and
flag constants are sample values. -/
def sampleAirspaceApi : AirspaceApi SqlRecord :=
  { AIRSPACE_NONE := 0
    AIRSPACE_ALL := 268435455
    MAP_AIRSPACE_TYPE_BITS := 27
    AIRSPACE_AT_FLIGHTPLAN := 32
    AIRSPACE_BELOW_10000 := 2
    AIRSPACE_BELOW_18000 := 4
    AIRSPACE_ABOVE_10000 := 8
    AIRSPACE_ABOVE_18000 := 16
    airspaceTypeToDatabase := fun _ => "C"
    airspaceDrawingOrder := fun _ => 0
    fillAirspace := fun row => row
    idOf := fun row => row.id
    typeOf := fun _ => 1 }

/-- A row with the given id at longitude 0, latitude 0. -/
def sampleRecord (id : ℤ) : SqlRecord :=
  { id := id, lonx := 0, laty := 0, top_laty := 0, bottom_laty := 0, right_lonx := 0,
    left_lonx := 0, type := "C", min_altitude := 0, max_altitude := 0 }

/-- An empty cache, as after construction. -/
def emptyCache (L T : Type) : SimpleRectCache L T :=
  { list := [], curRect := ⟨0, 0, 0, 0⟩, curMapLayer := none, valid := false }

/-! ## Auxiliary predicates of the proofs -/

/-- The invariant of a fetch with a visited-id set: the ids of the list are
pairwise different, and the set holds exactly the ids of the list. -/
def IdsInv {S T : Type} (listOf : S → List T) (idOf : T → ℤ) (fs : FetchState S) : Prop :=
  ((listOf fs.st).map idOf).Nodup ∧ ∀ i, i ∈ fs.ids ↔ i ∈ (listOf fs.st).map idOf

/-- The entities an airspace fetch accepts, in the order of acceptance: the
loop of `fetchAirspaces` before the call of `std::sort`. -/
def collectAirspaces {L T : Type} (env : Env L) (api : AirspaceApi T) (st : AirspaceState L T)
    (rect : GeoDataLatLonBox) (filter : MapAirspaceFilter) (flightPlanAltitude : ℚ) :
    FetchState (AirspaceState L T) :=
  (splitAtAntiMeridian env.cfg rect).foldl
    (fun (fs : FetchState (AirspaceState L T)) r =>
      (airspaceTypeStrings api filter).foldl
        (fun (fs : FetchState (AirspaceState L T)) typeStr =>
          let b : Bindings :=
            { bindCoordinatePointInRect r with
              type := some typeStr,
              alt := if (airspaceQueryAndAlt api filter flightPlanAltitude).2 > 0
                     then some (airspaceQueryAndAlt api filter flightPlanAltitude).2 else none }
          (env.db (airspaceQueryAndAlt api filter flightPlanAltitude).1 b).foldl
            (fun (fs : FetchState (AirspaceState L T)) row =>
              if row.id ∈ fs.ids then fs
              else if env.intersects rect (recordBox row) then
                let airspace := api.fillAirspace row
                { st := { fs.st with
                          cache := { fs.st.cache with list := fs.st.cache.list ++ [airspace] } },
                  ids := api.idOf airspace :: fs.ids }
              else fs)
            { fs with st := { fs.st with
                executed := fs.st.executed ++
                  [{ stmt := (airspaceQueryAndAlt api filter flightPlanAltitude).1, bound := b }] } })
        fs)
    { st := st, ids := [] }

/-! ## The statements prepared by `initQueries` -/

namespace Sql

/-- The clause `whereRect`. -/
def whereRect : String :=
  "lonx between :leftx and :rightx and laty between :bottomy and :topy"

/-- The clause `whereIdentRegion`. -/
def whereIdentRegion : String :=
  "ident = :ident and region like :region"

/-- The clause `whereLimit`, `"limit " + QString::number(queryMaxRows)`. -/
def whereLimit (queryMaxRows : ℤ) : String :=
  "limit " ++ toString queryMaxRows

/-- The text `airportQueryBaseOverview` of `initQueries`. -/
def airportQueryBaseOverview : String :=
  "airport_id, ident, name, has_avgas, has_jetfuel, tower_frequency, " ++
  "is_closed, is_military, is_addon, rating, num_runway_hard, " ++
  "num_runway_soft, num_runway_water, num_helipad, " ++
  "longest_runway_length, longest_runway_heading, mag_var, lonx, laty, " ++
  "left_lonx, top_laty, right_lonx, bottom_laty "

/-- The text `airwayQueryBase` of `initQueries`. -/
def airwayQueryBase : String :=
  "airway_id, airway_name, airway_type, airway_fragment_no, sequence_no, " ++
  "from_waypoint_id, to_waypoint_id, direction, minimum_altitude, " ++
  "maximum_altitude, from_lonx, from_laty, to_lonx, to_laty "

/-- The text `airspaceQueryBase` of `initQueries`. -/
def airspaceQueryBase : String :=
  "boundary_id, type, name, com_type, com_frequency, com_name, " ++
  "min_altitude_type, max_altitude_type, max_altitude, max_lonx, " ++
  "max_laty, min_altitude, min_lonx, min_laty "

/-- The text `waypointQueryBase` of `initQueries`. -/
def waypointQueryBase : String :=
  "waypoint_id, ident, region, type, num_victor_airway, num_jet_airway, " ++
  "mag_var, lonx, laty "

/-- The text `vorQueryBase` of `initQueries`. -/
def vorQueryBase : String :=
  "vor_id, ident, name, region, type, name, frequency, channel, range, " ++
  "dme_only, dme_altitude, mag_var, altitude, lonx, laty "

/-- The text `ndbQueryBase` of `initQueries`. -/
def ndbQueryBase : String :=
  "ndb_id, ident, name, region, type, name, frequency, range, mag_var, " ++
  "altitude, lonx, laty "

/-- The text `parkingQueryBase` of `initQueries`. -/
def parkingQueryBase : String :=
  "parking_id, airport_id, type, name, airline_codes, number, radius, " ++
  "heading, has_jetway, lonx, laty "

/-- The text `ilsQueryBase` of `initQueries`. -/
def ilsQueryBase : String :=
  "ils_id, ident, name, region, mag_var, loc_heading, gs_pitch, " ++
  "frequency, range, dme_range, loc_width, end1_lonx, end1_laty, " ++
  "end_mid_lonx, end_mid_laty, end2_lonx, end2_laty, altitude, lonx, laty"

/-- The text `airspaceRect` of `initQueries`. -/
def airspaceRect : String :=
  " (not (max_lonx < :leftx or min_lonx > :rightx or min_laty > :topy or " ++
  "max_laty < :bottomy) or max_lonx < min_lonx) and "

end Sql

/-- The prepared statements of `MapQuery`, by the name of the member. -/
inductive PreparedQuery where
  | vorByIdentQuery
  | ndbByIdentQuery
  | waypointByIdentQuery
  | ilsByIdentQuery
  | vorByIdQuery
  | ndbByIdQuery
  | vorByWaypointIdQuery
  | ndbByWaypointIdQuery
  | vorNearestQuery
  | ndbNearestQuery
  | waypointByIdQuery
  | ilsByIdQuery
  | airportByRectQuery
  | airportMediumByRectQuery
  | airportLargeByRectQuery
  | runwayOverviewQuery
  | waypointsByRectQuery
  | vorsByRectQuery
  | ndbsByRectQuery
  | markersByRectQuery
  | ilsByRectQuery
  | airwayByRectQuery
  | airwayByWaypointIdQuery
  | airwayByNameAndWaypointQuery
  | airwayByIdQuery
  | airspaceByIdQuery
  | airwayWaypointByIdentQuery
  | airwayByNameQuery
  | airwayWaypointsQuery
  | airspaceByRectQuery
  | airspaceByRectBelowAltQuery
  | airspaceByRectAboveAltQuery
  | airspaceByRectAtAltQuery
  | airspaceLinesByIdQuery
deriving DecidableEq

/-- The statement texts that `initQueries` passes to `prepare`; `airportQueryBase` is
the column list `AirportQuery::airportColumns(db)`. -/
def Sql.initQueries (queryMaxRows : ℤ) (airportQueryBase : List String) : PreparedQuery → String
  | .vorByIdentQuery =>
    "select " ++ Sql.vorQueryBase ++ " from vor where " ++ Sql.whereIdentRegion
  | .ndbByIdentQuery =>
    "select " ++ Sql.ndbQueryBase ++ " from ndb where " ++ Sql.whereIdentRegion
  | .waypointByIdentQuery =>
    "select " ++ Sql.waypointQueryBase ++ " from waypoint where " ++ Sql.whereIdentRegion
  | .ilsByIdentQuery =>
    "select " ++ Sql.ilsQueryBase ++
    " from ils where ident = :ident and loc_airport_ident = :airport"
  | .vorByIdQuery =>
    "select " ++ Sql.vorQueryBase ++ " from vor where vor_id = :id"
  | .ndbByIdQuery =>
    "select " ++ Sql.ndbQueryBase ++ " from ndb where ndb_id = :id"
  | .vorByWaypointIdQuery =>
    "select " ++ Sql.vorQueryBase ++
    " from vor where vor_id in (select nav_id from waypoint w where " ++ "w.waypoint_id = :id)"
  | .ndbByWaypointIdQuery =>
    "select " ++ Sql.ndbQueryBase ++
    " from ndb where ndb_id in (select nav_id from waypoint w where " ++ "w.waypoint_id = :id)"
  | .vorNearestQuery =>
    "select " ++ Sql.vorQueryBase ++
    " from vor order by (abs(lonx - :lonx) + abs(laty - :laty)) limit 1"
  | .ndbNearestQuery =>
    "select " ++ Sql.ndbQueryBase ++
    " from ndb order by (abs(lonx - :lonx) + abs(laty - :laty)) limit 1"
  | .waypointByIdQuery =>
    "select " ++ Sql.waypointQueryBase ++ " from waypoint where waypoint_id = :id"
  | .ilsByIdQuery =>
    "select " ++ Sql.ilsQueryBase ++ " from ils where ils_id = :id"
  | .airportByRectQuery =>
    "select " ++ ", ".intercalate airportQueryBase ++ " from airport where " ++ Sql.whereRect ++
    " and longest_runway_length >= :minlength order by rating desc, " ++
    "longest_runway_length desc " ++ Sql.whereLimit queryMaxRows
  | .airportMediumByRectQuery =>
    "select " ++ Sql.airportQueryBaseOverview ++ "from airport_medium where " ++ Sql.whereRect ++
    " " ++ Sql.whereLimit queryMaxRows
  | .airportLargeByRectQuery =>
    "select " ++ Sql.airportQueryBaseOverview ++ "from airport_large where " ++ Sql.whereRect ++
    " " ++ Sql.whereLimit queryMaxRows
  | .runwayOverviewQuery =>
    "select length, heading, lonx, laty, primary_lonx, primary_laty, " ++
    "secondary_lonx, secondary_laty from runway where airport_id = " ++
    ":airportId and length > 4000 " ++ Sql.whereLimit queryMaxRows
  | .waypointsByRectQuery =>
    "select " ++ Sql.waypointQueryBase ++ " from waypoint where " ++ Sql.whereRect ++ " " ++
    Sql.whereLimit queryMaxRows
  | .vorsByRectQuery =>
    "select " ++ Sql.vorQueryBase ++ " from vor where " ++ Sql.whereRect ++ " " ++
    Sql.whereLimit queryMaxRows
  | .ndbsByRectQuery =>
    "select " ++ Sql.ndbQueryBase ++ " from ndb where " ++ Sql.whereRect ++ " " ++
    Sql.whereLimit queryMaxRows
  | .markersByRectQuery =>
    "select marker_id, type, ident, heading, lonx, laty from marker where " ++ Sql.whereRect ++
    " " ++ Sql.whereLimit queryMaxRows
  | .ilsByRectQuery =>
    "select " ++ Sql.ilsQueryBase ++ " from ils where " ++ Sql.whereRect ++ " " ++
    Sql.whereLimit queryMaxRows
  | .airwayByRectQuery =>
    "select " ++ Sql.airwayQueryBase ++
    ", right_lonx, left_lonx, bottom_laty, top_laty from airway where " ++
    "not (right_lonx < :leftx or left_lonx > :rightx or bottom_laty > " ++
    ":topy or top_laty < :bottomy) or right_lonx < left_lonx"
  | .airwayByWaypointIdQuery =>
    "select " ++ Sql.airwayQueryBase ++
    " from airway where from_waypoint_id = :id or to_waypoint_id = :id"
  | .airwayByNameAndWaypointQuery =>
    "select " ++ Sql.airwayQueryBase ++
    " from airway a join waypoint wf on a.from_waypoint_id = " ++
    "wf.waypoint_id join waypoint wt on a.to_waypoint_id = wt.waypoint_id " ++
    "where a.airway_name = :airway and ((wf.ident = :ident1 and wt.ident = " ++
    ":ident2) or  (wt.ident = :ident1 and wf.ident = :ident2))"
  | .airwayByIdQuery =>
    "select " ++ Sql.airwayQueryBase ++ " from airway where airway_id = :id"
  | .airspaceByIdQuery =>
    "select " ++ Sql.airspaceQueryBase ++ " from boundary where boundary_id = :id"
  | .airwayWaypointByIdentQuery =>
    "select " ++ Sql.waypointQueryBase ++
    " from waypoint w  join airway a on w.waypoint_id = a.from_waypoint_id " ++
    "where w.ident = :waypoint and a.airway_name = :airway union select " ++
    Sql.waypointQueryBase ++
    " from waypoint w  join airway a on w.waypoint_id = a.to_waypoint_id " ++
    "where w.ident = :waypoint and a.airway_name = :airway"
  | .airwayByNameQuery =>
    "select " ++ Sql.airwayQueryBase ++ " from airway where airway_name = :name"
  | .airwayWaypointsQuery =>
    "select " ++ Sql.airwayQueryBase ++
    " from airway where airway_name = :name  order by airway_fragment_no, " ++ "sequence_no"
  | .airspaceByRectQuery =>
    "select " ++ Sql.airspaceQueryBase ++ "from boundary where " ++ Sql.airspaceRect ++
    " type like :type"
  | .airspaceByRectBelowAltQuery =>
    "select " ++ Sql.airspaceQueryBase ++ "from boundary where " ++ Sql.airspaceRect ++
    " type like :type and min_altitude < :alt"
  | .airspaceByRectAboveAltQuery =>
    "select " ++ Sql.airspaceQueryBase ++ "from boundary where " ++ Sql.airspaceRect ++
    " type like :type and max_altitude > :alt"
  | .airspaceByRectAtAltQuery =>
    "select " ++ Sql.airspaceQueryBase ++
    "from boundary where not (max_lonx < :leftx or min_lonx > :rightx or " ++
    "min_laty > :topy or max_laty < :bottomy) and type like :type and :alt " ++
    "between min_altitude and max_altitude"
  | .airspaceLinesByIdQuery =>
    "select geometry from boundary where boundary_id = :id"

/-- A text ends with a given text. -/
def Sql.EndsWith (text ending : String) : Prop :=
  ending.data <:+ text.data

instance (text ending : String) : Decidable (Sql.EndsWith text ending) := by
  unfold Sql.EndsWith; infer_instance

/-- A text contains a given word. -/
def Sql.Contains (text word : String) : Prop :=
  word.data <:+: text.data

instance (text word : String) : Decidable (Sql.Contains text word) := by
  unfold Sql.Contains; infer_instance

/-- How a statement text is capped: by the configured row limit, by the fixed
`limit 1`, or not at all. -/
inductive RowCap where
  | configured
  | one
  | absent
deriving DecidableEq

/-- The row cap of each statement prepared by `initQueries`. -/
def Sql.rowCap : PreparedQuery → RowCap
  | .airportByRectQuery => .configured
  | .airportMediumByRectQuery => .configured
  | .airportLargeByRectQuery => .configured
  | .runwayOverviewQuery => .configured
  | .waypointsByRectQuery => .configured
  | .vorsByRectQuery => .configured
  | .ndbsByRectQuery => .configured
  | .markersByRectQuery => .configured
  | .ilsByRectQuery => .configured
  | .vorNearestQuery => .one
  | .ndbNearestQuery => .one
  | _ => .absent

/-! ## The where clauses of the airway and airspace by-rectangle statements -/

/-- The clause `not (right_lonx < :leftx or left_lonx > :rightx or
bottom_laty > :topy or top_laty < :bottomy)` of `airwayByRectQuery`, and the
same clause over `max_lonx`, `min_lonx`, `min_laty`, `max_laty` of the airspace
statements: the bounding box of the row overlaps the bound rectangle. -/
def overlapsClause (rect : GeoDataLatLonBox) (row : SqlRecord) : Bool :=
  !(decide (row.right_lonx < rect.west) || decide (row.left_lonx > rect.east) ||
    decide (row.bottom_laty > rect.north) || decide (row.top_laty < rect.south))

/-- The clause `right_lonx < left_lonx` (`max_lonx < min_lonx`): the bounding
box of the row is wrapped over the seam. -/
def wrappedClause (row : SqlRecord) : Bool :=
  decide (row.right_lonx < row.left_lonx)

/-- The where clause of `airwayByRectQuery`:
`not (...) or right_lonx < left_lonx`. -/
def airwayByRectWhere (rect : GeoDataLatLonBox) (row : SqlRecord) : Bool :=
  overlapsClause rect row || wrappedClause row

/-- The rectangle clause `airspaceRect` shared by `airspaceByRectQuery`,
`airspaceByRectBelowAltQuery` and `airspaceByRectAboveAltQuery`:
`(not (...) or max_lonx < min_lonx)`. -/
def airspaceRectClause (rect : GeoDataLatLonBox) (row : SqlRecord) : Bool :=
  overlapsClause rect row || wrappedClause row

/-- The rectangle clause that `airspaceByRectAtAltQuery` spells out: `not (...)`. -/
def airspaceAtAltRectClause (rect : GeoDataLatLonBox) (row : SqlRecord) : Bool :=
  overlapsClause rect row

/-- The where clause of `airspaceByRectQuery`: `airspaceRect` and
`type like :type`; `like` is the SQL operator. -/
def airspaceByRectWhere (like : String → String → Bool) (rect : GeoDataLatLonBox)
    (type : String) (row : SqlRecord) : Bool :=
  airspaceRectClause rect row && like row.type type

/-- The where clause of `airspaceByRectBelowAltQuery`: `airspaceRect`,
`type like :type` and `min_altitude < :alt`. -/
def airspaceByRectBelowAltWhere (like : String → String → Bool) (rect : GeoDataLatLonBox)
    (type : String) (alt : ℤ) (row : SqlRecord) : Bool :=
  airspaceRectClause rect row && like row.type type && decide (row.min_altitude < alt)

/-- The where clause of `airspaceByRectAboveAltQuery`: `airspaceRect`,
`type like :type` and `max_altitude > :alt`. -/
def airspaceByRectAboveAltWhere (like : String → String → Bool) (rect : GeoDataLatLonBox)
    (type : String) (alt : ℤ) (row : SqlRecord) : Bool :=
  airspaceRectClause rect row && like row.type type && decide (row.max_altitude > alt)

/-- The where clause of `airspaceByRectAtAltQuery`: the overlap clause,
`type like :type` and `:alt between min_altitude and max_altitude`. -/
def airspaceByRectAtAltWhere (like : String → String → Bool) (rect : GeoDataLatLonBox)
    (type : String) (alt : ℤ) (row : SqlRecord) : Bool :=
  airspaceAtAltRectClause rect row && like row.type type &&
    (decide (row.min_altitude ≤ alt) && decide (alt ≤ row.max_altitude))

/-- An airspace whose bounding box is wrapped over the seam, from longitude 170
east to -170, latitudes 0 to 1, altitudes 0 to 10000. -/
def sampleWrappedBoundary : SqlRecord :=
  { id := 1, lonx := 180, laty := 1 / 2, top_laty := 1, bottom_laty := 0, right_lonx := -170,
    left_lonx := 170, type := "C", min_altitude := 0, max_altitude := 10000 }

/-! ## The geometry cache -/

/-- A polyline object `atools::geo::LineString` created with `new`: the address
tells objects apart, `points` are the coordinates (longitude, latitude). -/
structure LineString where
  address : ℕ
  points : List (ℚ × ℚ)
deriving DecidableEq

/-- Library class `QCache<int, V>` with every entry of cost 1 (the default cost
of `insert`): the entries from the most to the least recently used one, and
the maximal total cost. -/
structure QCache (V : Type) where
  entries : List (ℤ × V)
  maxCost : ℤ

namespace QCache

/-- Library function `QCache::contains`. -/
def contains {V : Type} (c : QCache V) (key : ℤ) : Bool :=
  c.entries.any (fun e => e.1 == key)

/-- The object `QCache::object` returns for a key, `none` for the null pointer. -/
def object {V : Type} (c : QCache V) (key : ℤ) : Option V :=
  (c.entries.find? (fun e => e.1 == key)).map (fun e => e.2)

/-- The cache after `QCache::object`: the entry found becomes the most recently
used one. -/
def touch {V : Type} (c : QCache V) (key : ℤ) : QCache V :=
  match c.entries.find? (fun e => e.1 == key) with
  | some e => { c with entries := e :: c.entries.filter (fun e => e.1 != key) }
  | none => c

/-- Library function `QCache::remove`. -/
def remove {V : Type} (c : QCache V) (key : ℤ) : QCache V :=
  { c with entries := c.entries.filter (fun e => e.1 != key) }

/-- Library function `QCache::trim(m)`: the least recently used entries are
dropped while the total cost exceeds `m`. -/
def trim {V : Type} (c : QCache V) (m : ℤ) : QCache V :=
  { c with entries := c.entries.take m.toNat }

/-- Library function `QCache::insert(key, object)` with cost 1: an entry of the
key is removed first; if the cost exceeds the maximal cost the object is
deleted and not inserted; otherwise the cache is trimmed to make room and the
object becomes the most recently used entry. -/
def insert {V : Type} (c : QCache V) (key : ℤ) (obj : V) : QCache V :=
  if 1 > c.maxCost then c.remove key
  else { c with entries := (key, obj) :: ((c.remove key).trim (c.maxCost - 1)).entries }

/-- Library function `QCache::clear`. -/
def clear {V : Type} (c : QCache V) : QCache V :=
  { c with entries := [] }

/-- The objects that `QCache::remove` deletes: the cache owns its objects, the
one stored under the key is destroyed with the entry. -/
def removeDeleted {V : Type} (c : QCache V) (key : ℤ) : List V :=
  (c.entries.filter (fun e => e.1 == key)).map (fun e => e.2)

/-- The objects that `QCache::trim(m)` deletes: those of the entries dropped. -/
def trimDeleted {V : Type} (c : QCache V) (m : ℤ) : List V :=
  (c.entries.drop m.toNat).map (fun e => e.2)

/-- The objects that `QCache::insert(key, object)` with cost 1 deletes: the
object of an entry of the key; then, if the cost exceeds the maximal cost, the
new object itself (`delete aobject`), otherwise the objects trimmed to make
room. -/
def insertDeleted {V : Type} (c : QCache V) (key : ℤ) (obj : V) : List V :=
  if 1 > c.maxCost then c.removeDeleted key ++ [obj]
  else c.removeDeleted key ++ (c.remove key).trimDeleted (c.maxCost - 1)

end QCache

/-- The encoded geometry of a boundary row, the byte array of the column
`geometry`. -/
abbrev Blob := List ℕ

/-- What `getAirspaceGeometry` reads and writes: the cache `airspaceLineCache`,
the ids bound to the executions of `airspaceLinesByIdQuery`, the blobs handed
to `BinaryGeometry`, the number of `LineString` objects created so far, and
the addresses of the `LineString` objects that the cache has deleted. -/
structure GeometryState where
  airspaceLineCache : QCache LineString
  executedIds : List ℤ
  decoded : List Blob
  allocated : ℕ
  deleted : List ℕ := []

/-- `MapQuery::getAirspaceGeometry`: the state after the call and the object
whose pointer is returned. `geometryDb` gives the blob of the first row of
`airspaceLinesByIdQuery` for an id (`none`: no row), `binaryGeometry` the
points `atools::fs::common::BinaryGeometry` decodes from a blob. The branch
`contains(boundaryId)` is taken exactly when `object(boundaryId)` is not null.
The result of `airspaceLineCache.insert` is not looked at: the pointer `lines`
is returned also when `insert` has deleted the object, and it is dangling
exactly if its address is among `deleted` of the state after the call. -/
def getAirspaceGeometry (geometryDb : ℤ → Option Blob) (binaryGeometry : Blob → List (ℚ × ℚ))
    (st : GeometryState) (boundaryId : ℤ) : GeometryState × LineString :=
  match st.airspaceLineCache.object boundaryId with
  | some obj => ({ st with airspaceLineCache := st.airspaceLineCache.touch boundaryId }, obj)
  | none =>
    let st1 : GeometryState :=
      { st with allocated := st.allocated + 1, executedIds := st.executedIds ++ [boundaryId] }
    match geometryDb boundaryId with
    | some blob =>
      let lines : LineString := { address := st.allocated, points := binaryGeometry blob }
      ({ st1 with decoded := st1.decoded ++ [blob],
                  airspaceLineCache := st1.airspaceLineCache.insert boundaryId lines,
                  deleted := st1.deleted ++
                    (st1.airspaceLineCache.insertDeleted boundaryId lines).map
                      (fun o => o.address) }, lines)
    | none =>
      let lines : LineString := { address := st.allocated, points := [] }
      ({ st1 with airspaceLineCache := st1.airspaceLineCache.insert boundaryId lines,
                  deleted := st1.deleted ++
                    (st1.airspaceLineCache.insertDeleted boundaryId lines).map
                      (fun o => o.address) }, lines)

/-- The cached geometry agrees with the datastore: every entry holds the points
decoded from the blob of its id, or no points if the id has no row. -/
def GeometryConsistent (geometryDb : ℤ → Option Blob) (binaryGeometry : Blob → List (ℚ × ℚ))
    (c : QCache LineString) : Prop :=
  ∀ e ∈ c.entries, e.2.points =
    (match geometryDb e.1 with
     | some blob => binaryGeometry blob
     | none => [])

/-! ## Picking: `getNearestObjects` -/

/-- World position `atools::geo::Pos`. -/
structure Pos where
  lonx : ℚ
  laty : ℚ
deriving DecidableEq

/-- What `CoordinateConverter::wToS(pos, x, y)` gives for a position: the
return value (the position is on the screen) and the screen coordinates. -/
structure ScreenPos where
  visible : Bool
  x : ℤ
  y : ℤ

/-- The members of the map types (`MapAirport`, `MapVor`, `MapNdb`,
`MapWaypoint`, `MapMarker`, `MapIls`, `MapParking`, `MapHelipad`) that
`getNearestObjects` reads. -/
structure MapObject where
  id : ℤ
  position : Pos
  towerCoords : Pos
  hasVictorAirways : Bool
  hasJetAirways : Bool
deriving DecidableEq

/-- Library function `atools::geo::manhattanDistance`. -/
def manhattanDistance (x1 y1 x2 y2 : ℤ) : ℤ :=
  |x1 - x2| + |y1 - y2|

/-- The constants of `map::MapObjectTypes` (declared in `common/maptypes.h`)
that `getNearestObjects` tests. -/
structure MapObjectTypeConsts where
  AIRPORT : ℕ
  VOR : ℕ
  NDB : ℕ
  WAYPOINT : ℕ
  AIRWAYV : ℕ
  AIRWAYJ : ℕ
  MARKER : ℕ
  ILS : ℕ

/-- Library function `QFlags::testFlag`. -/
def testFlag (types flag : ℕ) : Bool :=
  (types &&& flag == flag) && (flag != 0 || types == flag)

/-- The part of `MapLayer` that `getNearestObjects` calls. -/
structure MapLayerPickApi (L : Type) where
  isAirport : L → Bool
  isVor : L → Bool
  isNdb : L → Bool
  isWaypoint : L → Bool
  isAirwayWaypoint : L → Bool
  isMarker : L → Bool
  isIls : L → Bool

/-- The lists of `map::MapSearchResult` that `getNearestObjects` fills, with
the id sets of the lists that have one. -/
structure MapSearchResult where
  airports : List MapObject
  airportIds : List ℤ
  towers : List MapObject
  vors : List MapObject
  vorIds : List ℤ
  ndbs : List MapObject
  ndbIds : List ℤ
  waypoints : List MapObject
  waypointIds : List ℤ
  markers : List MapObject
  ils : List MapObject
  parkings : List MapObject
  helipads : List MapObject

/-- A result without entries. -/
def MapSearchResult.empty : MapSearchResult :=
  { airports := [], airportIds := [], towers := [], vors := [], vorIds := [], ndbs := [],
    ndbIds := [], waypoints := [], waypointIds := [], markers := [], ils := [], parkings := [],
    helipads := [] }

/-- The L1 screen distance of a world position to the point `(xs, ys)`. -/
def distanceTo (conv : Pos → ScreenPos) (xs ys : ℤ) (pos : Pos) : ℤ :=
  manhattanDistance (conv pos).x (conv pos).y xs ys

/-- The order of a result list: ascending by screen distance of the position. -/
def ByDistance (conv : Pos → ScreenPos) (xs ys : ℤ) (a b : MapObject) : Prop :=
  distanceTo conv xs ys a.position ≤ distanceTo conv xs ys b.position

/-- The order of the tower list: ascending by screen distance of the tower. -/
def ByTowerDistance (conv : Pos → ScreenPos) (xs ys : ℤ) (a b : MapObject) : Prop :=
  distanceTo conv xs ys a.towerCoords ≤ distanceTo conv xs ys b.towerCoords

instance (conv : Pos → ScreenPos) (xs ys : ℤ) : DecidableRel (ByDistance conv xs ys) :=
  fun a b => inferInstanceAs
    (Decidable (distanceTo conv xs ys a.position ≤ distanceTo conv xs ys b.position))

instance (conv : Pos → ScreenPos) (xs ys : ℤ) : DecidableRel (ByTowerDistance conv xs ys) :=
  fun a b => inferInstanceAs
    (Decidable (distanceTo conv xs ys a.towerCoords ≤ distanceTo conv xs ys b.towerCoords))

instance (conv : Pos → ScreenPos) (xs ys : ℤ) : IsTotal MapObject (ByDistance conv xs ys) :=
  ⟨fun _ _ => le_total _ _⟩

instance (conv : Pos → ScreenPos) (xs ys : ℤ) : IsTrans MapObject (ByDistance conv xs ys) :=
  ⟨fun _ _ _ hab hbc => le_trans hab hbc⟩

instance (conv : Pos → ScreenPos) (xs ys : ℤ) : IsTotal MapObject (ByTowerDistance conv xs ys) :=
  ⟨fun _ _ => le_total _ _⟩

instance (conv : Pos → ScreenPos) (xs ys : ℤ) : IsTrans MapObject (ByTowerDistance conv xs ys) :=
  ⟨fun _ _ _ hab hbc => le_trans hab hbc⟩

/-- Modelled from the spec: `maptools::insertSortedByDistance` is declared
outside `mapquery.cpp`. The entity is inserted into a list kept sorted
ascending by screen distance; the call sites pass the id set of the list or a
null pointer (`none`), and an entity whose id is in the set is not inserted
again. -/
def insertSortedByDistance (conv : Pos → ScreenPos) (list : List MapObject)
    (ids : Option (List ℤ)) (xs ys : ℤ) (type : MapObject) :
    List MapObject × Option (List ℤ) :=
  match ids with
  | some s =>
    if type.id ∈ s then (list, some s)
    else (list.orderedInsert (ByDistance conv xs ys) type, some (type.id :: s))
  | none => (list.orderedInsert (ByDistance conv xs ys) type, none)

/-- Modelled from the spec: `maptools::insertSortedByTowerDistance` is declared
outside `mapquery.cpp`. The airport is inserted into a list kept sorted
ascending by the screen distance of the tower position. -/
def insertSortedByTowerDistance (conv : Pos → ScreenPos) (list : List MapObject)
    (xs ys : ℤ) (type : MapObject) : List MapObject :=
  list.orderedInsert (ByTowerDistance conv xs ys) type

/-- The caches of `MapQuery` and the log of executed statements. -/
structure MapQueryState (L : Type) where
  airportCache : SimpleRectCache L MapObject
  waypointCache : SimpleRectCache L MapObject
  vorCache : SimpleRectCache L MapObject
  ndbCache : SimpleRectCache L MapObject
  markerCache : SimpleRectCache L MapObject
  ilsCache : SimpleRectCache L MapObject
  airwayCache : SimpleRectCache L MapObject
  airspaceCache : SimpleRectCache L MapObject
  executed : List Execution

/-- What `getNearestObjects` reads besides the caches of `MapQuery`: the type
constants, the layer interface, `MapAirport::isVisible`, and the parking and
helipad caches of the airport query (`getParkingCache`, `getHelipadCache`) in
the order of their keys. -/
structure PickEnv (L : Type) where
  consts : MapObjectTypeConsts
  layer : MapLayerPickApi L
  isVisible : MapObject → ℕ → Bool
  parkingCache : List (ℤ × List MapObject)
  helipadCache : List (ℤ × List MapObject)

/-- The body shared by the loops of `getNearestObjects`: an entity whose
position is on the screen and closer than `screenDistance` (L1) to `(xs, ys)`
is inserted sorted by distance. -/
def nearestStep (conv : Pos → ScreenPos) (xs ys screenDistance : ℤ)
    (acc : List MapObject × Option (List ℤ)) (obj : MapObject) :
    List MapObject × Option (List ℤ) :=
  if (conv obj.position).visible then
    if manhattanDistance (conv obj.position).x (conv obj.position).y xs ys < screenDistance then
      insertSortedByDistance conv acc.1 acc.2 xs ys obj
    else acc
  else acc

/-- The body of the airport loop of `getNearestObjects`; the state is the
airport list with its id set, and the tower list. -/
def airportStep (isVisible : MapObject → ℕ → Bool) (conv : Pos → ScreenPos)
    (airportDiagram : Bool) (types : ℕ) (xs ys screenDistance : ℤ)
    (acc : (List MapObject × Option (List ℤ)) × List MapObject) (airport : MapObject) :
    (List MapObject × Option (List ℤ)) × List MapObject :=
  if isVisible airport types then
    let airports := nearestStep conv xs ys screenDistance acc.1 airport
    let towers :=
      if airportDiagram then
        if (conv airport.towerCoords).visible &&
            decide (manhattanDistance (conv airport.towerCoords).x (conv airport.towerCoords).y
              xs ys < screenDistance) then
          insertSortedByTowerDistance conv acc.2 xs ys airport
        else acc.2
      else acc.2
    (airports, towers)
  else acc

/-- `MapQuery::getNearestObjects`: the state of `MapQuery` after the call and
the result. The loops run over the cache lists from the last entry to the
first. -/
def getNearestObjects {L : Type} (penv : PickEnv L) (st : MapQueryState L)
    (conv : Pos → ScreenPos) (mapLayer : L) (airportDiagram : Bool) (types : ℕ)
    (xs ys screenDistance : ℤ) (result : MapSearchResult) : MapQueryState L × MapSearchResult :=
  let r1 : MapSearchResult :=
    if penv.layer.isAirport mapLayer && testFlag types penv.consts.AIRPORT then
      let acc := st.airportCache.list.reverse.foldl
        (airportStep penv.isVisible conv airportDiagram types xs ys screenDistance)
        ((result.airports, some result.airportIds), result.towers)
      { result with airports := acc.1.1, airportIds := acc.1.2.getD result.airportIds,
                    towers := acc.2 }
    else result
  let r2 : MapSearchResult :=
    if penv.layer.isVor mapLayer && testFlag types penv.consts.VOR then
      let acc := st.vorCache.list.reverse.foldl (nearestStep conv xs ys screenDistance)
        (r1.vors, some r1.vorIds)
      { r1 with vors := acc.1, vorIds := acc.2.getD r1.vorIds }
    else r1
  let r3 : MapSearchResult :=
    if penv.layer.isNdb mapLayer && testFlag types penv.consts.NDB then
      let acc := st.ndbCache.list.reverse.foldl (nearestStep conv xs ys screenDistance)
        (r2.ndbs, some r2.ndbIds)
      { r2 with ndbs := acc.1, ndbIds := acc.2.getD r2.ndbIds }
    else r2
  let r4 : MapSearchResult :=
    if penv.layer.isWaypoint mapLayer && testFlag types penv.consts.WAYPOINT then
      let acc := st.waypointCache.list.reverse.foldl (nearestStep conv xs ys screenDistance)
        (r3.waypoints, some r3.waypointIds)
      { r3 with waypoints := acc.1, waypointIds := acc.2.getD r3.waypointIds }
    else r3
  let r5 : MapSearchResult :=
    if penv.layer.isAirwayWaypoint mapLayer then
      let acc := st.waypointCache.list.reverse.foldl
        (fun acc wp =>
          if (wp.hasVictorAirways && testFlag types penv.consts.AIRWAYV) ||
              (wp.hasJetAirways && testFlag types penv.consts.AIRWAYJ) then
            nearestStep conv xs ys screenDistance acc wp
          else acc)
        (r4.waypoints, some r4.waypointIds)
      { r4 with waypoints := acc.1, waypointIds := acc.2.getD r4.waypointIds }
    else r4
  let r6 : MapSearchResult :=
    if penv.layer.isMarker mapLayer && testFlag types penv.consts.MARKER then
      { r5 with markers := (st.markerCache.list.reverse.foldl
          (nearestStep conv xs ys screenDistance) (r5.markers, none)).1 }
    else r5
  let r7 : MapSearchResult :=
    if penv.layer.isIls mapLayer && testFlag types penv.consts.ILS then
      { r6 with ils := (st.ilsCache.list.reverse.foldl
          (nearestStep conv xs ys screenDistance) (r6.ils, none)).1 }
    else r6
  let r8 : MapSearchResult :=
    if penv.layer.isAirport mapLayer && testFlag types penv.consts.AIRPORT then
      if airportDiagram then
        let parkings := (penv.parkingCache.foldl
          (fun acc entry => entry.2.foldl (nearestStep conv xs ys screenDistance) acc)
          (r7.parkings, none)).1
        let helipads := (penv.helipadCache.foldl
          (fun acc entry => entry.2.foldl (nearestStep conv xs ys screenDistance) acc)
          (r7.helipads, none)).1
        { r7 with parkings := parkings, helipads := helipads }
      else r7
    else r7
  (st, r8)

/-- A layer interface for picking over the one-element layer type that shows
every kind or none. -/
def samplePickLayer (shown : Bool) : MapLayerPickApi Unit :=
  { isAirport := fun _ => shown, isVor := fun _ => shown, isNdb := fun _ => shown,
    isWaypoint := fun _ => shown, isAirwayWaypoint := fun _ => shown,
    isMarker := fun _ => shown, isIls := fun _ => shown }

/-- A picking environment with sample type constants, every airport visible
and no parking or helipad. -/
def samplePickEnv (shown : Bool) : PickEnv Unit :=
  { consts := { AIRPORT := 1, VOR := 2, NDB := 4, WAYPOINT := 8, AIRWAYV := 16, AIRWAYJ := 32,
                MARKER := 64, ILS := 128 }
    layer := samplePickLayer shown
    isVisible := fun _ _ => true
    parkingCache := []
    helipadCache := [] }

/-- A state of `MapQuery` whose VOR cache holds the given entities and whose
other caches are empty. -/
def sampleVorState (vors : List MapObject) : MapQueryState Unit :=
  { airportCache := emptyCache Unit MapObject
    waypointCache := emptyCache Unit MapObject
    vorCache := { emptyCache Unit MapObject with list := vors }
    ndbCache := emptyCache Unit MapObject
    markerCache := emptyCache Unit MapObject
    ilsCache := emptyCache Unit MapObject
    airwayCache := emptyCache Unit MapObject
    airspaceCache := emptyCache Unit MapObject
    executed := [] }

/-- An entity with the given id at longitude 0, latitude 0. -/
def sampleObject (id : ℤ) : MapObject :=
  { id := id, position := ⟨0, 0⟩, towerCoords := ⟨0, 0⟩, hasVictorAirways := false,
    hasJetAirways := false }

/-- The position of an entity is on the screen and closer than the radius. -/
def Near (conv : Pos → ScreenPos) (xs ys screenDistance : ℤ) (obj : MapObject) : Prop :=
  (conv obj.position).visible = true ∧ distanceTo conv xs ys obj.position < screenDistance

instance (conv : Pos → ScreenPos) (xs ys screenDistance : ℤ) (obj : MapObject) :
    Decidable (Near conv xs ys screenDistance obj) := by
  unfold Near; infer_instance

/-- The tower of an airport is on the screen and closer than the radius. -/
def TowerNear (conv : Pos → ScreenPos) (xs ys screenDistance : ℤ) (obj : MapObject) : Prop :=
  (conv obj.towerCoords).visible = true ∧ distanceTo conv xs ys obj.towerCoords < screenDistance

instance (conv : Pos → ScreenPos) (xs ys screenDistance : ℤ) (obj : MapObject) :
    Decidable (TowerNear conv xs ys screenDistance obj) := by
  unfold TowerNear; infer_instance

/-- The invariant of a result list with its id set: the list is sorted by
distance, and if there is an id set it holds exactly the ids of the list,
which are pairwise different. -/
def PickInv (conv : Pos → ScreenPos) (xs ys : ℤ) (acc : List MapObject × Option (List ℤ)) :
    Prop :=
  acc.1.Sorted (ByDistance conv xs ys) ∧
  ∀ s, acc.2 = some s →
    (∀ i, i ∈ s ↔ i ∈ acc.1.map (fun obj => obj.id)) ∧ (acc.1.map (fun obj => obj.id)).Nodup

/-! ## Reload: `initQueries` and `deInitQueries` -/

/-- Modelled from the spec: `SimpleRectCache::clear` is declared outside
`mapquery.cpp`; a cleared cache has no entity, no stored viewport and no
stored layer, as after construction. -/
def SimpleRectCache.clear {L T : Type} (_c : SimpleRectCache L T) : SimpleRectCache L T :=
  { list := [], curRect := ⟨0, 0, 0, 0⟩, curMapLayer := none, valid := false }

/-- The members of `MapQuery` that `initQueries` and `deInitQueries` write: the
eight per-kind caches (with the log of executed statements), the airspace
geometry cache, the runway overview cache (`R` stands for the runway list of
an airport) and the statement handles, `none` for `nullptr` and `some text`
for a statement prepared with `text`. -/
structure MapQueryMembers (L R : Type) where
  caches : MapQueryState L
  airspaceLineCache : QCache LineString
  runwayOverwiewCache : QCache R
  statements : PreparedQuery → Option String

/-- The statement handles that `deInitQueries` deletes and sets to `nullptr`,
in the order of the source. -/
def deletedByDeInitQueries : List PreparedQuery :=
  [.airportByRectQuery, .airportMediumByRectQuery, .airportLargeByRectQuery,
   .runwayOverviewQuery, .waypointsByRectQuery, .vorsByRectQuery, .ndbsByRectQuery,
   .markersByRectQuery, .ilsByRectQuery, .airwayByRectQuery, .airspaceByRectQuery,
   .airspaceByRectBelowAltQuery, .airspaceByRectAboveAltQuery, .airspaceByRectAtAltQuery,
   .airspaceLinesByIdQuery, .airspaceByIdQuery, .airwayByWaypointIdQuery,
   .airwayByNameAndWaypointQuery, .airwayByIdQuery, .vorByIdentQuery, .ndbByIdentQuery,
   .waypointByIdentQuery, .ilsByIdentQuery, .vorByIdQuery, .ndbByIdQuery, .vorByWaypointIdQuery,
   .ndbByWaypointIdQuery, .vorNearestQuery, .ndbNearestQuery, .waypointByIdQuery, .ilsByIdQuery,
   .airwayWaypointByIdentQuery, .airwayByNameQuery, .airwayWaypointsQuery]

/-- The statement handles that `initQueries` creates with `new SqlQuery` and
prepares, in the order of the source. -/
def createdByInitQueries : List PreparedQuery :=
  [.vorByIdentQuery, .ndbByIdentQuery, .waypointByIdentQuery, .ilsByIdentQuery, .vorByIdQuery,
   .ndbByIdQuery, .vorByWaypointIdQuery, .ndbByWaypointIdQuery, .vorNearestQuery,
   .ndbNearestQuery, .waypointByIdQuery, .ilsByIdQuery, .airportByRectQuery,
   .airportMediumByRectQuery, .airportLargeByRectQuery, .runwayOverviewQuery,
   .waypointsByRectQuery, .vorsByRectQuery, .ndbsByRectQuery, .markersByRectQuery,
   .ilsByRectQuery, .airwayByRectQuery, .airwayByWaypointIdQuery, .airwayByNameAndWaypointQuery,
   .airwayByIdQuery, .airspaceByIdQuery, .airwayWaypointByIdentQuery, .airwayByNameQuery,
   .airwayWaypointsQuery, .airspaceByRectQuery, .airspaceByRectBelowAltQuery,
   .airspaceByRectAboveAltQuery, .airspaceByRectAtAltQuery, .airspaceLinesByIdQuery]

/-- A translation of `MapQuery::deInitQueries`: every cache is cleared, then
every statement is deleted and its handle set to `nullptr`. -/
def deInitQueries {L R : Type} (m : MapQueryMembers L R) : MapQueryMembers L R :=
  { caches :=
      { airportCache := m.caches.airportCache.clear
        waypointCache := m.caches.waypointCache.clear
        vorCache := m.caches.vorCache.clear
        ndbCache := m.caches.ndbCache.clear
        markerCache := m.caches.markerCache.clear
        ilsCache := m.caches.ilsCache.clear
        airwayCache := m.caches.airwayCache.clear
        airspaceCache := m.caches.airspaceCache.clear
        executed := m.caches.executed }
    airspaceLineCache := m.airspaceLineCache.clear
    runwayOverwiewCache := m.runwayOverwiewCache.clear
    statements := deletedByDeInitQueries.foldl (fun handles q => Function.update handles q none)
      m.statements }

/-- A translation of `MapQuery::initQueries`: `deInitQueries()` first, then
every statement is created and prepared with its text. -/
def initQueries {L R : Type} (queryMaxRows : ℤ) (airportQueryBase : List String)
    (m : MapQueryMembers L R) : MapQueryMembers L R :=
  let m1 := deInitQueries m
  { m1 with
    statements := createdByInitQueries.foldl
      (fun handles q =>
        Function.update handles q (some (Sql.initQueries queryMaxRows airportQueryBase q)))
      m1.statements }

/-- Every cache that `deInitQueries` clears is empty: the eight per-kind
caches, the airspace geometry cache and the runway overview cache. -/
def CachesEmpty {L R : Type} (m : MapQueryMembers L R) : Prop :=
  m.caches.airportCache.list = [] ∧ m.caches.waypointCache.list = [] ∧
  m.caches.vorCache.list = [] ∧ m.caches.ndbCache.list = [] ∧
  m.caches.markerCache.list = [] ∧ m.caches.ilsCache.list = [] ∧
  m.caches.airwayCache.list = [] ∧ m.caches.airspaceCache.list = [] ∧
  m.airspaceLineCache.entries = [] ∧ m.runwayOverwiewCache.entries = []

end MapQuery

namespace MapQuery

open Marble

/-! ## The constructor and the persisted tunables -/

/-- The values persisted under the keys that the constructor reads
(`lnm::SETTINGS_MAPQUERY + "RunwayOverwiewCache"` and so on), each as the
number that `toInt()` or `toDouble()` makes of it; `none` if nothing is
persisted under the key. -/
structure PersistedSettings where
  RunwayOverwiewCache : Option ℤ
  AirspaceLineCache : Option ℤ
  QueryRectInflationFactor : Option ℚ
  QueryRectInflationIncrement : Option ℚ
  QueryRowLimit : Option ℤ

/-- Library function `Settings::getAndStoreValue(key, defaultValue)`: the
persisted value of the key, or the default if there is none. -/
def getAndStoreValue {α : Type} (persisted : Option α) (defaultValue : α) : α :=
  match persisted with
  | some value => value
  | none => defaultValue

/-- What the constructor sets: the capacities passed to `setMaxCost` of the
runway overview cache and of the airspace geometry cache, and the three
tunables of the queries. -/
structure Tunables where
  runwayOverwiewCacheMaxCost : ℤ
  airspaceLineCacheMaxCost : ℤ
  cfg : Settings

set_option linter.dupNamespace false in
/-- The constructor `MapQuery::MapQuery`. -/
def MapQuery (persisted : PersistedSettings) : Tunables :=
  { runwayOverwiewCacheMaxCost := getAndStoreValue persisted.RunwayOverwiewCache 1000
    airspaceLineCacheMaxCost := getAndStoreValue persisted.AirspaceLineCache 10000
    cfg :=
      { queryRectInflationFactor := getAndStoreValue persisted.QueryRectInflationFactor (3 / 10)
        queryRectInflationIncrement :=
          getAndStoreValue persisted.QueryRectInflationIncrement (1 / 10)
        queryMaxRows := getAndStoreValue persisted.QueryRowLimit 5000 } }

/-! ## Lookups by id, nearest navaid and airway waypoints -/

/-- A row of the table `waypoint` with the columns the airway lookups join
and compare. -/
structure WaypointRecord where
  waypoint_id : ℤ
  ident : String
  region : String
deriving DecidableEq

/-- A row of the table `airway` with the columns that
`getWaypointListForAirwayName` reads and the airway lookups compare. -/
structure AirwayRecord where
  airway_id : ℤ
  airway_name : String
  airway_fragment_no : ℤ
  sequence_no : ℤ
  from_waypoint_id : ℤ
  to_waypoint_id : ℤ
deriving DecidableEq

/-- The tables that the lookups read: `vor`, `ndb`, `waypoint`, `airway` and
`boundary` of the navigation database, `ils` of the simulator database, and
`airport` and `runway_end` of both, which the airport queries read. -/
structure Tables where
  vor : List SqlRecord
  ndb : List SqlRecord
  waypoint : List WaypointRecord
  airway : List AirwayRecord
  boundary : List SqlRecord
  ils : List SqlRecord
  airportSim : List SqlRecord
  airportNav : List SqlRecord
  runwayEndSim : List SqlRecord
  runwayEndNav : List SqlRecord

/-- What the lookups use from `MapTypesFactory` and from the map types of
`common/maptypes.h`, for an entity type `E` that stands for `MapAirport`,
`MapVor`, `MapNdb`, `MapWaypoint`, `MapIls`, `MapRunwayEnd` and `MapAirspace`:
the default-constructed entity, `isValid`, and the fill functions, which
write the columns of a row into the entity passed in. -/
structure MapTypesFactory (E : Type) where
  default : E
  isValid : E → Bool
  fillVor : SqlRecord → E → E
  fillNdb : SqlRecord → E → E
  fillIls : SqlRecord → E → E
  fillWaypoint : WaypointRecord → E → E
  fillAirspace : SqlRecord → E → E
  fillAirport : SqlRecord → E → E
  fillRunwayEnd : SqlRecord → E → E

/-- The statements `select ... from <table> where <table>_id = :id`
(`vorByIdQuery`, `ndbByIdQuery`, `ilsByIdQuery`, `airspaceByIdQuery`) over a
table, with the bound id. -/
def selectById (table : List SqlRecord) (id : ℤ) : List SqlRecord :=
  table.filter (fun row => row.id == id)

/-- The statement `waypointByIdQuery`,
`select ... from waypoint where waypoint_id = :id`. -/
def selectWaypointById (table : List WaypointRecord) (id : ℤ) : List WaypointRecord :=
  table.filter (fun row => row.waypoint_id == id)

/-- `MapQuery::getVorById`: the default entity, filled from the first row if
the statement returns one. -/
def getVorById {E : Type} (f : MapTypesFactory E) (t : Tables) (id : ℤ) : E :=
  match selectById t.vor id with
  | row :: _ => f.fillVor row f.default
  | [] => f.default

/-- `MapQuery::getNdbById`. -/
def getNdbById {E : Type} (f : MapTypesFactory E) (t : Tables) (id : ℤ) : E :=
  match selectById t.ndb id with
  | row :: _ => f.fillNdb row f.default
  | [] => f.default

/-- `MapQuery::getIlsById`. -/
def getIlsById {E : Type} (f : MapTypesFactory E) (t : Tables) (id : ℤ) : E :=
  match selectById t.ils id with
  | row :: _ => f.fillIls row f.default
  | [] => f.default

/-- `MapQuery::getWaypointById`. -/
def getWaypointById {E : Type} (f : MapTypesFactory E) (t : Tables) (id : ℤ) : E :=
  match selectWaypointById t.waypoint id with
  | row :: _ => f.fillWaypoint row f.default
  | [] => f.default

/-- `MapQuery::getAirspaceById(int)`: the overload that fills a
default-constructed airspace. -/
def getAirspaceById {E : Type} (f : MapTypesFactory E) (t : Tables) (airspaceId : ℤ) : E :=
  match selectById t.boundary airspaceId with
  | row :: _ => f.fillAirspace row f.default
  | [] => f.default

/-- Modelled from the spec: `AirportQuery::getAirportById` is declared outside
`mapquery.cpp`. An id lookup that matches nothing gives an explicit no-value
result, here the default entity; otherwise the entity is filled from the row. -/
def getAirportById {E : Type} (f : MapTypesFactory E) (airport : List SqlRecord) (id : ℤ) : E :=
  match selectById airport id with
  | row :: _ => f.fillAirport row f.default
  | [] => f.default

/-- Modelled from the spec: `AirportQuery::getRunwayEndById` is declared
outside `mapquery.cpp`. An id lookup that matches nothing gives an explicit
no-value result, here the default entity; otherwise the entity is filled from
the row. -/
def getRunwayEndById {E : Type} (f : MapTypesFactory E) (runwayEnd : List SqlRecord) (id : ℤ) :
    E :=
  match selectById runwayEnd id with
  | row :: _ => f.fillRunwayEnd row f.default
  | [] => f.default

/-- The constants of `map::MapObjectTypes` (declared in `common/maptypes.h`)
that `getMapObjectById` compares the type with. -/
structure MapObjectIdConsts where
  AIRPORT : ℕ
  VOR : ℕ
  NDB : ℕ
  WAYPOINT : ℕ
  ILS : ℕ
  RUNWAYEND : ℕ
  AIRSPACE : ℕ

/-- The lists of `map::MapSearchResult` that the lookups by id and by name
append to, with the other entity lists of the class; the entities are of the
type `E` of the factory. -/
structure MapSearchResultOf (E : Type) where
  airports : List E
  towers : List E
  parkings : List E
  helipads : List E
  waypoints : List E
  vors : List E
  ndbs : List E
  markers : List E
  ils : List E
  airways : List E
  airspaces : List E
  runwayEnds : List E

/-- A default-constructed `map::MapSearchResult`. -/
def MapSearchResultOf.empty (E : Type) : MapSearchResultOf E :=
  { airports := [], towers := [], parkings := [], helipads := [], waypoints := [], vors := [],
    ndbs := [], markers := [], ils := [], airways := [], airspaces := [], runwayEnds := [] }

/-- `MapQuery::getMapObjectById`; `type == map::AIRPORT` and so on compare the
whole flag value. -/
def getMapObjectById {E : Type} (consts : MapObjectIdConsts) (f : MapTypesFactory E)
    (t : Tables) (result : MapSearchResultOf E) (type : ℕ) (id : ℤ)
    (airportFromNavDatabase : Bool) : MapSearchResultOf E :=
  if type = consts.AIRPORT then
    let airport :=
      getAirportById f (if airportFromNavDatabase then t.airportNav else t.airportSim) id
    if f.isValid airport then { result with airports := result.airports ++ [airport] }
    else result
  else if type = consts.VOR then
    let vor := getVorById f t id
    if f.isValid vor then { result with vors := result.vors ++ [vor] } else result
  else if type = consts.NDB then
    let ndb := getNdbById f t id
    if f.isValid ndb then { result with ndbs := result.ndbs ++ [ndb] } else result
  else if type = consts.WAYPOINT then
    let waypoint := getWaypointById f t id
    if f.isValid waypoint then { result with waypoints := result.waypoints ++ [waypoint] }
    else result
  else if type = consts.ILS then
    let ils := getIlsById f t id
    if f.isValid ils then { result with ils := result.ils ++ [ils] } else result
  else if type = consts.RUNWAYEND then
    let end_ :=
      getRunwayEndById f (if airportFromNavDatabase then t.runwayEndNav else t.runwayEndSim) id
    if f.isValid end_ then { result with runwayEnds := result.runwayEnds ++ [end_] }
    else result
  else if type = consts.AIRSPACE then
    let airspace := getAirspaceById f t id
    if f.isValid airspace then { result with airspaces := result.airspaces ++ [airspace] }
    else result
  else result

/-- A factory in which an entity is the id it was filled with; the default
entity has no id and is not valid. -/
def sampleFactory : MapTypesFactory (Option ℤ) :=
  { default := none
    isValid := fun e => e.isSome
    fillVor := fun row _ => some row.id
    fillNdb := fun row _ => some row.id
    fillIls := fun row _ => some row.id
    fillWaypoint := fun row _ => some row.waypoint_id
    fillAirspace := fun row _ => some row.id
    fillAirport := fun row _ => some row.id
    fillRunwayEnd := fun row _ => some row.id }

/-- Sample type constants, one bit each. -/
def sampleIdConsts : MapObjectIdConsts :=
  { AIRPORT := 1, VOR := 2, NDB := 4, WAYPOINT := 8, ILS := 128, RUNWAYEND := 256,
    AIRSPACE := 512 }

/-- Tables with the VOR 1, the NDB 2, the waypoints `ABC` (id 1) and `DEF`
(id 2) and the airway `V1` from `ABC` to `DEF`; the other tables are empty. -/
def sampleTables : Tables :=
  { vor := [sampleRecord 1]
    ndb := [sampleRecord 2]
    waypoint := [⟨1, "ABC", "ED"⟩, ⟨2, "DEF", "ED"⟩]
    airway := [⟨10, "V1", 1, 1, 1, 2⟩]
    boundary := []
    ils := []
    airportSim := []
    airportNav := []
    runwayEndSim := []
    runwayEndNav := [] }

/-! ## Nearest navaid -/

/-- The expression `abs(lonx - :lonx) + abs(laty - :laty)` that the nearest
statements order by, for a row and the bound position. -/
def nearestOrderKey (lonx laty : ℚ) (row : SqlRecord) : ℚ :=
  |row.lonx - lonx| + |row.laty - laty|

/-- The statements `vorNearestQuery` and `ndbNearestQuery`,
`select ... from <table> order by (abs(lonx - :lonx) + abs(laty - :laty)) limit 1`,
over a table; SQL leaves the order of rows with equal keys open, here it is
the one of insertion sort. -/
def selectNearest (table : List SqlRecord) (lonx laty : ℚ) : List SqlRecord :=
  (table.insertionSort
    (fun a b => nearestOrderKey lonx laty a ≤ nearestOrderKey lonx laty b)).take 1

/-- `MapQuery::getVorNearest`: the entity passed in is filled from the first
row if the statement returns one. -/
def getVorNearest {E : Type} (f : MapTypesFactory E) (t : Tables) (vor : E) (pos : Pos) : E :=
  match selectNearest t.vor pos.lonx pos.laty with
  | row :: _ => f.fillVor row vor
  | [] => vor

/-- `MapQuery::getNdbNearest`. -/
def getNdbNearest {E : Type} (f : MapTypesFactory E) (t : Tables) (ndb : E) (pos : Pos) : E :=
  match selectNearest t.ndb pos.lonx pos.laty with
  | row :: _ => f.fillNdb row ndb
  | [] => ndb

/-! ## Waypoints of an airway -/

/-- The statement `airwayWaypointByIdentQuery`: the waypoints joined with the
airways that start at them, and, united with these (`union` drops duplicate
rows), the waypoints joined with the airways that end at them, each with
`where w.ident = :waypoint and a.airway_name = :airway`. -/
def selectAirwayWaypointByIdent (t : Tables) (waypoint airway : String) : List WaypointRecord :=
  (t.waypoint.flatMap (fun w =>
      (t.airway.filter (fun a =>
        w.waypoint_id == a.from_waypoint_id && (w.ident == waypoint && a.airway_name == airway))).map
        (fun _ => w)) ++
    t.waypoint.flatMap (fun w =>
      (t.airway.filter (fun a =>
        w.waypoint_id == a.to_waypoint_id && (w.ident == waypoint && a.airway_name == airway))).map
        (fun _ => w))).dedup

/-- `MapQuery::getWaypointsForAirway`: an empty name or ident is bound as `%`. -/
def getWaypointsForAirway {E : Type} (f : MapTypesFactory E) (t : Tables) (waypoints : List E)
    (airwayName waypointIdent : String) : List E :=
  waypoints ++
    (selectAirwayWaypointByIdent t
      (if waypointIdent.isEmpty then "%" else waypointIdent)
      (if airwayName.isEmpty then "%" else airwayName)).map
      (fun row => f.fillWaypoint row f.default)

/-- The exception `atools::sql::SqlException`. -/
structure SqlException where
  message : String
deriving DecidableEq

/-- A datastore whose statements can fail. Library function `SqlQuery::exec()`
of atools: it returns nothing and throws `SqlException` if the statement cannot
be executed; otherwise the rows are read with `next()`. -/
abbrev FailingDatabase := Statement → Bindings → Except SqlException (List SqlRecord)

/-- A loop whose body can throw: the iterations run until one throws; what
remains is the state at the throw together with the exception, or the state
after the last iteration. -/
def forThrowing {α σ : Type} (l : List α) (body : σ → α → σ × Option SqlException) (s : σ) :
    σ × Option SqlException :=
  l.foldl
    (fun acc a =>
      match acc.2 with
      | some _ => acc
      | none => body acc.1 a)
    (s, none)

namespace Throwing

/-- The fetch loop of the five point getters (`getWaypoints`, `getVors`,
`getNdbs`, `getMarkers`, `getIls`) over a datastore whose statements can fail:
there is no handler, an exception of `exec()` leaves the loop and the getter. -/
def fetchByRect {L T : Type} (env : Env L) (db : FailingDatabase) (stmt : Statement)
    (fill : SqlRecord → T) (rect : GeoDataLatLonBox) (st : QueryState L T) :
    QueryState L T × Option SqlException :=
  forThrowing (splitAtAntiMeridian env.cfg rect)
    (fun st r =>
      let b := bindCoordinatePointInRect r
      let st1 : QueryState L T := { st with executed := st.executed ++ [{ stmt := stmt, bound := b }] }
      match db stmt b with
      | .error e => (st1, some e)
      | .ok rows =>
        (rows.foldl
          (fun st row => { st with cache := { st.cache with list := st.cache.list ++ [fill row] } })
          st1, none))
    st

/-- The body shared by the five point getters over a datastore whose
statements can fail: `validate()` is reached only if no `exec()` throws. -/
def getByRect {L T : Type} (env : Env L) (db : FailingDatabase) (stmt : Statement)
    (funcSameLayer : L → L → Bool) (fill : SqlRecord → T) (st : QueryState L T)
    (rect : GeoDataLatLonBox) (mapLayer : L) (lazy : Bool) :
    QueryState L T × Option SqlException :=
  let st1 : QueryState L T :=
    { st with cache := st.cache.updateCache env.covers rect mapLayer lazy funcSameLayer }
  if st1.cache.list.isEmpty && !lazy then
    match fetchByRect env db stmt fill rect st1 with
    | (st2, some e) => (st2, some e)
    | (st2, none) => ({ st2 with cache := st2.cache.validate }, none)
  else ({ st1 with cache := st1.cache.validate }, none)

/-- `MapQuery::getWaypoints` over a datastore whose statements can fail. -/
def getWaypoints {L T : Type} (env : Env L) (db : FailingDatabase) (fillWaypoint : SqlRecord → T)
    (st : QueryState L T) (rect : GeoDataLatLonBox) (mapLayer : L) (lazy : Bool) :
    QueryState L T × Option SqlException :=
  getByRect env db .waypointsByRectQuery env.layer.hasSameQueryParametersWaypoint fillWaypoint
    st rect mapLayer lazy

/-- `MapQuery::getVors` over a datastore whose statements can fail. -/
def getVors {L T : Type} (env : Env L) (db : FailingDatabase) (fillVor : SqlRecord → T)
    (st : QueryState L T) (rect : GeoDataLatLonBox) (mapLayer : L) (lazy : Bool) :
    QueryState L T × Option SqlException :=
  getByRect env db .vorsByRectQuery env.layer.hasSameQueryParametersVor fillVor st rect
    mapLayer lazy

/-- `MapQuery::getNdbs` over a datastore whose statements can fail. -/
def getNdbs {L T : Type} (env : Env L) (db : FailingDatabase) (fillNdb : SqlRecord → T)
    (st : QueryState L T) (rect : GeoDataLatLonBox) (mapLayer : L) (lazy : Bool) :
    QueryState L T × Option SqlException :=
  getByRect env db .ndbsByRectQuery env.layer.hasSameQueryParametersNdb fillNdb st rect
    mapLayer lazy

/-- `MapQuery::getMarkers` over a datastore whose statements can fail. -/
def getMarkers {L T : Type} (env : Env L) (db : FailingDatabase) (fillMarker : SqlRecord → T)
    (st : QueryState L T) (rect : GeoDataLatLonBox) (mapLayer : L) (lazy : Bool) :
    QueryState L T × Option SqlException :=
  getByRect env db .markersByRectQuery env.layer.hasSameQueryParametersMarker fillMarker
    st rect mapLayer lazy

/-- `MapQuery::getIls` over a datastore whose statements can fail. -/
def getIls {L T : Type} (env : Env L) (db : FailingDatabase) (fillIls : SqlRecord → T)
    (st : QueryState L T) (rect : GeoDataLatLonBox) (mapLayer : L) (lazy : Bool) :
    QueryState L T × Option SqlException :=
  getByRect env db .ilsByRectQuery env.layer.hasSameQueryParametersIls fillIls st rect
    mapLayer lazy

/-- `MapQuery::fetchAirports` over a datastore whose statements can fail. -/
def fetchAirports {L T : Type} (env : Env L) (db : FailingDatabase)
    (fillOverview fillComplete : SqlRecord → T) (st : QueryState L T) (rect : GeoDataLatLonBox)
    (query : Statement) (minlength : Option ℤ) (reverse lazy overview : Bool) :
    QueryState L T × Option SqlException :=
  if st.cache.list.isEmpty && !lazy then
    match
      forThrowing (splitAtAntiMeridian env.cfg rect)
        (fun (st : QueryState L T) r =>
          let b : Bindings := { bindCoordinatePointInRect r with minlength := minlength }
          let st1 : QueryState L T :=
            { st with executed := st.executed ++ [{ stmt := query, bound := b }] }
          match db query b with
          | .error e => (st1, some e)
          | .ok rows =>
            (rows.foldl
              (fun st row =>
                let ap := if overview then fillOverview row else fillComplete row
                if reverse then { st with cache := { st.cache with list := ap :: st.cache.list } }
                else { st with cache := { st.cache with list := st.cache.list ++ [ap] } })
              st1, none))
        st
    with
    | (st2, some e) => (st2, some e)
    | (st2, none) => ({ st2 with cache := st2.cache.validate }, none)
  else ({ st with cache := st.cache.validate }, none)

/-- `MapQuery::getAirports` over a datastore whose statements can fail. -/
def getAirports {L T : Type} (env : Env L) (db : FailingDatabase)
    (fillOverview fillComplete : SqlRecord → T) (st : QueryState L T) (rect : GeoDataLatLonBox)
    (mapLayer : L) (lazy : Bool) : QueryState L T × Option SqlException :=
  let st1 : QueryState L T :=
    { st with cache := st.cache.updateCache env.covers rect mapLayer lazy
                          env.layer.hasSameQueryParametersAirport }
  match env.layer.getDataSource mapLayer with
  | .ALL =>
    fetchAirports env db fillOverview fillComplete st1 rect .airportByRectQuery
      (some (env.layer.getMinRunwayLength mapLayer)) true lazy false
  | .MEDIUM =>
    fetchAirports env db fillOverview fillComplete st1 rect .airportMediumByRectQuery none
      false lazy true
  | .LARGE =>
    fetchAirports env db fillOverview fillComplete st1 rect .airportLargeByRectQuery none
      false lazy true

/-- `MapQuery::getAirways` over a datastore whose statements can fail. -/
def getAirways {L T : Type} (env : Env L) (db : FailingDatabase) (fillAirway : SqlRecord → T)
    (idOf : T → ℤ) (st : QueryState L T) (rect : GeoDataLatLonBox) (mapLayer : L)
    (lazy : Bool) : QueryState L T × Option SqlException :=
  let st1 : QueryState L T :=
    { st with cache := st.cache.updateCache env.covers rect mapLayer lazy
                          env.layer.hasSameQueryParametersAirway }
  if st1.cache.list.isEmpty && !lazy then
    match
      forThrowing (splitAtAntiMeridian env.cfg rect)
        (fun (fs : FetchState (QueryState L T)) r =>
          let b := bindCoordinatePointInRect r
          let fs1 : FetchState (QueryState L T) :=
            { fs with st := { fs.st with
                executed := fs.st.executed ++ [{ stmt := .airwayByRectQuery, bound := b }] } }
          match db .airwayByRectQuery b with
          | .error e => (fs1, some e)
          | .ok rows =>
            (rows.foldl
              (fun (fs : FetchState (QueryState L T)) row =>
                if row.id ∈ fs.ids then fs
                else if env.intersects rect (recordBox row) then
                  let airway := fillAirway row
                  { st := { fs.st with
                            cache := { fs.st.cache with list := fs.st.cache.list ++ [airway] } },
                    ids := idOf airway :: fs.ids }
                else fs)
              fs1, none))
        { st := st1, ids := [] }
    with
    | (fs, some e) => (fs.st, some e)
    | (fs, none) => ({ fs.st with cache := fs.st.cache.validate }, none)
  else ({ st1 with cache := st1.cache.validate }, none)

/-- The fetch of `getAirspaces` over a datastore whose statements can fail:
the sort is reached only if no `exec()` throws. -/
def fetchAirspaces {L T : Type} (env : Env L) (db : FailingDatabase) (api : AirspaceApi T)
    (st : AirspaceState L T) (rect : GeoDataLatLonBox) (filter : MapAirspaceFilter)
    (flightPlanAltitude : ℚ) : AirspaceState L T × Option SqlException :=
  let typeStrings := airspaceTypeStrings api filter
  let query := (airspaceQueryAndAlt api filter flightPlanAltitude).1
  let alt := (airspaceQueryAndAlt api filter flightPlanAltitude).2
  match
    forThrowing (splitAtAntiMeridian env.cfg rect)
      (fun (fs : FetchState (AirspaceState L T)) r =>
        forThrowing typeStrings
          (fun (fs : FetchState (AirspaceState L T)) typeStr =>
            let b : Bindings :=
              { bindCoordinatePointInRect r with
                type := some typeStr, alt := if alt > 0 then some alt else none }
            let fs1 : FetchState (AirspaceState L T) :=
              { fs with st := { fs.st with
                  executed := fs.st.executed ++ [{ stmt := query, bound := b }] } }
            match db query b with
            | .error e => (fs1, some e)
            | .ok rows =>
              (rows.foldl
                (fun (fs : FetchState (AirspaceState L T)) row =>
                  if row.id ∈ fs.ids then fs
                  else if env.intersects rect (recordBox row) then
                    let airspace := api.fillAirspace row
                    { st := { fs.st with
                              cache := { fs.st.cache with
                                list := fs.st.cache.list ++ [airspace] } },
                      ids := api.idOf airspace :: fs.ids }
                  else fs)
                fs1, none))
          fs)
      { st := st, ids := [] }
  with
  | (fetched, some e) => (fetched.st, some e)
  | (fetched, none) =>
    ({ fetched.st with
        cache := { fetched.st.cache with
          list := sortByDrawingOrder api fetched.st.cache.list } }, none)

/-- `MapQuery::getAirspaces` over a datastore whose statements can fail. -/
def getAirspaces {L T : Type} (env : Env L) (db : FailingDatabase) (api : AirspaceApi T)
    (st : AirspaceState L T) (rect : GeoDataLatLonBox) (mapLayer : L)
    (filter : MapAirspaceFilter) (flightPlanAltitude : ℚ) (lazy : Bool) :
    AirspaceState L T × Option SqlException :=
  let st1 : AirspaceState L T :=
    { st with cache := st.cache.updateCache env.covers rect mapLayer lazy
                          env.layer.hasSameQueryParametersAirspace }
  let st2 : AirspaceState L T :=
    if filter.types ≠ st1.lastAirspaceFilter.types ∨ filter.flags ≠ st1.lastAirspaceFilter.flags ∨
        almostNotEqual st1.lastFlightplanAltitude flightPlanAltitude = true then
      { st1 with cache := { st1.cache with list := [] },
                 lastAirspaceFilter := filter,
                 lastFlightplanAltitude := flightPlanAltitude }
    else st1
  if st2.cache.list.isEmpty && !lazy then
    if filter.types ≠ api.AIRSPACE_NONE then
      match fetchAirspaces env db api st2 rect filter flightPlanAltitude with
      | (st3, some e) => (st3, some e)
      | (st3, none) => ({ st3 with cache := st3.cache.validate }, none)
    else ({ st2 with cache := st2.cache.validate }, none)
  else ({ st2 with cache := st2.cache.validate }, none)

end Throwing

/-- A datastore whose statements never fail. -/
def neverFailing (db : Database) : FailingDatabase :=
  fun stmt b => .ok (db stmt b)

end MapQuery

/-! # Theorems -/

namespace Marble

theorem truncToInt_of_nonneg {x : ℚ} (h : 0 ≤ x) : truncToInt x = ⌊x⌋ := by
  simp [truncToInt, h]

theorem truncToInt_of_neg {x : ℚ} (h : x < 0) : truncToInt x = ⌈x⌉ := by
  simp [truncToInt, not_le.mpr h]

theorem normalizeLon_of_mem {x : ℚ} (h1 : -180 ≤ x) (h2 : x ≤ 180) : normalizeLon x = x := by
  simp [normalizeLon, not_lt.mpr h1, not_lt.mpr h2]

/-- Whatever its argument, `normalizeLon` lands within ±180. -/
theorem normalizeLon_mem (x : ℚ) : -180 ≤ normalizeLon x ∧ normalizeLon x ≤ 180 := by
  unfold normalizeLon
  split_ifs with h1 h2
  · have hq : (0 : ℚ) ≤ (x + 180) / 360 := by
      apply div_nonneg <;> linarith
    rw [truncToInt_of_nonneg hq]
    have hle := Int.floor_le ((x + 180) / 360)
    have hlt := Int.lt_floor_add_one ((x + 180) / 360)
    constructor <;> linarith
  · have hq : (x - 180) / 360 < 0 := by
      apply div_neg_of_neg_of_pos <;> linarith
    rw [truncToInt_of_neg hq]
    have hle := Int.le_ceil ((x - 180) / 360)
    have hlt := Int.ceil_lt_add_one ((x - 180) / 360)
    constructor <;> linarith
  · exact ⟨not_lt.mp h2, not_lt.mp h1⟩

theorem normalizeLon_wrap_east {x : ℚ} (h1 : 180 < x) (h2 : x < 540) :
    normalizeLon x = x - 360 := by
  have hq : (0 : ℚ) ≤ (x + 180) / 360 := by apply div_nonneg <;> linarith
  have hf : ⌊(x + 180) / 360⌋ = 1 := by
    rw [Int.floor_eq_iff]
    constructor
    · rw [le_div_iff₀ (by norm_num)]; push_cast; linarith
    · rw [div_lt_iff₀ (by norm_num)]; push_cast; linarith
  simp [normalizeLon, h1, truncToInt_of_nonneg hq, hf]

theorem normalizeLon_wrap_west {x : ℚ} (h1 : x < -180) (h2 : -540 < x) :
    normalizeLon x = x + 360 := by
  have hq : (x - 180) / 360 < 0 := by apply div_neg_of_neg_of_pos <;> linarith
  have hf : ⌈(x - 180) / 360⌉ = -1 := by
    rw [Int.ceil_eq_iff]
    constructor
    · rw [lt_div_iff₀ (by norm_num)]; push_cast; linarith
    · rw [div_le_iff₀ (by norm_num)]; push_cast; linarith
  have h3 : ¬ (x > 180) := by intro h; linarith
  simp [normalizeLon, h1, h3, truncToInt_of_neg hq, hf]

theorem normalizeLat_of_mem {x : ℚ} (h1 : -90 ≤ x) (h2 : x ≤ 90) : normalizeLat x = x := by
  simp [normalizeLat, not_lt.mpr h1, not_lt.mpr h2]

namespace GeoDataLatLonBox

theorem centerLat_eq (b : GeoDataLatLonBox) : b.centerLat = (b.north + b.south) / 2 := by
  unfold centerLat isEmpty
  split_ifs with h
  · have hb : b = ⟨0, 0, 0, 0⟩ := by simpa using h
    subst hb
    norm_num
  · ring

theorem height_nonneg (b : GeoDataLatLonBox) : 0 ≤ b.height := abs_nonneg _

theorem height_eq {b : GeoDataLatLonBox} (h : b.south ≤ b.north) :
    b.height = b.north - b.south := by
  unfold height
  rw [abs_sub_comm, abs_of_nonneg (by linarith)]

theorem scale_north (b : GeoDataLatLonBox) (vf hf : ℚ) :
    (b.scale vf hf).north = min (b.centerLat + 1 / 2 * b.height * vf) 90 := by
  simp only [scale]
  split_ifs <;> rfl

theorem scale_south (b : GeoDataLatLonBox) (vf hf : ℚ) :
    (b.scale vf hf).south = max (b.centerLat - 1 / 2 * b.height * vf) (-90) := by
  simp only [scale]
  split_ifs <;> rfl

theorem scale_east_mem (b : GeoDataLatLonBox) (vf hf : ℚ) :
    -180 ≤ (b.scale vf hf).east ∧ (b.scale vf hf).east ≤ 180 := by
  simp only [scale]
  split_ifs
  · norm_num
  · exact normalizeLon_mem _

theorem scale_west_mem (b : GeoDataLatLonBox) (vf hf : ℚ) :
    -180 ≤ (b.scale vf hf).west ∧ (b.scale vf hf).west ≤ 180 := by
  simp only [scale]
  split_ifs
  · norm_num
  · exact normalizeLon_mem _

/-- Scaling a valid box by a non-negative vertical factor gives a valid box. -/
theorem scale_valid {b : GeoDataLatLonBox} (hv : b.Valid) {vf : ℚ} (hvf : 0 ≤ vf) (hf : ℚ) :
    (b.scale vf hf).Valid := by
  obtain ⟨⟨hs1, hs2⟩, ⟨hn1, hn2⟩, -, -⟩ := hv
  have hd : 0 ≤ 1 / 2 * b.height * vf :=
    mul_nonneg (mul_nonneg (by norm_num) b.height_nonneg) hvf
  have hc := b.centerLat_eq
  refine ⟨⟨?_, ?_⟩, ⟨?_, ?_⟩, scale_west_mem b vf hf, scale_east_mem b vf hf⟩
  · rw [scale_south]; exact le_max_right _ _
  · rw [scale_south]; apply max_le <;> linarith
  · rw [scale_north]; apply le_min <;> linarith
  · rw [scale_north]; exact min_le_right _ _

end GeoDataLatLonBox

end Marble

namespace MapQuery
open Marble Marble.GeoDataLatLonBox

/-- East edge after inflation, in terms of the scaled box. -/
theorem inflateRect_east (cfg : Settings) (r : GeoDataLatLonBox) :
    (inflateRect cfg r).east =
      if (r.scale (1 + cfg.queryRectInflationFactor) (1 + cfg.queryRectInflationFactor)).east +
          cfg.queryRectInflationIncrement < 180
      then normalizeLon
        ((r.scale (1 + cfg.queryRectInflationFactor) (1 + cfg.queryRectInflationFactor)).east +
          cfg.queryRectInflationIncrement)
      else (r.scale (1 + cfg.queryRectInflationFactor) (1 + cfg.queryRectInflationFactor)).east := by
  simp only [inflateRect]
  split_ifs <;> simp [setEast, setWest, setNorth, setSouth]

/-- West edge after inflation, in terms of the scaled box. -/
theorem inflateRect_west (cfg : Settings) (r : GeoDataLatLonBox) :
    (inflateRect cfg r).west =
      if (r.scale (1 + cfg.queryRectInflationFactor) (1 + cfg.queryRectInflationFactor)).west -
          cfg.queryRectInflationIncrement > -180
      then normalizeLon
        ((r.scale (1 + cfg.queryRectInflationFactor) (1 + cfg.queryRectInflationFactor)).west -
          cfg.queryRectInflationIncrement)
      else (r.scale (1 + cfg.queryRectInflationFactor) (1 + cfg.queryRectInflationFactor)).west := by
  simp only [inflateRect]
  split_ifs <;> simp_all [setEast, setWest, setNorth, setSouth]

/-- North edge after inflation, in terms of the scaled box. -/
theorem inflateRect_north (cfg : Settings) (r : GeoDataLatLonBox) :
    (inflateRect cfg r).north =
      if (r.scale (1 + cfg.queryRectInflationFactor) (1 + cfg.queryRectInflationFactor)).north +
          cfg.queryRectInflationIncrement < 90
      then normalizeLat
        ((r.scale (1 + cfg.queryRectInflationFactor) (1 + cfg.queryRectInflationFactor)).north +
          cfg.queryRectInflationIncrement)
      else (r.scale (1 + cfg.queryRectInflationFactor) (1 + cfg.queryRectInflationFactor)).north := by
  simp only [inflateRect]
  split_ifs <;> simp_all [setEast, setWest, setNorth, setSouth]

/-- South edge after inflation, in terms of the scaled box. -/
theorem inflateRect_south (cfg : Settings) (r : GeoDataLatLonBox) :
    (inflateRect cfg r).south =
      if (r.scale (1 + cfg.queryRectInflationFactor) (1 + cfg.queryRectInflationFactor)).south -
          cfg.queryRectInflationIncrement > -90
      then normalizeLat
        ((r.scale (1 + cfg.queryRectInflationFactor) (1 + cfg.queryRectInflationFactor)).south -
          cfg.queryRectInflationIncrement)
      else (r.scale (1 + cfg.queryRectInflationFactor) (1 + cfg.queryRectInflationFactor)).south := by
  simp only [inflateRect]
  split_ifs <;> simp_all [setEast, setWest, setNorth, setSouth]

/-- The edges after inflation of a valid box with non-negative settings: each
edge of the scaled box is moved outward by the increment when the moved edge
stays strictly inside its limit, and is left alone otherwise. -/
theorem inflateRect_edges (cfg : Settings) (r : GeoDataLatLonBox) (hv : r.Valid)
    (hf : 0 ≤ cfg.queryRectInflationFactor) (hi : 0 ≤ cfg.queryRectInflationIncrement) :
    (inflateRect cfg r).east =
      (if (r.scale (1 + cfg.queryRectInflationFactor) (1 + cfg.queryRectInflationFactor)).east +
          cfg.queryRectInflationIncrement < 180
       then (r.scale (1 + cfg.queryRectInflationFactor) (1 + cfg.queryRectInflationFactor)).east +
          cfg.queryRectInflationIncrement
       else (r.scale (1 + cfg.queryRectInflationFactor) (1 + cfg.queryRectInflationFactor)).east) ∧
    (inflateRect cfg r).west =
      (if -180 < (r.scale (1 + cfg.queryRectInflationFactor) (1 + cfg.queryRectInflationFactor)).west -
          cfg.queryRectInflationIncrement
       then (r.scale (1 + cfg.queryRectInflationFactor) (1 + cfg.queryRectInflationFactor)).west -
          cfg.queryRectInflationIncrement
       else (r.scale (1 + cfg.queryRectInflationFactor) (1 + cfg.queryRectInflationFactor)).west) ∧
    (inflateRect cfg r).north =
      (if (r.scale (1 + cfg.queryRectInflationFactor) (1 + cfg.queryRectInflationFactor)).north +
          cfg.queryRectInflationIncrement < 90
       then (r.scale (1 + cfg.queryRectInflationFactor) (1 + cfg.queryRectInflationFactor)).north +
          cfg.queryRectInflationIncrement
       else (r.scale (1 + cfg.queryRectInflationFactor) (1 + cfg.queryRectInflationFactor)).north) ∧
    (inflateRect cfg r).south =
      (if -90 < (r.scale (1 + cfg.queryRectInflationFactor) (1 + cfg.queryRectInflationFactor)).south -
          cfg.queryRectInflationIncrement
       then (r.scale (1 + cfg.queryRectInflationFactor) (1 + cfg.queryRectInflationFactor)).south -
          cfg.queryRectInflationIncrement
       else (r.scale (1 + cfg.queryRectInflationFactor) (1 + cfg.queryRectInflationFactor)).south) := by
  obtain ⟨⟨hs1, hs2⟩, ⟨hn1, hn2⟩, ⟨hw1, hw2⟩, ⟨he1, he2⟩⟩ :=
    scale_valid hv (show (0 : ℚ) ≤ 1 + cfg.queryRectInflationFactor by linarith)
      (1 + cfg.queryRectInflationFactor)
  refine ⟨?_, ?_, ?_, ?_⟩
  · rw [inflateRect_east]
    split_ifs with h
    · exact normalizeLon_of_mem (by linarith) (by linarith)
    · rfl
  · rw [inflateRect_west]
    split_ifs with h
    · exact normalizeLon_of_mem (by linarith) (by linarith)
    · rfl
  · rw [inflateRect_north]
    split_ifs with h
    · exact normalizeLat_of_mem (by linarith) (by linarith)
    · rfl
  · rw [inflateRect_south]
    split_ifs with h
    · exact normalizeLat_of_mem (by linarith) (by linarith)
    · rfl

/-- Inflating a valid box with non-negative settings gives a valid box. -/
theorem inflateRect_valid (cfg : Settings) (r : GeoDataLatLonBox) (hv : r.Valid)
    (hf : 0 ≤ cfg.queryRectInflationFactor) (hi : 0 ≤ cfg.queryRectInflationIncrement) :
    (inflateRect cfg r).Valid := by
  obtain ⟨⟨hs1, hs2⟩, ⟨hn1, hn2⟩, ⟨hw1, hw2⟩, ⟨he1, he2⟩⟩ :=
    scale_valid hv (show (0 : ℚ) ≤ 1 + cfg.queryRectInflationFactor by linarith)
      (1 + cfg.queryRectInflationFactor)
  obtain ⟨hE, hW, hN, hS⟩ := inflateRect_edges cfg r hv hf hi
  refine ⟨⟨?_, ?_⟩, ⟨?_, ?_⟩, ⟨?_, ?_⟩, ⟨?_, ?_⟩⟩
  · rw [hS]; split_ifs <;> linarith
  · rw [hS]; split_ifs <;> linarith
  · rw [hN]; split_ifs <;> linarith
  · rw [hN]; split_ifs <;> linarith
  · rw [hW]; split_ifs <;> linarith
  · rw [hW]; split_ifs <;> linarith
  · rw [hE]; split_ifs <;> linarith
  · rw [hE]; split_ifs <;> linarith

end MapQuery

namespace MapQuery
open Marble Marble.GeoDataLatLonBox

theorem crossesDateLine_iff (b : GeoDataLatLonBox) :
    b.crossesDateLine = true ↔ (b.east < b.west ∨ (b.east = 180 ∧ b.west = -180)) := by
  simp [crossesDateLine]

/-- The two parts returned for a valid inflated box that crosses the date line. -/
theorem splitAtAntiMeridian_of_crosses (cfg : Settings) (r : GeoDataLatLonBox)
    (hv : (inflateRect cfg r).Valid) (hc : (inflateRect cfg r).crossesDateLine = true) :
    splitAtAntiMeridian cfg r =
      [{ north := (inflateRect cfg r).north, south := (inflateRect cfg r).south,
         east := 180, west := (inflateRect cfg r).west },
       { north := (inflateRect cfg r).north, south := (inflateRect cfg r).south,
         east := (inflateRect cfg r).east, west := -180 }] := by
  obtain ⟨⟨hs1, hs2⟩, ⟨hn1, hn2⟩, ⟨hw1, hw2⟩, ⟨he1, he2⟩⟩ := hv
  simp only [splitAtAntiMeridian, hc, if_true, setBoundaries]
  rw [normalizeLat_of_mem hn1 hn2, normalizeLat_of_mem hs1 hs2, normalizeLon_of_mem hw1 hw2,
    normalizeLon_of_mem he1 he2, normalizeLon_of_mem (by norm_num) (by norm_num),
    normalizeLon_of_mem (by norm_num) (by norm_num)]

theorem splitAtAntiMeridian_of_not_crosses (cfg : Settings) (r : GeoDataLatLonBox)
    (hc : (inflateRect cfg r).crossesDateLine = false) :
    splitAtAntiMeridian cfg r = [inflateRect cfg r] := by
  simp [splitAtAntiMeridian, hc]

/-- Scaling the box `[-150, 150] x [-10, 10]` by 1.3 gives the full longitude range. -/
theorem scale_wide_example :
    (⟨10, -10, 150, -150⟩ : GeoDataLatLonBox).scale (1 + 3 / 10) (1 + 3 / 10) =
      ⟨13, -13, 180, -180⟩ := by
  have ha : |(300 : ℚ)| = 300 := abs_of_pos (by norm_num)
  have hb : |(20 : ℚ)| = 20 := abs_of_pos (by norm_num)
  norm_num [scale, height, width, centerLat, centerLon, isEmpty, crossesDateLine, ha, hb]

theorem inflateRect_wide_example :
    inflateRect defaultSettings ⟨10, -10, 150, -150⟩ = ⟨131 / 10, -131 / 10, 180, -180⟩ := by
  have e5 : normalizeLat (131 / 10) = 131 / 10 := normalizeLat_of_mem (by norm_num) (by norm_num)
  have e6 : normalizeLat (-(131 / 10)) = -(131 / 10) :=
    normalizeLat_of_mem (by norm_num) (by norm_num)
  simp only [inflateRect, defaultSettings, scale_wide_example]
  norm_num [setEast, setWest, setNorth, setSouth, e5, e6]

/-- Scaling the box from 179 east over the seam to -179 by 1.3. -/
theorem scale_seam_example :
    (⟨1, 0, -179, 179⟩ : GeoDataLatLonBox).scale (1 + 3 / 10) (1 + 3 / 10) =
      ⟨23 / 20, -3 / 20, -1787 / 10, 1787 / 10⟩ := by
  have e0 : normalizeLon 180 = 180 := normalizeLon_of_mem (by norm_num) (by norm_num)
  have e1 : normalizeLon (1813 / 10) = -(1787 / 10) := by
    rw [normalizeLon_wrap_east (by norm_num) (by norm_num)]; norm_num
  have e2 : normalizeLon (1787 / 10) = 1787 / 10 :=
    normalizeLon_of_mem (by norm_num) (by norm_num)
  have ha : |(2 : ℚ)| = 2 := abs_of_pos (by norm_num)
  norm_num [scale, height, width, centerLat, centerLon, isEmpty, crossesDateLine, ha, e0]
  norm_num [e1, e2]

theorem inflateRect_seam_example :
    inflateRect defaultSettings ⟨1, 0, -179, 179⟩ = ⟨5 / 4, -1 / 4, -893 / 5, 893 / 5⟩ := by
  have e3 : normalizeLon (-(893 / 5)) = -(893 / 5) :=
    normalizeLon_of_mem (by norm_num) (by norm_num)
  have e4 : normalizeLon (893 / 5) = 893 / 5 := normalizeLon_of_mem (by norm_num) (by norm_num)
  have e5 : normalizeLat (5 / 4) = 5 / 4 := normalizeLat_of_mem (by norm_num) (by norm_num)
  have e6 : normalizeLat (-(1 / 4)) = -(1 / 4) := normalizeLat_of_mem (by norm_num) (by norm_num)
  simp only [inflateRect, defaultSettings, scale_seam_example]
  norm_num [setEast, setWest, setNorth, setSouth, e3, e4, e5, e6]

/-- The viewport `[-150, 150] x [-10, 10]` is inflated to the full longitude
range and split into two boxes that both span the full range. -/
theorem splitAtAntiMeridian_wide_example :
    splitAtAntiMeridian defaultSettings ⟨10, -10, 150, -150⟩ =
      [⟨131 / 10, -131 / 10, 180, -180⟩, ⟨131 / 10, -131 / 10, 180, -180⟩] := by
  rw [splitAtAntiMeridian_of_crosses]
  · rw [inflateRect_wide_example]
  · rw [inflateRect_wide_example]; norm_num [Valid]
  · rw [inflateRect_wide_example]; simp [crossesDateLine]

end MapQuery

namespace MapQuery
open Marble Marble.GeoDataLatLonBox

/-! ## C1: the shape of the split -/

/-- C1 fails when the inflated viewport is the full longitude range: for the
viewport `[-150, 150] x [-10, 10]` and the default settings the inflated box is
`[-180, 180]`, so its east edge is not west of its west edge, and yet
`splitAtAntiMeridian` returns two boxes instead of the one inflated box. The
two are the same full-range box, not a western and an eastern part. -/
theorem splitAtAntiMeridian_fullRange_identical_parts :
    ¬ ((inflateRect defaultSettings ⟨10, -10, 150, -150⟩).east <
        (inflateRect defaultSettings ⟨10, -10, 150, -150⟩).west) ∧
    splitAtAntiMeridian defaultSettings ⟨10, -10, 150, -150⟩ =
      [⟨131 / 10, -131 / 10, 180, -180⟩, ⟨131 / 10, -131 / 10, 180, -180⟩] ∧
    splitAtAntiMeridian defaultSettings ⟨10, -10, 150, -150⟩ ≠
      [inflateRect defaultSettings ⟨10, -10, 150, -150⟩] := by
  refine ⟨?_, splitAtAntiMeridian_wide_example, ?_⟩
  · rw [inflateRect_wide_example]; norm_num
  · rw [splitAtAntiMeridian_wide_example]; simp

/-- What `splitAtAntiMeridian` computes for every valid box `r` and
non-negative inflation settings: a list of length 1 or 2. If
`crossesDateLine` holds of the inflated box (east < west, or the box is the
full longitude range east = 180 and west = -180) the result is the two boxes
`[west = inflate(r).west, east = 180]` and `[west = -180, east = inflate(r).east]`,
both with the north and south of the inflated box; otherwise it is the one box
`inflate(r)`. In the full-range case the two boxes are equal. -/
theorem splitAtAntiMeridian_spec (cfg : Settings) (r : GeoDataLatLonBox) (hv : r.Valid)
    (hf : 0 ≤ cfg.queryRectInflationFactor) (hi : 0 ≤ cfg.queryRectInflationIncrement) :
    ((splitAtAntiMeridian cfg r).length = 1 ∨ (splitAtAntiMeridian cfg r).length = 2) ∧
    (((inflateRect cfg r).east < (inflateRect cfg r).west ∨
        ((inflateRect cfg r).east = 180 ∧ (inflateRect cfg r).west = -180)) →
      splitAtAntiMeridian cfg r =
        [{ north := (inflateRect cfg r).north, south := (inflateRect cfg r).south,
           east := 180, west := (inflateRect cfg r).west },
         { north := (inflateRect cfg r).north, south := (inflateRect cfg r).south,
           east := (inflateRect cfg r).east, west := -180 }]) ∧
    (¬ ((inflateRect cfg r).east < (inflateRect cfg r).west ∨
        ((inflateRect cfg r).east = 180 ∧ (inflateRect cfg r).west = -180)) →
      splitAtAntiMeridian cfg r = [inflateRect cfg r]) := by
  have hvi := inflateRect_valid cfg r hv hf hi
  refine ⟨?_, ?_, ?_⟩
  · cases hc : (inflateRect cfg r).crossesDateLine
    · rw [splitAtAntiMeridian_of_not_crosses cfg r hc]; simp
    · rw [splitAtAntiMeridian_of_crosses cfg r hvi hc]; simp
  · intro h
    exact splitAtAntiMeridian_of_crosses cfg r hvi ((crossesDateLine_iff _).mpr h)
  · intro h
    apply splitAtAntiMeridian_of_not_crosses
    rw [← Bool.not_eq_true, crossesDateLine_iff]
    exact h

/-- An instance of `splitAtAntiMeridian_spec`: the viewport
`[-150, 150] x [-10, 10]` with the default settings. -/
theorem splitAtAntiMeridian_spec_witness :
    ((splitAtAntiMeridian defaultSettings ⟨10, -10, 150, -150⟩).length = 1 ∨
      (splitAtAntiMeridian defaultSettings ⟨10, -10, 150, -150⟩).length = 2) ∧
    (((inflateRect defaultSettings ⟨10, -10, 150, -150⟩).east <
          (inflateRect defaultSettings ⟨10, -10, 150, -150⟩).west ∨
        ((inflateRect defaultSettings ⟨10, -10, 150, -150⟩).east = 180 ∧
          (inflateRect defaultSettings ⟨10, -10, 150, -150⟩).west = -180)) →
      splitAtAntiMeridian defaultSettings ⟨10, -10, 150, -150⟩ =
        [{ north := (inflateRect defaultSettings ⟨10, -10, 150, -150⟩).north,
           south := (inflateRect defaultSettings ⟨10, -10, 150, -150⟩).south,
           east := 180, west := (inflateRect defaultSettings ⟨10, -10, 150, -150⟩).west },
         { north := (inflateRect defaultSettings ⟨10, -10, 150, -150⟩).north,
           south := (inflateRect defaultSettings ⟨10, -10, 150, -150⟩).south,
           east := (inflateRect defaultSettings ⟨10, -10, 150, -150⟩).east, west := -180 }]) ∧
    (¬ ((inflateRect defaultSettings ⟨10, -10, 150, -150⟩).east <
          (inflateRect defaultSettings ⟨10, -10, 150, -150⟩).west ∨
        ((inflateRect defaultSettings ⟨10, -10, 150, -150⟩).east = 180 ∧
          (inflateRect defaultSettings ⟨10, -10, 150, -150⟩).west = -180)) →
      splitAtAntiMeridian defaultSettings ⟨10, -10, 150, -150⟩ =
        [inflateRect defaultSettings ⟨10, -10, 150, -150⟩]) :=
  splitAtAntiMeridian_spec defaultSettings ⟨10, -10, 150, -150⟩
    (by norm_num [Valid]) (by norm_num [defaultSettings]) (by norm_num [defaultSettings])

/-! ## C2: the two parts partition the inflated box -/

/-- C2: for every valid box whose inflated form crosses the seam (east < west),
`splitAtAntiMeridian` returns two boxes `a` and `b` such that no point lies in
both, and a point with longitude within ±180 lies in the inflated box if and
only if it lies in `a` or in `b`. -/
theorem splitAtAntiMeridian_partition (cfg : Settings) (r : GeoDataLatLonBox) (hv : r.Valid)
    (hf : 0 ≤ cfg.queryRectInflationFactor) (hi : 0 ≤ cfg.queryRectInflationIncrement)
    (hc : (inflateRect cfg r).east < (inflateRect cfg r).west) :
    ∃ a b, splitAtAntiMeridian cfg r = [a, b] ∧
      (∀ lon lat, ¬ (a.containsPoint lon lat ∧ b.containsPoint lon lat)) ∧
      (∀ lon lat, -180 ≤ lon → lon ≤ 180 →
        ((inflateRect cfg r).containsPoint lon lat ↔
          (a.containsPoint lon lat ∨ b.containsPoint lon lat))) := by
  have hvi := inflateRect_valid cfg r hv hf hi
  obtain ⟨-, -, ⟨hw1, hw2⟩, ⟨he1, he2⟩⟩ := id hvi
  refine ⟨_, _, splitAtAntiMeridian_of_crosses cfg r hvi
    ((crossesDateLine_iff _).mpr (Or.inl hc)), ?_, ?_⟩
  · intro lon lat
    simp only [containsPoint, if_neg (not_lt.mpr hw2), if_neg (not_lt.mpr he1)]
    rintro ⟨⟨-, h1, -⟩, ⟨-, -, h2⟩⟩
    linarith
  · intro lon lat hl1 hl2
    simp only [containsPoint, if_neg (not_lt.mpr hw2), if_neg (not_lt.mpr he1), if_pos hc]
    constructor
    · rintro ⟨hlat, h | h⟩
      · exact Or.inl ⟨hlat, h, hl2⟩
      · exact Or.inr ⟨hlat, hl1, h⟩
    · rintro (⟨hlat, h, -⟩ | ⟨hlat, -, h⟩)
      · exact ⟨hlat, Or.inl h⟩
      · exact ⟨hlat, Or.inr h⟩

/-- Witness for `splitAtAntiMeridian_partition`: the viewport from 179 east
over the seam to -179. -/
theorem splitAtAntiMeridian_partition_witness :
    ∃ a b, splitAtAntiMeridian defaultSettings ⟨1, 0, -179, 179⟩ = [a, b] ∧
      (∀ lon lat, ¬ (a.containsPoint lon lat ∧ b.containsPoint lon lat)) ∧
      (∀ lon lat, -180 ≤ lon → lon ≤ 180 →
        ((inflateRect defaultSettings ⟨1, 0, -179, 179⟩).containsPoint lon lat ↔
          (a.containsPoint lon lat ∨ b.containsPoint lon lat))) :=
  splitAtAntiMeridian_partition defaultSettings ⟨1, 0, -179, 179⟩
    (by norm_num [Valid]) (by norm_num [defaultSettings]) (by norm_num [defaultSettings])
    (by rw [inflateRect_seam_example]; norm_num)

end MapQuery

namespace MapQuery
open Marble Marble.GeoDataLatLonBox

/-! ## C3: scaling, moving the edges, and the limits -/

/-- Scaling the box `[0, 156.5] x [0, 10]` by 1.3. -/
theorem scale_nearLimit_example :
    (⟨10, 0, 313 / 2, 0⟩ : GeoDataLatLonBox).scale (1 + 3 / 10) (1 + 3 / 10) =
      ⟨23 / 2, -3 / 2, 7199 / 40, -939 / 40⟩ := by
  have e1 : normalizeLon (7199 / 40) = 7199 / 40 :=
    normalizeLon_of_mem (by norm_num) (by norm_num)
  have e2 : normalizeLon (-(939 / 40)) = -(939 / 40) :=
    normalizeLon_of_mem (by norm_num) (by norm_num)
  have ha : |(313 / 2 : ℚ)| = 313 / 2 := abs_of_pos (by norm_num)
  have hb : |(10 : ℚ)| = 10 := abs_of_pos (by norm_num)
  norm_num [scale, height, width, centerLat, centerLon, isEmpty, crossesDateLine, ha, hb]
  norm_num [e1, e2]

/-- C3, as stated, fails: for the valid box `[0, 156.5] x [0, 10]` and the
default settings (factor 0.3, increment 0.1) scaling puts the east edge at
179.975; moving it by the increment would pass 180, so `inflateRect` leaves the
east edge where scaling put it: it is neither moved outward by the increment
nor put on the limit 180. -/
theorem inflateRect_east_not_moved_counterexample :
    (⟨10, 0, 313 / 2, 0⟩ : GeoDataLatLonBox).Valid ∧
    (0 : ℚ) ≤ defaultSettings.queryRectInflationFactor ∧
    (0 : ℚ) ≤ defaultSettings.queryRectInflationIncrement ∧
    (inflateRect defaultSettings ⟨10, 0, 313 / 2, 0⟩).east =
      ((⟨10, 0, 313 / 2, 0⟩ : GeoDataLatLonBox).scale (1 + 3 / 10) (1 + 3 / 10)).east ∧
    (inflateRect defaultSettings ⟨10, 0, 313 / 2, 0⟩).east ≠
      ((⟨10, 0, 313 / 2, 0⟩ : GeoDataLatLonBox).scale (1 + 3 / 10) (1 + 3 / 10)).east +
        defaultSettings.queryRectInflationIncrement ∧
    (inflateRect defaultSettings ⟨10, 0, 313 / 2, 0⟩).east ≠ 180 := by
  have he : (inflateRect defaultSettings ⟨10, 0, 313 / 2, 0⟩).east = 7199 / 40 := by
    rw [inflateRect_east]
    simp only [defaultSettings, scale_nearLimit_example]
    norm_num
  refine ⟨by norm_num [Valid], by norm_num [defaultSettings], by norm_num [defaultSettings],
    ?_, ?_, ?_⟩
  · rw [he, scale_nearLimit_example]
  · rw [he, scale_nearLimit_example]; norm_num [defaultSettings]
  · rw [he]; norm_num

/-- C3 (amended): for every valid box with south ≤ north and every factor ≥ 0
and increment ≥ 0, `inflateRect` first scales the box by `1 + factor` about its
centre (latitudes cut off at ±90; longitudes wrapped into ±180, or the full
range when the scaled half width exceeds 180), then moves each edge outward by
the increment if the moved edge stays strictly inside its limit (±180, ±90) and
leaves the edge where scaling put it otherwise; the result satisfies
north ≤ 90, south ≥ -90, east ≤ 180 and west ≥ -180. -/
theorem inflateRect_scales_moves_bounded (cfg : Settings) (r : GeoDataLatLonBox) (hv : r.Valid)
    (hsn : r.south ≤ r.north)
    (hf : 0 ≤ cfg.queryRectInflationFactor) (hi : 0 ≤ cfg.queryRectInflationIncrement) :
    ((r.scale (1 + cfg.queryRectInflationFactor) (1 + cfg.queryRectInflationFactor)).north =
        min ((r.north + r.south) / 2 +
          (r.north - r.south) / 2 * (1 + cfg.queryRectInflationFactor)) 90 ∧
      (r.scale (1 + cfg.queryRectInflationFactor) (1 + cfg.queryRectInflationFactor)).south =
        max ((r.north + r.south) / 2 -
          (r.north - r.south) / 2 * (1 + cfg.queryRectInflationFactor)) (-90) ∧
      (r.width / 2 * (1 + cfg.queryRectInflationFactor) ≤ 180 →
        (r.scale (1 + cfg.queryRectInflationFactor) (1 + cfg.queryRectInflationFactor)).east =
          normalizeLon (r.centerLon + r.width / 2 * (1 + cfg.queryRectInflationFactor)) ∧
        (r.scale (1 + cfg.queryRectInflationFactor) (1 + cfg.queryRectInflationFactor)).west =
          normalizeLon (r.centerLon - r.width / 2 * (1 + cfg.queryRectInflationFactor))) ∧
      (180 < r.width / 2 * (1 + cfg.queryRectInflationFactor) →
        (r.scale (1 + cfg.queryRectInflationFactor) (1 + cfg.queryRectInflationFactor)).east =
          180 ∧
        (r.scale (1 + cfg.queryRectInflationFactor) (1 + cfg.queryRectInflationFactor)).west =
          -180)) ∧
    ((inflateRect cfg r).east =
      (if (r.scale (1 + cfg.queryRectInflationFactor) (1 + cfg.queryRectInflationFactor)).east +
          cfg.queryRectInflationIncrement < 180
       then (r.scale (1 + cfg.queryRectInflationFactor) (1 + cfg.queryRectInflationFactor)).east +
          cfg.queryRectInflationIncrement
       else (r.scale (1 + cfg.queryRectInflationFactor) (1 + cfg.queryRectInflationFactor)).east) ∧
    (inflateRect cfg r).west =
      (if -180 < (r.scale (1 + cfg.queryRectInflationFactor) (1 + cfg.queryRectInflationFactor)).west -
          cfg.queryRectInflationIncrement
       then (r.scale (1 + cfg.queryRectInflationFactor) (1 + cfg.queryRectInflationFactor)).west -
          cfg.queryRectInflationIncrement
       else (r.scale (1 + cfg.queryRectInflationFactor) (1 + cfg.queryRectInflationFactor)).west) ∧
    (inflateRect cfg r).north =
      (if (r.scale (1 + cfg.queryRectInflationFactor) (1 + cfg.queryRectInflationFactor)).north +
          cfg.queryRectInflationIncrement < 90
       then (r.scale (1 + cfg.queryRectInflationFactor) (1 + cfg.queryRectInflationFactor)).north +
          cfg.queryRectInflationIncrement
       else (r.scale (1 + cfg.queryRectInflationFactor) (1 + cfg.queryRectInflationFactor)).north) ∧
    (inflateRect cfg r).south =
      (if -90 < (r.scale (1 + cfg.queryRectInflationFactor) (1 + cfg.queryRectInflationFactor)).south -
          cfg.queryRectInflationIncrement
       then (r.scale (1 + cfg.queryRectInflationFactor) (1 + cfg.queryRectInflationFactor)).south -
          cfg.queryRectInflationIncrement
       else (r.scale (1 + cfg.queryRectInflationFactor) (1 + cfg.queryRectInflationFactor)).south)) ∧
    ((inflateRect cfg r).north ≤ 90 ∧ -90 ≤ (inflateRect cfg r).south ∧
      (inflateRect cfg r).east ≤ 180 ∧ -180 ≤ (inflateRect cfg r).west) := by
  obtain ⟨⟨-, -⟩, ⟨-, hn2⟩, ⟨hw1, -⟩, ⟨-, he2⟩⟩ := inflateRect_valid cfg r hv hf hi
  refine ⟨⟨?_, ?_, ?_, ?_⟩, inflateRect_edges cfg r hv hf hi, ?_⟩
  · rw [scale_north, centerLat_eq, height_eq hsn]; congr 1; ring
  · rw [scale_south, centerLat_eq, height_eq hsn]; congr 1; ring
  · intro h
    have h2 : ¬ (1 / 2 * r.width * (1 + cfg.queryRectInflationFactor) > 180) := by
      intro h3; linarith
    have e : r.width / 2 * (1 + cfg.queryRectInflationFactor) =
        1 / 2 * r.width * (1 + cfg.queryRectInflationFactor) := by ring
    simp only [scale, if_neg h2, e, and_self]
  · intro h
    have h2 : 1 / 2 * r.width * (1 + cfg.queryRectInflationFactor) > 180 := by linarith
    simp only [scale, if_pos h2, and_self]
  · obtain ⟨⟨-, -⟩, ⟨-, hn2⟩, ⟨hw1, -⟩, ⟨-, he2⟩⟩ := inflateRect_valid cfg r hv hf hi
    obtain ⟨⟨hs1, -⟩, -, -, -⟩ := inflateRect_valid cfg r hv hf hi
    exact ⟨hn2, hs1, he2, hw1⟩

/-- Witness for `inflateRect_scales_moves_bounded`: the box `[0, 156.5] x [0, 10]`
with the default settings. -/
theorem inflateRect_scales_moves_bounded_witness :
    (inflateRect defaultSettings ⟨10, 0, 313 / 2, 0⟩).north ≤ 90 ∧
    -90 ≤ (inflateRect defaultSettings ⟨10, 0, 313 / 2, 0⟩).south ∧
    (inflateRect defaultSettings ⟨10, 0, 313 / 2, 0⟩).east ≤ 180 ∧
    -180 ≤ (inflateRect defaultSettings ⟨10, 0, 313 / 2, 0⟩).west :=
  (inflateRect_scales_moves_bounded defaultSettings ⟨10, 0, 313 / 2, 0⟩
    (by norm_num [Valid]) (by norm_num) (by norm_num [defaultSettings])
    (by norm_num [defaultSettings])).2.2

/-! ## C4: inflation as an enlargement -/

/-- Scaling the box `[-100, 176.8] x [0, 1]` by 1.3: the scaled box wraps over
the seam and leaves a gap of 0.16 degrees. -/
theorem scale_almostWorld_example :
    (⟨1, 0, 884 / 5, -100⟩ : GeoDataLatLonBox).scale (1 + 3 / 10) (1 + 3 / 10) =
      ⟨23 / 20, -3 / 20, -3542 / 25, -3538 / 25⟩ := by
  have e1 : normalizeLon (5458 / 25) = -(3542 / 25) := by
    rw [normalizeLon_wrap_east (by norm_num) (by norm_num)]; norm_num
  have e2 : normalizeLon (-(3538 / 25)) = -(3538 / 25) :=
    normalizeLon_of_mem (by norm_num) (by norm_num)
  have ha : |(1384 / 5 : ℚ)| = 1384 / 5 := abs_of_pos (by norm_num)
  norm_num [scale, height, width, centerLat, centerLon, isEmpty, crossesDateLine, ha]
  norm_num [e1, e2]

/-- C4 fails on the code: the valid viewport `[-100, 176.8] x [0, 1]` contains
the point (0, 0.5); with the default factor 0.3 and increment 0.1 the scaled
box wraps over the seam with a gap of 0.16 degrees, moving both edges by 0.1
makes them pass each other, and the inflated box is the sliver
`[-141.62, -141.58]`, which does not contain the point. -/
theorem inflateRect_not_enlargement_example :
    (⟨1, 0, 884 / 5, -100⟩ : GeoDataLatLonBox).Valid ∧
    (⟨1, 0, 884 / 5, -100⟩ : GeoDataLatLonBox).containsPoint 0 (1 / 2) ∧
    inflateRect defaultSettings ⟨1, 0, 884 / 5, -100⟩ =
      ⟨5 / 4, -1 / 4, -7079 / 50, -7081 / 50⟩ ∧
    ¬ (inflateRect defaultSettings ⟨1, 0, 884 / 5, -100⟩).containsPoint 0 (1 / 2) := by
  have hi : inflateRect defaultSettings ⟨1, 0, 884 / 5, -100⟩ =
      ⟨5 / 4, -1 / 4, -7079 / 50, -7081 / 50⟩ := by
    have e3 : normalizeLon (-(7079 / 50)) = -(7079 / 50) :=
      normalizeLon_of_mem (by norm_num) (by norm_num)
    have e4 : normalizeLon (-(7081 / 50)) = -(7081 / 50) :=
      normalizeLon_of_mem (by norm_num) (by norm_num)
    have e5 : normalizeLat (5 / 4) = 5 / 4 := normalizeLat_of_mem (by norm_num) (by norm_num)
    have e6 : normalizeLat (-(1 / 4)) = -(1 / 4) :=
      normalizeLat_of_mem (by norm_num) (by norm_num)
    simp only [inflateRect, defaultSettings, scale_almostWorld_example]
    norm_num [setEast, setWest, setNorth, setSouth, e3, e4, e5, e6]
  refine ⟨by norm_num [Valid], by norm_num [containsPoint], hi, ?_⟩
  rw [hi]
  norm_num [containsPoint]

/-! ## C5: the scenario at the seam -/

/-- C5: inflating the box west = 179, south = 0, east = -179, north = 1 with
factor 0.3 and increment 0.1 gives west = 178.6, east = -178.6 (both within
±180), and `splitAtAntiMeridian` on that input yields exactly two boxes, the
first ending at east = 180 and the second starting at west = -180, which share
no point and are both within the ±180 / ±90 limits. -/
theorem splitAtAntiMeridian_seam_scenario :
    inflateRect defaultSettings ⟨1, 0, -179, 179⟩ = ⟨5 / 4, -1 / 4, -893 / 5, 893 / 5⟩ ∧
    (-180 ≤ (inflateRect defaultSettings ⟨1, 0, -179, 179⟩).east ∧
      (inflateRect defaultSettings ⟨1, 0, -179, 179⟩).east ≤ 180 ∧
      -180 ≤ (inflateRect defaultSettings ⟨1, 0, -179, 179⟩).west ∧
      (inflateRect defaultSettings ⟨1, 0, -179, 179⟩).west ≤ 180) ∧
    splitAtAntiMeridian defaultSettings ⟨1, 0, -179, 179⟩ =
      [⟨5 / 4, -1 / 4, 180, 893 / 5⟩, ⟨5 / 4, -1 / 4, -893 / 5, -180⟩] ∧
    (∀ lon lat, ¬ ((⟨5 / 4, -1 / 4, 180, 893 / 5⟩ : GeoDataLatLonBox).containsPoint lon lat ∧
      (⟨5 / 4, -1 / 4, -893 / 5, -180⟩ : GeoDataLatLonBox).containsPoint lon lat)) ∧
    (⟨5 / 4, -1 / 4, 180, 893 / 5⟩ : GeoDataLatLonBox).Valid ∧
    (⟨5 / 4, -1 / 4, -893 / 5, -180⟩ : GeoDataLatLonBox).Valid := by
  refine ⟨inflateRect_seam_example, ?_, ?_, ?_, by norm_num [Valid], by norm_num [Valid]⟩
  · rw [inflateRect_seam_example]; norm_num
  · rw [splitAtAntiMeridian_of_crosses]
    · rw [inflateRect_seam_example]
    · rw [inflateRect_seam_example]; norm_num [Valid]
    · rw [inflateRect_seam_example]; norm_num [crossesDateLine]
  · intro lon lat
    norm_num [containsPoint]
    intro _ _ h1 _ _ _ _
    linarith

end MapQuery

namespace MapQuery
open Marble Marble.GeoDataLatLonBox

/-! ## Folds and the cache -/

/-- A property kept by every step of a fold holds after the fold. -/
theorem foldl_preserves {α β : Type} (P : β → Prop) (f : β → α → β)
    (h : ∀ b a, P b → P (f b a)) (l : List α) (b : β) (hb : P b) : P (l.foldl f b) := by
  induction l generalizing b with
  | nil => exact hb
  | cons a l ih => exact ih (f b a) (h b a hb)

/-- If every step of a fold establishes `R a` for the element `a` it handles,
and no step destroys `R` of another element, then after the fold `R` holds for
every element of the list; `Q` is an invariant the steps may rely on. -/
theorem foldl_establishes {α β : Type} (Q : β → Prop) (R : α → β → Prop) (f : β → α → β)
    (hQ : ∀ b a, Q b → Q (f b a))
    (hstep : ∀ b a, Q b → R a (f b a))
    (hmono : ∀ b a a', Q b → R a' b → R a' (f b a))
    (l : List α) (b : β) (hb : Q b) : ∀ a ∈ l, R a (l.foldl f b) := by
  induction l generalizing b with
  | nil => intro a ha; cases ha
  | cons x l ih =>
    intro a ha
    rcases List.mem_cons.mp ha with rfl | hmem
    · simp only [List.foldl_cons]
      exact foldl_preserves (fun b => Q b ∧ R a b) f
        (fun b a' hb => ⟨hQ b a' hb.1, hmono b a' a hb.1 hb.2⟩) l (f b a)
        ⟨hQ b a hb, hstep b a hb⟩ |>.2
    · exact ih (f b x) (hQ b x hb) a hmem

theorem updateCache_lazy {L T : Type} (covers : GeoDataLatLonBox → GeoDataLatLonBox → Bool)
    (c : SimpleRectCache L T) (rect : GeoDataLatLonBox) (mapLayer : L)
    (funcSameLayer : L → L → Bool) :
    c.updateCache covers rect mapLayer true funcSameLayer = c := by
  simp [SimpleRectCache.updateCache]

theorem updateCache_list {L T : Type} (covers : GeoDataLatLonBox → GeoDataLatLonBox → Bool)
    (c : SimpleRectCache L T) (rect : GeoDataLatLonBox) (mapLayer : L) (lazy : Bool)
    (funcSameLayer : L → L → Bool) :
    (c.updateCache covers rect mapLayer lazy funcSameLayer).list = c.list ∨
      (c.updateCache covers rect mapLayer lazy funcSameLayer).list = [] := by
  unfold SimpleRectCache.updateCache
  split_ifs
  · exact Or.inl rfl
  · exact Or.inr rfl
  · exact Or.inl rfl

theorem updateCache_list_of_empty {L T : Type}
    (covers : GeoDataLatLonBox → GeoDataLatLonBox → Bool)
    (c : SimpleRectCache L T) (rect : GeoDataLatLonBox) (mapLayer : L) (lazy : Bool)
    (funcSameLayer : L → L → Bool) (h : c.list = []) :
    (c.updateCache covers rect mapLayer lazy funcSameLayer).list = [] := by
  rcases updateCache_list covers c rect mapLayer lazy funcSameLayer with h1 | h1
  · rw [h1, h]
  · exact h1

/-! ## The visited-id set -/

/-- Appending an entity whose id is not in the set keeps the invariant. -/
theorem idsInv_append {T : Type} (idOf : T → ℤ) (l : List T) (ids : List ℤ) (x : T)
    (hn : (l.map idOf).Nodup) (hmem : ∀ i, i ∈ ids ↔ i ∈ l.map idOf) (hx : idOf x ∉ ids) :
    ((l ++ [x]).map idOf).Nodup ∧ ∀ i, i ∈ idOf x :: ids ↔ i ∈ (l ++ [x]).map idOf := by
  constructor
  · rw [List.map_append, List.nodup_append]
    refine ⟨hn, by simp, ?_⟩
    intro a ha hb
    simp only [List.map_cons, List.map_nil, List.mem_singleton] at hb
    exact hx (hb ▸ (hmem a).mpr ha)
  · intro i
    simp only [List.mem_cons, List.map_append, List.map_cons, List.map_nil, List.mem_append,
      List.mem_singleton, hmem i, List.not_mem_nil, or_false]
    tauto

end MapQuery

namespace MapQuery
open Marble Marble.GeoDataLatLonBox

/-- The airway fetch loop keeps the invariant of the visited-id set. -/
theorem getAirways_nodup {L T : Type} (env : Env L) (fillAirway : SqlRecord → T) (idOf : T → ℤ)
    (hfill : ∀ row, idOf (fillAirway row) = row.id)
    (st : QueryState L T) (hempty : st.cache.list = [])
    (rect : GeoDataLatLonBox) (mapLayer : L) (lazy : Bool) :
    ((getAirways env fillAirway idOf st rect mapLayer lazy).cache.list.map idOf).Nodup := by
  have h1 := updateCache_list_of_empty env.covers st.cache rect mapLayer lazy
    env.layer.hasSameQueryParametersAirway hempty
  simp only [getAirways, SimpleRectCache.validate]
  split_ifs with hc
  · refine (foldl_preserves
      (IdsInv (fun (s : QueryState L T) => s.cache.list) idOf) _ ?_ _ _ ?_).1
    · intro fs r hfs
      refine foldl_preserves (IdsInv (fun (s : QueryState L T) => s.cache.list) idOf) _ ?_ _ _ hfs
      intro fs row hfs
      split_ifs with hin hint
      · exact hfs
      · have hx : idOf (fillAirway row) ∉ fs.ids := by rw [hfill]; exact hin
        exact idsInv_append idOf _ _ _ hfs.1 hfs.2 hx
      · exact hfs
    · simp [IdsInv, h1]
  · simp [h1]

end MapQuery

namespace MapQuery
open Marble Marble.GeoDataLatLonBox

/-- Every row an airway query returns that passes the intersection test has its
id in the list after the fetch. -/
theorem getAirways_mem {L T : Type} (env : Env L) (fillAirway : SqlRecord → T) (idOf : T → ℤ)
    (hfill : ∀ row, idOf (fillAirway row) = row.id)
    (st : QueryState L T) (hempty : st.cache.list = [])
    (rect : GeoDataLatLonBox) (mapLayer : L) :
    ∀ r ∈ splitAtAntiMeridian env.cfg rect,
      ∀ row ∈ env.db .airwayByRectQuery (bindCoordinatePointInRect r),
        env.intersects rect (recordBox row) = true →
          row.id ∈ (getAirways env fillAirway idOf st rect mapLayer false).cache.list.map idOf := by
  have h1 := updateCache_list_of_empty env.covers st.cache rect mapLayer false
    env.layer.hasSameQueryParametersAirway hempty
  simp only [getAirways, SimpleRectCache.validate, h1, List.isEmpty_nil, Bool.not_false,
    Bool.and_self, if_true]
  -- one row step keeps the invariant
  have hrowQ : ∀ (fs : FetchState (QueryState L T)) (row : SqlRecord),
      IdsInv (fun (s : QueryState L T) => s.cache.list) idOf fs →
      IdsInv (fun (s : QueryState L T) => s.cache.list) idOf
        (if row.id ∈ fs.ids then fs
         else if env.intersects rect (recordBox row) = true then
           { st := { fs.st with
                     cache := { fs.st.cache with list := fs.st.cache.list ++ [fillAirway row] } },
             ids := idOf (fillAirway row) :: fs.ids }
         else fs) := by
    intro fs row hfs
    split_ifs with hin hint
    · exact hfs
    · have hx : idOf (fillAirway row) ∉ fs.ids := by rw [hfill]; exact hin
      exact idsInv_append idOf _ _ _ hfs.1 hfs.2 hx
    · exact hfs
  -- one row step never removes an id from the list
  have hrowMono : ∀ (i : ℤ) (fs : FetchState (QueryState L T)) (row : SqlRecord),
      i ∈ fs.st.cache.list.map idOf →
      i ∈ (if row.id ∈ fs.ids then fs
         else if env.intersects rect (recordBox row) = true then
           { st := { fs.st with
                     cache := { fs.st.cache with list := fs.st.cache.list ++ [fillAirway row] } },
             ids := idOf (fillAirway row) :: fs.ids }
         else fs).st.cache.list.map idOf := by
    intro i fs row hi
    split_ifs with hin hint
    · exact hi
    · simp only [List.map_append, List.mem_append]; exact Or.inl hi
    · exact hi
  refine foldl_establishes (IdsInv (fun (s : QueryState L T) => s.cache.list) idOf)
    (fun r fs => ∀ row ∈ env.db .airwayByRectQuery (bindCoordinatePointInRect r),
        env.intersects rect (recordBox row) = true → row.id ∈ fs.st.cache.list.map idOf)
    _ ?_ ?_ ?_ _ _ ?_
  · intro fs r hfs
    exact foldl_preserves (IdsInv (fun (s : QueryState L T) => s.cache.list) idOf) _
      (fun fs row h => hrowQ fs row h) _ _ hfs
  · intro fs r hfs
    refine foldl_establishes (IdsInv (fun (s : QueryState L T) => s.cache.list) idOf)
      (fun row fs => env.intersects rect (recordBox row) = true →
        row.id ∈ fs.st.cache.list.map idOf)
      _ (fun fs row h => hrowQ fs row h) ?_ ?_ _ _ hfs
    · intro fs row hfs hint
      split_ifs with hin
      · exact (hfs.2 row.id).mp hin
      · simp [hfill]
    · intro fs row row' _ h hint
      exact hrowMono row'.id fs row (h hint)
  · intro fs r r' _ h row hrow hint
    exact foldl_preserves (fun (fs : FetchState (QueryState L T)) =>
        row.id ∈ fs.st.cache.list.map idOf) _
      (fun fs row' h => hrowMono row.id fs row' h) _ _ (h row hrow hint)
  · simp [IdsInv, h1]

end MapQuery

namespace MapQuery
open Marble Marble.GeoDataLatLonBox

/-- The airspace fetch keeps the ids pairwise different, sorting included. -/
theorem fetchAirspaces_nodup {L T : Type} (env : Env L) (api : AirspaceApi T)
    (hfill : ∀ row, api.idOf (api.fillAirspace row) = row.id)
    (st : AirspaceState L T) (hempty : st.cache.list = [])
    (rect : GeoDataLatLonBox) (filter : MapAirspaceFilter) (flightPlanAltitude : ℚ) :
    ((fetchAirspaces env api st rect filter flightPlanAltitude).cache.list.map api.idOf).Nodup := by
  simp only [fetchAirspaces, sortByDrawingOrder]
  refine ((List.perm_insertionSort _ _).map api.idOf).nodup_iff.mpr ?_
  refine (foldl_preserves
    (IdsInv (fun (s : AirspaceState L T) => s.cache.list) api.idOf) _ ?_ _ _ ?_).1
  · intro fs r hfs
    refine foldl_preserves (IdsInv (fun (s : AirspaceState L T) => s.cache.list) api.idOf)
      _ ?_ _ _ hfs
    intro fs typeStr hfs
    refine foldl_preserves (IdsInv (fun (s : AirspaceState L T) => s.cache.list) api.idOf)
      _ ?_ _ _ hfs
    intro fs row hfs
    split_ifs with hin hint
    · exact hfs
    · have hx : api.idOf (api.fillAirspace row) ∉ fs.ids := by rw [hfill]; exact hin
      exact idsInv_append api.idOf _ _ _ hfs.1 hfs.2 hx
    · exact hfs
  · simp [IdsInv, hempty]

theorem getAirspaces_nodup {L T : Type} (env : Env L) (api : AirspaceApi T)
    (hfill : ∀ row, api.idOf (api.fillAirspace row) = row.id)
    (st : AirspaceState L T) (hempty : st.cache.list = [])
    (rect : GeoDataLatLonBox) (mapLayer : L) (filter : MapAirspaceFilter)
    (flightPlanAltitude : ℚ) (lazy : Bool) :
    ((getAirspaces env api st rect mapLayer filter flightPlanAltitude lazy).cache.list.map
      api.idOf).Nodup := by
  have h1 := updateCache_list_of_empty env.covers st.cache rect mapLayer lazy
    env.layer.hasSameQueryParametersAirspace hempty
  simp only [getAirspaces, SimpleRectCache.validate]
  split_ifs with hchg hc hnone hc hnone
  · exact fetchAirspaces_nodup env api hfill _ rfl rect filter flightPlanAltitude
  · simp
  · simp
  · exact fetchAirspaces_nodup env api hfill _ h1 rect filter flightPlanAltitude
  · simp [h1]
  · simp [h1]

end MapQuery

namespace MapQuery
open Marble Marble.GeoDataLatLonBox

/-- Every row an airspace query returns that passes the intersection test has
its id in the list after the fetch. -/
theorem fetchAirspaces_mem {L T : Type} (env : Env L) (api : AirspaceApi T)
    (hfill : ∀ row, api.idOf (api.fillAirspace row) = row.id)
    (st : AirspaceState L T) (hempty : st.cache.list = [])
    (rect : GeoDataLatLonBox) (filter : MapAirspaceFilter) (flightPlanAltitude : ℚ) :
    ∀ r ∈ splitAtAntiMeridian env.cfg rect, ∀ typeStr ∈ airspaceTypeStrings api filter,
      ∀ row ∈ env.db (airspaceQueryAndAlt api filter flightPlanAltitude).1
          { bindCoordinatePointInRect r with
            type := some typeStr,
            alt := if (airspaceQueryAndAlt api filter flightPlanAltitude).2 > 0
                   then some (airspaceQueryAndAlt api filter flightPlanAltitude).2 else none },
        env.intersects rect (recordBox row) = true →
          row.id ∈ (fetchAirspaces env api st rect filter flightPlanAltitude).cache.list.map
            api.idOf := by
  intro r hr typeStr htype row hrow hint
  simp only [fetchAirspaces, sortByDrawingOrder]
  refine (((List.perm_insertionSort _ _).map api.idOf).mem_iff).mpr ?_
  revert r hr typeStr htype row hrow hint
  -- one row step keeps the invariant
  have hrowQ : ∀ (fs : FetchState (AirspaceState L T)) (row : SqlRecord),
      IdsInv (fun (s : AirspaceState L T) => s.cache.list) api.idOf fs →
      IdsInv (fun (s : AirspaceState L T) => s.cache.list) api.idOf
        (if row.id ∈ fs.ids then fs
         else if env.intersects rect (recordBox row) = true then
           { st := { fs.st with
                     cache := { fs.st.cache with
                                list := fs.st.cache.list ++ [api.fillAirspace row] } },
             ids := api.idOf (api.fillAirspace row) :: fs.ids }
         else fs) := by
    intro fs row hfs
    split_ifs with hin hint
    · exact hfs
    · have hx : api.idOf (api.fillAirspace row) ∉ fs.ids := by rw [hfill]; exact hin
      exact idsInv_append api.idOf _ _ _ hfs.1 hfs.2 hx
    · exact hfs
  -- one row step never removes an id from the list
  have hrowMono : ∀ (i : ℤ) (fs : FetchState (AirspaceState L T)) (row : SqlRecord),
      i ∈ fs.st.cache.list.map api.idOf →
      i ∈ (if row.id ∈ fs.ids then fs
         else if env.intersects rect (recordBox row) = true then
           { st := { fs.st with
                     cache := { fs.st.cache with
                                list := fs.st.cache.list ++ [api.fillAirspace row] } },
             ids := api.idOf (api.fillAirspace row) :: fs.ids }
         else fs).st.cache.list.map api.idOf := by
    intro i fs row hi
    split_ifs with hin hint
    · exact hi
    · simp only [List.map_append, List.mem_append]; exact Or.inl hi
    · exact hi
  refine foldl_establishes (IdsInv (fun (s : AirspaceState L T) => s.cache.list) api.idOf)
    (fun r fs => ∀ typeStr ∈ airspaceTypeStrings api filter,
      ∀ row ∈ env.db (airspaceQueryAndAlt api filter flightPlanAltitude).1
          { bindCoordinatePointInRect r with
            type := some typeStr,
            alt := if (airspaceQueryAndAlt api filter flightPlanAltitude).2 > 0
                   then some (airspaceQueryAndAlt api filter flightPlanAltitude).2 else none },
        env.intersects rect (recordBox row) = true → row.id ∈ fs.st.cache.list.map api.idOf)
    _ ?_ ?_ ?_ _ _ ?_
  · intro fs r hfs
    refine foldl_preserves (IdsInv (fun (s : AirspaceState L T) => s.cache.list) api.idOf) _
      ?_ _ _ hfs
    intro fs typeStr hfs
    exact foldl_preserves (IdsInv (fun (s : AirspaceState L T) => s.cache.list) api.idOf) _
      (fun fs row h => hrowQ fs row h) _ _ hfs
  · intro fs r hfs
    refine foldl_establishes (IdsInv (fun (s : AirspaceState L T) => s.cache.list) api.idOf)
      (fun typeStr fs =>
        ∀ row ∈ env.db (airspaceQueryAndAlt api filter flightPlanAltitude).1
          { bindCoordinatePointInRect r with
            type := some typeStr,
            alt := if (airspaceQueryAndAlt api filter flightPlanAltitude).2 > 0
                   then some (airspaceQueryAndAlt api filter flightPlanAltitude).2 else none },
        env.intersects rect (recordBox row) = true → row.id ∈ fs.st.cache.list.map api.idOf)
      _ ?_ ?_ ?_ _ _ hfs
    · intro fs typeStr hfs
      exact foldl_preserves (IdsInv (fun (s : AirspaceState L T) => s.cache.list) api.idOf) _
        (fun fs row h => hrowQ fs row h) _ _ hfs
    · intro fs typeStr hfs
      refine foldl_establishes (IdsInv (fun (s : AirspaceState L T) => s.cache.list) api.idOf)
        (fun row fs => env.intersects rect (recordBox row) = true →
          row.id ∈ fs.st.cache.list.map api.idOf)
        _ (fun fs row h => hrowQ fs row h) ?_ ?_ _ _ hfs
      · intro fs row hfs hint
        split_ifs with hin
        · exact (hfs.2 row.id).mp hin
        · simp [hfill]
      · intro fs row row' _ h hint
        exact hrowMono row'.id fs row (h hint)
    · intro fs typeStr typeStr' _ h row hrow hint
      exact foldl_preserves (fun (fs : FetchState (AirspaceState L T)) =>
          row.id ∈ fs.st.cache.list.map api.idOf) _
        (fun fs row' h => hrowMono row.id fs row' h) _ _ (h row hrow hint)
  · intro fs r r' _ h typeStr htype row hrow hint
    refine foldl_preserves (fun (fs : FetchState (AirspaceState L T)) =>
        row.id ∈ fs.st.cache.list.map api.idOf) _ ?_ _ _ (h typeStr htype row hrow hint)
    intro fs typeStr' hfs
    exact foldl_preserves (fun (fs : FetchState (AirspaceState L T)) =>
        row.id ∈ fs.st.cache.list.map api.idOf) _
      (fun fs row' h => hrowMono row.id fs row' h) _ _ hfs
  · simp [IdsInv, hempty]

/-- A non-lazy `getAirspaces` on an empty list with a non-empty type mask
returns the list of a fetch that starts from an empty list. -/
theorem getAirspaces_eq_fetch {L T : Type} (env : Env L) (api : AirspaceApi T)
    (st : AirspaceState L T) (hempty : st.cache.list = [])
    (rect : GeoDataLatLonBox) (mapLayer : L) (filter : MapAirspaceFilter)
    (hnone : filter.types ≠ api.AIRSPACE_NONE) (flightPlanAltitude : ℚ) :
    ∃ st2 : AirspaceState L T, st2.cache.list = [] ∧
      (getAirspaces env api st rect mapLayer filter flightPlanAltitude false).cache.list =
        (fetchAirspaces env api st2 rect filter flightPlanAltitude).cache.list := by
  have h1 := updateCache_list_of_empty env.covers st.cache rect mapLayer false
    env.layer.hasSameQueryParametersAirspace hempty
  simp only [getAirspaces, SimpleRectCache.validate]
  split_ifs with hchg hc hc
  · exact ⟨_, rfl, rfl⟩
  · simp at hc
  · exact ⟨_, h1, rfl⟩
  · simp [h1] at hc

theorem getAirspaces_mem {L T : Type} (env : Env L) (api : AirspaceApi T)
    (hfill : ∀ row, api.idOf (api.fillAirspace row) = row.id)
    (st : AirspaceState L T) (hempty : st.cache.list = [])
    (rect : GeoDataLatLonBox) (mapLayer : L) (filter : MapAirspaceFilter)
    (hnone : filter.types ≠ api.AIRSPACE_NONE) (flightPlanAltitude : ℚ) :
    ∀ r ∈ splitAtAntiMeridian env.cfg rect, ∀ typeStr ∈ airspaceTypeStrings api filter,
      ∀ row ∈ env.db (airspaceQueryAndAlt api filter flightPlanAltitude).1
          { bindCoordinatePointInRect r with
            type := some typeStr,
            alt := if (airspaceQueryAndAlt api filter flightPlanAltitude).2 > 0
                   then some (airspaceQueryAndAlt api filter flightPlanAltitude).2 else none },
        env.intersects rect (recordBox row) = true →
          row.id ∈ (getAirspaces env api st rect mapLayer filter flightPlanAltitude
            false).cache.list.map api.idOf := by
  obtain ⟨st2, h2, heq⟩ :=
    getAirspaces_eq_fetch env api st hempty rect mapLayer filter hnone flightPlanAltitude
  rw [heq]
  exact fetchAirspaces_mem env api hfill st2 h2 rect filter flightPlanAltitude

end MapQuery

namespace MapQuery
open Marble Marble.GeoDataLatLonBox

/-! ## C6: an airway or airspace appears once -/

/-- C6: a non-lazy fetch of airways (`getAirways`) or airspaces (`getAirspaces`)
that starts from an empty cache list yields a list without two entries of the
same id, whatever rows the statements return for whatever sub-rectangle and
type string; and every row that some query of the fetch returned and that
passed the intersection test has its id exactly once in the list. The entity
factory is assumed to copy the id column into the entity. -/
theorem fetch_each_id_once {L T U : Type} (env : Env L)
    (fillAirway : SqlRecord → T) (idOf : T → ℤ)
    (hfillAirway : ∀ row, idOf (fillAirway row) = row.id)
    (api : AirspaceApi U) (hfillAirspace : ∀ row, api.idOf (api.fillAirspace row) = row.id)
    (st : QueryState L T) (hempty : st.cache.list = [])
    (ast : AirspaceState L U) (haempty : ast.cache.list = [])
    (rect : GeoDataLatLonBox) (mapLayer : L) (filter : MapAirspaceFilter)
    (flightPlanAltitude : ℚ) :
    ((getAirways env fillAirway idOf st rect mapLayer false).cache.list.map idOf).Nodup ∧
    (∀ r ∈ splitAtAntiMeridian env.cfg rect,
      ∀ row ∈ env.db .airwayByRectQuery (bindCoordinatePointInRect r),
        env.intersects rect (recordBox row) = true →
          ((getAirways env fillAirway idOf st rect mapLayer false).cache.list.map idOf).count
            row.id = 1) ∧
    ((getAirspaces env api ast rect mapLayer filter flightPlanAltitude false).cache.list.map
      api.idOf).Nodup ∧
    (filter.types ≠ api.AIRSPACE_NONE →
      ∀ r ∈ splitAtAntiMeridian env.cfg rect, ∀ typeStr ∈ airspaceTypeStrings api filter,
        ∀ row ∈ env.db (airspaceQueryAndAlt api filter flightPlanAltitude).1
            { bindCoordinatePointInRect r with
              type := some typeStr,
              alt := if (airspaceQueryAndAlt api filter flightPlanAltitude).2 > 0
                     then some (airspaceQueryAndAlt api filter flightPlanAltitude).2 else none },
          env.intersects rect (recordBox row) = true →
            ((getAirspaces env api ast rect mapLayer filter flightPlanAltitude
              false).cache.list.map api.idOf).count row.id = 1) := by
  have hA := getAirways_nodup env fillAirway idOf hfillAirway st hempty rect mapLayer false
  have hS := getAirspaces_nodup env api hfillAirspace ast haempty rect mapLayer filter
    flightPlanAltitude false
  refine ⟨hA, ?_, hS, ?_⟩
  · intro r hr row hrow hint
    exact List.count_eq_one_of_mem hA
      (getAirways_mem env fillAirway idOf hfillAirway st hempty rect mapLayer r hr row hrow hint)
  · intro hnone r hr typeStr htype row hrow hint
    exact List.count_eq_one_of_mem hS
      (getAirspaces_mem env api hfillAirspace ast haempty rect mapLayer filter hnone
        flightPlanAltitude r hr typeStr htype row hrow hint)

/-- Witness for `fetch_each_id_once`: a datastore that returns the row with id 7
for every sub-rectangle and type string, and the viewport over the seam. -/
theorem fetch_each_id_once_witness :
    ((getAirways (sampleEnv (fun _ _ => [sampleRecord 7])) (fun row => row) (fun row => row.id)
        { cache := emptyCache Unit SqlRecord, executed := [] }
        ⟨1, 0, -179, 179⟩ () false).cache.list.map (fun row => row.id)).Nodup ∧
    ((getAirspaces (sampleEnv (fun _ _ => [sampleRecord 7])) sampleAirspaceApi
        { cache := emptyCache Unit SqlRecord, executed := [],
          lastAirspaceFilter := ⟨0, 0⟩, lastFlightplanAltitude := 0 }
        ⟨1, 0, -179, 179⟩ () ⟨3, 0⟩ 0 false).cache.list.map sampleAirspaceApi.idOf).Nodup :=
  have h := fetch_each_id_once (sampleEnv (fun _ _ => [sampleRecord 7])) (fun row => row)
    (fun row => row.id) (fun _ => rfl) sampleAirspaceApi (fun _ => rfl)
    { cache := emptyCache Unit SqlRecord, executed := [] } rfl
    { cache := emptyCache Unit SqlRecord, executed := [],
      lastAirspaceFilter := ⟨0, 0⟩, lastFlightplanAltitude := 0 } rfl
    ⟨1, 0, -179, 179⟩ () ⟨3, 0⟩ 0
  ⟨h.1, h.2.2.1⟩

end MapQuery

namespace MapQuery
open Marble Marble.GeoDataLatLonBox

/-! ## C7: point kinds and the sub-rectangles -/

/-- C7 fails on the code: the waypoint table holds one row (id 1, position
0/0), so ids are unique; a non-lazy `getWaypoints` for the viewport
`[-150, 150] x [-10, 10]` with the default settings queries two sub-rectangles
that both span the full longitude range, and the list holds the waypoint
twice: the point getters keep no set of visited ids. -/
theorem getWaypoints_fullRange_duplicates :
    (([sampleRecord 1].map (fun row => row.id)).Nodup) ∧
    (getWaypoints (sampleEnv (pointDatabase [sampleRecord 1] 5000)) (fun row => row)
        { cache := emptyCache Unit SqlRecord, executed := [] }
        ⟨10, -10, 150, -150⟩ () false).cache.list = [sampleRecord 1, sampleRecord 1] ∧
    ¬ ((getWaypoints (sampleEnv (pointDatabase [sampleRecord 1] 5000)) (fun row => row)
        { cache := emptyCache Unit SqlRecord, executed := [] }
        ⟨10, -10, 150, -150⟩ () false).cache.list.map (fun row => row.id)).Nodup := by
  have hq : pointDatabase [sampleRecord 1] 5000 .waypointsByRectQuery
      (bindCoordinatePointInRect ⟨131 / 10, -131 / 10, 180, -180⟩) = [sampleRecord 1] := by
    norm_num [pointDatabase, selectByRect, whereLimit, whereRect, bindCoordinatePointInRect,
      sampleRecord]
  have hl : (getWaypoints (sampleEnv (pointDatabase [sampleRecord 1] 5000)) (fun row => row)
        { cache := emptyCache Unit SqlRecord, executed := [] }
        ⟨10, -10, 150, -150⟩ () false).cache.list = [sampleRecord 1, sampleRecord 1] := by
    simp [getWaypoints, getByRect, SimpleRectCache.updateCache, SimpleRectCache.validate,
      emptyCache, fetchByRect, sampleEnv, splitAtAntiMeridian_wide_example, hq]
  refine ⟨by simp, hl, ?_⟩
  rw [hl]
  simp

end MapQuery

namespace MapQuery
open Marble Marble.GeoDataLatLonBox

/-- The rows of a point statement are a sublist of the table. -/
theorem selectByRect_sublist (table : List SqlRecord) (queryMaxRows : ℤ)
    (rect : GeoDataLatLonBox) : (selectByRect table queryMaxRows rect).Sublist table := by
  unfold selectByRect whereLimit
  split_ifs
  · exact List.filter_sublist _
  · exact (List.take_sublist _ _).trans (List.filter_sublist _)

/-- Every row of a point statement satisfies the rectangle clause. -/
theorem whereRect_of_mem_selectByRect {table : List SqlRecord} {queryMaxRows : ℤ}
    {rect : GeoDataLatLonBox} {row : SqlRecord}
    (h : row ∈ selectByRect table queryMaxRows rect) : whereRect rect row = true := by
  unfold selectByRect whereLimit at h
  split_ifs at h
  · exact (List.mem_filter.mp h).2
  · exact (List.mem_filter.mp (List.mem_of_mem_take h)).2

/-- The list after the row loop of a point getter. -/
theorem appendRows_list {L T : Type} (fill : SqlRecord → T) (rows : List SqlRecord)
    (st : QueryState L T) :
    (rows.foldl
      (fun (st : QueryState L T) row =>
        { st with cache := { st.cache with list := st.cache.list ++ [fill row] } })
      st).cache.list = st.cache.list ++ rows.map fill := by
  induction rows generalizing st with
  | nil => simp
  | cons row rows ih => simp [ih]

/-- Point getters without a full-range viewport: if the ids of the table are
pairwise different and the inflated viewport does not span the full longitude
range, a fetch that starts from an empty list yields pairwise different ids,
because the two sub-rectangles share no longitude. -/
theorem getByRect_ids_nodup {L T : Type} (env : Env L) (stmt : Statement)
    (funcSameLayer : L → L → Bool) (fill : SqlRecord → T) (idOf : T → ℤ)
    (hfill : ∀ row, idOf (fill row) = row.id)
    (table : List SqlRecord) (hnodup : (table.map (fun row => row.id)).Nodup)
    (hdb : ∀ b, env.db stmt b = selectByRect table env.cfg.queryMaxRows b.rect)
    (st : QueryState L T) (hempty : st.cache.list = [])
    (rect : GeoDataLatLonBox) (hv : rect.Valid)
    (hf : 0 ≤ env.cfg.queryRectInflationFactor) (hi : 0 ≤ env.cfg.queryRectInflationIncrement)
    (hnot : ¬ ((inflateRect env.cfg rect).east = 180 ∧ (inflateRect env.cfg rect).west = -180))
    (mapLayer : L) (lazy : Bool) :
    ((getByRect env stmt funcSameLayer fill st rect mapLayer lazy).cache.list.map idOf).Nodup := by
  have h1 := updateCache_list_of_empty env.covers st.cache rect mapLayer lazy funcSameLayer hempty
  have hmap : ∀ rows : List SqlRecord, (rows.map fill).map idOf = rows.map (fun row => row.id) := by
    intro rows
    rw [List.map_map]
    exact List.map_congr_left (fun row _ => hfill row)
  have hsub : ∀ r : GeoDataLatLonBox,
      ((selectByRect table env.cfg.queryMaxRows r).map (fun row => row.id)).Nodup :=
    fun r => hnodup.sublist ((selectByRect_sublist table _ r).map _)
  have hvi := inflateRect_valid env.cfg rect hv hf hi
  simp only [getByRect, SimpleRectCache.validate]
  split_ifs with hc
  · simp only [fetchByRect]
    cases hcross : (inflateRect env.cfg rect).crossesDateLine
    · rw [splitAtAntiMeridian_of_not_crosses env.cfg rect hcross]
      simp only [List.foldl_cons, List.foldl_nil, appendRows_list, h1, List.nil_append, hdb,
        bindCoordinatePointInRect, hmap]
      exact hsub _
    · have hlt : (inflateRect env.cfg rect).east < (inflateRect env.cfg rect).west := by
        rcases (crossesDateLine_iff _).mp hcross with h | h
        · exact h
        · exact absurd h hnot
      rw [splitAtAntiMeridian_of_crosses env.cfg rect hvi hcross]
      simp only [List.foldl_cons, List.foldl_nil, appendRows_list, h1, List.nil_append, hdb,
        bindCoordinatePointInRect, List.map_append, hmap]
      rw [List.nodup_append]
      refine ⟨hsub _, hsub _, ?_⟩
      intro i hia hib
      obtain ⟨x, hx, rfl⟩ := List.mem_map.mp hia
      obtain ⟨y, hy, hxy⟩ := List.mem_map.mp hib
      have hyx : y = x :=
        List.inj_on_of_nodup_map hnodup ((selectByRect_sublist table _ _).subset hy)
          ((selectByRect_sublist table _ _).subset hx) hxy
      subst hyx
      have ha := whereRect_of_mem_selectByRect hx
      have hb := whereRect_of_mem_selectByRect hy
      simp only [whereRect, Bool.and_eq_true, decide_eq_true_eq] at ha hb
      linarith [ha.1.1, hb.1.2]
  · simp [h1]

end MapQuery

namespace MapQuery
open Marble Marble.GeoDataLatLonBox

/-! ## C8: a lazy call executes no statement -/

/-- C8: with `lazy = true` none of the eight by-viewport getters executes a
statement: the log of executed statements is the same after the call, for
every rectangle, layer, filter, altitude and cache state. -/
theorem lazy_executes_no_query {L T U : Type} (env : Env L)
    (fillOverview fillComplete fill : SqlRecord → T) (idOf : T → ℤ) (api : AirspaceApi U)
    (st : QueryState L T) (ast : AirspaceState L U) (rect : GeoDataLatLonBox) (mapLayer : L)
    (filter : MapAirspaceFilter) (flightPlanAltitude : ℚ) :
    (getAirports env fillOverview fillComplete st rect mapLayer true).executed = st.executed ∧
    (getWaypoints env fill st rect mapLayer true).executed = st.executed ∧
    (getVors env fill st rect mapLayer true).executed = st.executed ∧
    (getNdbs env fill st rect mapLayer true).executed = st.executed ∧
    (getMarkers env fill st rect mapLayer true).executed = st.executed ∧
    (getIls env fill st rect mapLayer true).executed = st.executed ∧
    (getAirways env fill idOf st rect mapLayer true).executed = st.executed ∧
    (getAirspaces env api ast rect mapLayer filter flightPlanAltitude true).executed =
      ast.executed := by
  refine ⟨?_, ?_, ?_, ?_, ?_, ?_, ?_, ?_⟩
  · simp only [getAirports]
    cases env.layer.getDataSource mapLayer <;> simp [fetchAirports]
  · simp [getWaypoints, getByRect]
  · simp [getVors, getByRect]
  · simp [getNdbs, getByRect]
  · simp [getMarkers, getByRect]
  · simp [getIls, getByRect]
  · simp [getAirways]
  · simp only [getAirspaces]
    split_ifs <;> simp_all

/-! ## C9: what a lazy call returns -/

/-- C9, as stated, fails for airspaces: a lazy `getAirspaces` call whose filter
type mask differs from the remembered one clears the cached list; here the
cache holds one airspace before the call and none after it. -/
theorem getAirspaces_lazy_clears_counterexample :
    (getAirspaces (sampleEnv (fun _ _ => [])) sampleAirspaceApi
        { cache := { list := [sampleRecord 1], curRect := ⟨1, 0, 1, 0⟩, curMapLayer := some (),
                     valid := true },
          executed := [], lastAirspaceFilter := ⟨1, 0⟩, lastFlightplanAltitude := 0 }
        ⟨1, 0, 1, 0⟩ () ⟨2, 0⟩ 0 true).cache.list = [] ∧
    (getAirspaces (sampleEnv (fun _ _ => [])) sampleAirspaceApi
        { cache := { list := [sampleRecord 1], curRect := ⟨1, 0, 1, 0⟩, curMapLayer := some (),
                     valid := true },
          executed := [], lastAirspaceFilter := ⟨1, 0⟩, lastFlightplanAltitude := 0 }
        ⟨1, 0, 1, 0⟩ () ⟨2, 0⟩ 0 true).cache.list ≠ [sampleRecord 1] := by
  constructor <;> simp [getAirspaces, SimpleRectCache.updateCache, SimpleRectCache.validate]

/-- C9 (amended): with `lazy = true` the getters of airports, waypoints, VORs,
NDBs, markers, ILS and airways return the entity list of the cache exactly as
it was before the call. `getAirspaces` does so when the filter type mask and
flags equal the remembered ones and the flight plan altitude is within the
float epsilon of the remembered one; otherwise it returns the list cleared (and
remembers the new filter and altitude). -/
theorem lazy_returns_cached_list {L T U : Type} (env : Env L)
    (fillOverview fillComplete fill : SqlRecord → T) (idOf : T → ℤ) (api : AirspaceApi U)
    (st : QueryState L T) (ast : AirspaceState L U) (rect : GeoDataLatLonBox) (mapLayer : L)
    (filter : MapAirspaceFilter) (flightPlanAltitude : ℚ) :
    (getAirports env fillOverview fillComplete st rect mapLayer true).cache.list =
      st.cache.list ∧
    (getWaypoints env fill st rect mapLayer true).cache.list = st.cache.list ∧
    (getVors env fill st rect mapLayer true).cache.list = st.cache.list ∧
    (getNdbs env fill st rect mapLayer true).cache.list = st.cache.list ∧
    (getMarkers env fill st rect mapLayer true).cache.list = st.cache.list ∧
    (getIls env fill st rect mapLayer true).cache.list = st.cache.list ∧
    (getAirways env fill idOf st rect mapLayer true).cache.list = st.cache.list ∧
    (getAirspaces env api ast rect mapLayer filter flightPlanAltitude true).cache.list =
      (if filter.types ≠ ast.lastAirspaceFilter.types ∨
          filter.flags ≠ ast.lastAirspaceFilter.flags ∨
          almostNotEqual ast.lastFlightplanAltitude flightPlanAltitude = true
       then [] else ast.cache.list) ∧
    (getAirspaces env api ast rect mapLayer filter flightPlanAltitude
        true).lastAirspaceFilter =
      (if filter.types ≠ ast.lastAirspaceFilter.types ∨
          filter.flags ≠ ast.lastAirspaceFilter.flags ∨
          almostNotEqual ast.lastFlightplanAltitude flightPlanAltitude = true
       then filter else ast.lastAirspaceFilter) ∧
    (getAirspaces env api ast rect mapLayer filter flightPlanAltitude
        true).lastFlightplanAltitude =
      (if filter.types ≠ ast.lastAirspaceFilter.types ∨
          filter.flags ≠ ast.lastAirspaceFilter.flags ∨
          almostNotEqual ast.lastFlightplanAltitude flightPlanAltitude = true
       then flightPlanAltitude else ast.lastFlightplanAltitude) := by
  refine ⟨?_, ?_, ?_, ?_, ?_, ?_, ?_, ?_, ?_, ?_⟩
  · simp only [getAirports]
    cases env.layer.getDataSource mapLayer <;>
      simp [fetchAirports, SimpleRectCache.validate, updateCache_lazy]
  · simp [getWaypoints, getByRect, SimpleRectCache.validate, updateCache_lazy]
  · simp [getVors, getByRect, SimpleRectCache.validate, updateCache_lazy]
  · simp [getNdbs, getByRect, SimpleRectCache.validate, updateCache_lazy]
  · simp [getMarkers, getByRect, SimpleRectCache.validate, updateCache_lazy]
  · simp [getIls, getByRect, SimpleRectCache.validate, updateCache_lazy]
  · simp [getAirways, SimpleRectCache.validate, updateCache_lazy]
  · simp only [getAirspaces, SimpleRectCache.validate, updateCache_lazy]
    split_ifs <;> simp_all
  · simp only [getAirspaces, SimpleRectCache.validate, updateCache_lazy]
    split_ifs <;> simp_all
  · simp only [getAirspaces, SimpleRectCache.validate, updateCache_lazy]
    split_ifs <;> simp_all

end MapQuery

namespace MapQuery
open Marble Marble.GeoDataLatLonBox

/-! ## C10: a changed filter or altitude rebuilds the airspace list -/

/-- The fetch leaves the remembered filter and altitude alone. -/
theorem fetchAirspaces_remembered {L T : Type} (env : Env L) (api : AirspaceApi T)
    (st : AirspaceState L T) (rect : GeoDataLatLonBox) (filter : MapAirspaceFilter)
    (flightPlanAltitude : ℚ) :
    (fetchAirspaces env api st rect filter flightPlanAltitude).lastAirspaceFilter =
        st.lastAirspaceFilter ∧
    (fetchAirspaces env api st rect filter flightPlanAltitude).lastFlightplanAltitude =
        st.lastFlightplanAltitude := by
  simp only [fetchAirspaces]
  refine foldl_preserves (fun (fs : FetchState (AirspaceState L T)) =>
    fs.st.lastAirspaceFilter = st.lastAirspaceFilter ∧
      fs.st.lastFlightplanAltitude = st.lastFlightplanAltitude) _ ?_ _ _ ⟨rfl, rfl⟩
  intro fs r hfs
  refine foldl_preserves (fun (fs : FetchState (AirspaceState L T)) =>
    fs.st.lastAirspaceFilter = st.lastAirspaceFilter ∧
      fs.st.lastFlightplanAltitude = st.lastFlightplanAltitude) _ ?_ _ _ hfs
  intro fs typeStr hfs
  refine foldl_preserves (fun (fs : FetchState (AirspaceState L T)) =>
    fs.st.lastAirspaceFilter = st.lastAirspaceFilter ∧
      fs.st.lastFlightplanAltitude = st.lastFlightplanAltitude) _ ?_ _ _ hfs
  intro fs row hfs
  split_ifs <;> exact hfs

/-- C10, as stated, fails: the remembered altitude is 0 and the call passes
the different altitude 2^-24 with the same filter, rectangle and layer; the
difference is below the float epsilon, so the cached list is kept (the fresh
query result, the row with id 2, is not fetched), no statement is executed and
the remembered altitude stays 0. -/
theorem getAirspaces_altitude_counterexample :
    (1 / 16777216 : ℚ) ≠ 0 ∧
    (getAirspaces (sampleEnv (fun _ _ => [sampleRecord 2])) sampleAirspaceApi
        { cache := { list := [sampleRecord 1], curRect := ⟨1, 0, 1, 0⟩, curMapLayer := some (),
                     valid := true },
          executed := [], lastAirspaceFilter := ⟨1, 0⟩, lastFlightplanAltitude := 0 }
        ⟨1, 0, 1, 0⟩ () ⟨1, 0⟩ (1 / 16777216) false).cache.list = [sampleRecord 1] ∧
    (getAirspaces (sampleEnv (fun _ _ => [sampleRecord 2])) sampleAirspaceApi
        { cache := { list := [sampleRecord 1], curRect := ⟨1, 0, 1, 0⟩, curMapLayer := some (),
                     valid := true },
          executed := [], lastAirspaceFilter := ⟨1, 0⟩, lastFlightplanAltitude := 0 }
        ⟨1, 0, 1, 0⟩ () ⟨1, 0⟩ (1 / 16777216) false).executed = [] ∧
    (getAirspaces (sampleEnv (fun _ _ => [sampleRecord 2])) sampleAirspaceApi
        { cache := { list := [sampleRecord 1], curRect := ⟨1, 0, 1, 0⟩, curMapLayer := some (),
                     valid := true },
          executed := [], lastAirspaceFilter := ⟨1, 0⟩, lastFlightplanAltitude := 0 }
        ⟨1, 0, 1, 0⟩ () ⟨1, 0⟩ (1 / 16777216) false).lastFlightplanAltitude = 0 := by
  have ha : almostNotEqual 0 (1 / 16777216) = false := by
    have h : |(0 : ℚ) - 1 / 16777216| = 1 / 16777216 := by
      rw [zero_sub, abs_neg, abs_of_pos (by norm_num)]
    simp only [almostNotEqual, floatEpsilon, h]
    norm_num
  have ha2 : almostNotEqual 0 (16777216⁻¹) = false := by rw [← one_div]; exact ha
  refine ⟨by norm_num, ?_, ?_, ?_⟩ <;>
    simp [getAirspaces, SimpleRectCache.updateCache, SimpleRectCache.validate, sampleEnv,
      sampleLayerApi, ha2]

/-- C10 (amended): for every non-lazy `getAirspaces` call whose filter type
mask or filter flags differ from the remembered ones, or whose flight plan
altitude differs from the remembered one by at least the float epsilon, the
previously cached list is discarded (the result does not depend on it) and the
list is rebuilt by a fetch that starts from the empty list (it is empty when
the type mask is `AIRSPACE_NONE`), even when rectangle and layer are unchanged;
the new filter and altitude are remembered. -/
theorem getAirspaces_filter_change_rebuilds {L T : Type} (env : Env L) (api : AirspaceApi T)
    (st : AirspaceState L T) (rect : GeoDataLatLonBox) (mapLayer : L)
    (filter : MapAirspaceFilter) (flightPlanAltitude : ℚ)
    (hchg : filter.types ≠ st.lastAirspaceFilter.types ∨
      filter.flags ≠ st.lastAirspaceFilter.flags ∨
      almostNotEqual st.lastFlightplanAltitude flightPlanAltitude = true) :
    (getAirspaces env api st rect mapLayer filter flightPlanAltitude false).cache.list =
      (if filter.types ≠ api.AIRSPACE_NONE then
        (fetchAirspaces env api
          { cache := { st.cache.updateCache env.covers rect mapLayer false
                        env.layer.hasSameQueryParametersAirspace with list := [] },
            executed := st.executed,
            lastAirspaceFilter := filter,
            lastFlightplanAltitude := flightPlanAltitude }
          rect filter flightPlanAltitude).cache.list
       else []) ∧
    (∀ previous : List T,
      getAirspaces env api { st with cache := { st.cache with list := previous } } rect mapLayer
          filter flightPlanAltitude false =
        getAirspaces env api st rect mapLayer filter flightPlanAltitude false) ∧
    (getAirspaces env api st rect mapLayer filter flightPlanAltitude false).lastAirspaceFilter =
      filter ∧
    (getAirspaces env api st rect mapLayer filter flightPlanAltitude
      false).lastFlightplanAltitude = flightPlanAltitude := by
  refine ⟨?_, ?_, ?_, ?_⟩
  · simp only [getAirspaces, SimpleRectCache.validate]
    rw [if_pos hchg]
    split_ifs <;> simp_all
  · intro previous
    simp only [getAirspaces, SimpleRectCache.validate]
    rw [if_pos hchg, if_pos hchg]
    simp [SimpleRectCache.updateCache]
    split_ifs <;> simp_all
  · simp only [getAirspaces, SimpleRectCache.validate]
    rw [if_pos hchg]
    split_ifs
    · exact (fetchAirspaces_remembered env api _ rect filter flightPlanAltitude).1
    · rfl
    · rfl
  · simp only [getAirspaces, SimpleRectCache.validate]
    rw [if_pos hchg]
    split_ifs
    · exact (fetchAirspaces_remembered env api _ rect filter flightPlanAltitude).2
    · rfl
    · rfl

/-- Witness for `getAirspaces_filter_change_rebuilds`: the remembered type mask
is 1 and the call passes the mask 2. -/
theorem getAirspaces_filter_change_rebuilds_witness :
    (getAirspaces (sampleEnv (fun _ _ => [sampleRecord 2])) sampleAirspaceApi
        { cache := { list := [sampleRecord 1], curRect := ⟨1, 0, 1, 0⟩, curMapLayer := some (),
                     valid := true },
          executed := [], lastAirspaceFilter := ⟨1, 0⟩, lastFlightplanAltitude := 0 }
        ⟨1, 0, 1, 0⟩ () ⟨2, 0⟩ 0 false).lastAirspaceFilter = ⟨2, 0⟩ ∧
    (getAirspaces (sampleEnv (fun _ _ => [sampleRecord 2])) sampleAirspaceApi
        { cache := { list := [sampleRecord 1], curRect := ⟨1, 0, 1, 0⟩, curMapLayer := some (),
                     valid := true },
          executed := [], lastAirspaceFilter := ⟨1, 0⟩, lastFlightplanAltitude := 0 }
        ⟨1, 0, 1, 0⟩ () ⟨2, 0⟩ 0 false).lastFlightplanAltitude = 0 :=
  (getAirspaces_filter_change_rebuilds (sampleEnv (fun _ _ => [sampleRecord 2]))
    sampleAirspaceApi
    { cache := { list := [sampleRecord 1], curRect := ⟨1, 0, 1, 0⟩, curMapLayer := some (),
                 valid := true },
      executed := [], lastAirspaceFilter := ⟨1, 0⟩, lastFlightplanAltitude := 0 }
    ⟨1, 0, 1, 0⟩ () ⟨2, 0⟩ 0 (Or.inl (by decide))).2.2

end MapQuery

namespace MapQuery
open Marble Marble.GeoDataLatLonBox

/-! ## C11: an unchanged airspace call -/

/-- The fetch is the collecting loop followed by the sort. -/
theorem fetchAirspaces_eq_collect {L T : Type} (env : Env L) (api : AirspaceApi T)
    (st : AirspaceState L T) (rect : GeoDataLatLonBox) (filter : MapAirspaceFilter)
    (flightPlanAltitude : ℚ) :
    fetchAirspaces env api st rect filter flightPlanAltitude =
      { (collectAirspaces env api st rect filter flightPlanAltitude).st with
        cache := { (collectAirspaces env api st rect filter flightPlanAltitude).st.cache with
          list := sortByDrawingOrder api
            (collectAirspaces env api st rect filter flightPlanAltitude).st.cache.list } } := rfl

theorem almostNotEqual_self (f : ℚ) : almostNotEqual f f = false := by
  simp [almostNotEqual, floatEpsilon]

end MapQuery

namespace MapQuery
open Marble Marble.GeoDataLatLonBox

/-- The fetch leaves the stored viewport, the stored layer and the validity
flag of the cache alone. -/
theorem fetchAirspaces_cache_key {L T : Type} (env : Env L) (api : AirspaceApi T)
    (st : AirspaceState L T) (rect : GeoDataLatLonBox) (filter : MapAirspaceFilter)
    (flightPlanAltitude : ℚ) :
    (fetchAirspaces env api st rect filter flightPlanAltitude).cache.curRect = st.cache.curRect ∧
    (fetchAirspaces env api st rect filter flightPlanAltitude).cache.curMapLayer =
      st.cache.curMapLayer := by
  simp only [fetchAirspaces]
  refine foldl_preserves (fun (fs : FetchState (AirspaceState L T)) =>
    fs.st.cache.curRect = st.cache.curRect ∧ fs.st.cache.curMapLayer = st.cache.curMapLayer)
    _ ?_ _ _ ⟨rfl, rfl⟩
  intro fs r hfs
  refine foldl_preserves (fun (fs : FetchState (AirspaceState L T)) =>
    fs.st.cache.curRect = st.cache.curRect ∧ fs.st.cache.curMapLayer = st.cache.curMapLayer)
    _ ?_ _ _ hfs
  intro fs typeStr hfs
  refine foldl_preserves (fun (fs : FetchState (AirspaceState L T)) =>
    fs.st.cache.curRect = st.cache.curRect ∧ fs.st.cache.curMapLayer = st.cache.curMapLayer)
    _ ?_ _ _ hfs
  intro fs row hfs
  split_ifs <;> exact hfs

/-- After a non-lazy `updateCache` the cache is compatible with the requested
viewport and layer, if the containment check and the layer comparison accept
equal arguments. -/
theorem updateCache_compatible {L T : Type} (covers : GeoDataLatLonBox → GeoDataLatLonBox → Bool)
    (c : SimpleRectCache L T) (rect : GeoDataLatLonBox) (mapLayer : L)
    (funcSameLayer : L → L → Bool) (hcov : covers rect rect = true)
    (hlayer : funcSameLayer mapLayer mapLayer = true) :
    covers (c.updateCache covers rect mapLayer false funcSameLayer).curRect rect = true ∧
    ∃ cur, (c.updateCache covers rect mapLayer false funcSameLayer).curMapLayer = some cur ∧
      funcSameLayer cur mapLayer = true := by
  unfold SimpleRectCache.updateCache
  simp only [Bool.false_eq_true, if_false]
  split_ifs with h
  · exact ⟨hcov, mapLayer, rfl, hlayer⟩
  · simp only [Bool.or_eq_true, Bool.not_eq_true', not_or, Bool.not_eq_false] at h
    refine ⟨h.1, ?_⟩
    cases hl : c.curMapLayer with
    | none => simp [hl] at h
    | some cur => exact ⟨cur, rfl, by simpa [hl] using h.2⟩

/-- A compatible cache is reused as it is. -/
theorem updateCache_of_compatible {L T : Type}
    (covers : GeoDataLatLonBox → GeoDataLatLonBox → Bool)
    (c : SimpleRectCache L T) (rect : GeoDataLatLonBox) (mapLayer : L) (lazy : Bool)
    (funcSameLayer : L → L → Bool) (hcov : covers c.curRect rect = true)
    (cur : L) (hcur : c.curMapLayer = some cur) (hlayer : funcSameLayer cur mapLayer = true) :
    c.updateCache covers rect mapLayer lazy funcSameLayer = c := by
  unfold SimpleRectCache.updateCache
  simp [hcov, hcur, hlayer]

/-- The filter and altitude a `getAirspaces` call leaves remembered. -/
theorem getAirspaces_remembered {L T : Type} (env : Env L) (api : AirspaceApi T)
    (st : AirspaceState L T) (rect : GeoDataLatLonBox) (mapLayer : L)
    (filter : MapAirspaceFilter) (flightPlanAltitude : ℚ) (lazy : Bool) :
    (getAirspaces env api st rect mapLayer filter flightPlanAltitude lazy).lastAirspaceFilter =
      (if filter.types ≠ st.lastAirspaceFilter.types ∨
          filter.flags ≠ st.lastAirspaceFilter.flags ∨
          almostNotEqual st.lastFlightplanAltitude flightPlanAltitude = true
       then filter else st.lastAirspaceFilter) ∧
    (getAirspaces env api st rect mapLayer filter flightPlanAltitude
        lazy).lastFlightplanAltitude =
      (if filter.types ≠ st.lastAirspaceFilter.types ∨
          filter.flags ≠ st.lastAirspaceFilter.flags ∨
          almostNotEqual st.lastFlightplanAltitude flightPlanAltitude = true
       then flightPlanAltitude else st.lastFlightplanAltitude) := by
  by_cases hchg : filter.types ≠ st.lastAirspaceFilter.types ∨
      filter.flags ≠ st.lastAirspaceFilter.flags ∨
      almostNotEqual st.lastFlightplanAltitude flightPlanAltitude = true
  · simp only [getAirspaces, SimpleRectCache.validate, if_pos hchg]
    split_ifs
    · exact fetchAirspaces_remembered env api _ rect filter flightPlanAltitude
    · exact ⟨rfl, rfl⟩
    · exact ⟨rfl, rfl⟩
  · simp only [getAirspaces, SimpleRectCache.validate, if_neg hchg]
    split_ifs
    · exact fetchAirspaces_remembered env api _ rect filter flightPlanAltitude
    · exact ⟨rfl, rfl⟩
    · exact ⟨rfl, rfl⟩

/-- What a non-lazy `getAirspaces` call leaves behind: a validated cache that
is compatible with the viewport and layer of the call, and a remembered filter
and altitude that the same arguments do not differ from. -/
theorem getAirspaces_post {L T : Type} (env : Env L) (api : AirspaceApi T)
    (st : AirspaceState L T) (rect : GeoDataLatLonBox) (mapLayer : L)
    (filter : MapAirspaceFilter) (flightPlanAltitude : ℚ)
    (hcov : env.covers rect rect = true)
    (hlayer : env.layer.hasSameQueryParametersAirspace mapLayer mapLayer = true) :
    (getAirspaces env api st rect mapLayer filter flightPlanAltitude false).cache.valid = true ∧
    env.covers (getAirspaces env api st rect mapLayer filter flightPlanAltitude
      false).cache.curRect rect = true ∧
    (∃ cur, (getAirspaces env api st rect mapLayer filter flightPlanAltitude
      false).cache.curMapLayer = some cur ∧
      env.layer.hasSameQueryParametersAirspace cur mapLayer = true) ∧
    ¬ (filter.types ≠ (getAirspaces env api st rect mapLayer filter flightPlanAltitude
          false).lastAirspaceFilter.types ∨
       filter.flags ≠ (getAirspaces env api st rect mapLayer filter flightPlanAltitude
          false).lastAirspaceFilter.flags ∨
       almostNotEqual (getAirspaces env api st rect mapLayer filter flightPlanAltitude
          false).lastFlightplanAltitude flightPlanAltitude = true) := by
  obtain ⟨h1, h2⟩ := updateCache_compatible env.covers st.cache rect mapLayer
    env.layer.hasSameQueryParametersAirspace hcov hlayer
  refine ⟨?_, ?_, ?_, ?_⟩
  · simp [getAirspaces, SimpleRectCache.validate]
  · simp only [getAirspaces, SimpleRectCache.validate]
    split_ifs <;>
      first
      | exact h1
      | (rw [(fetchAirspaces_cache_key env api _ rect filter flightPlanAltitude).1]; exact h1)
  · simp only [getAirspaces, SimpleRectCache.validate]
    split_ifs <;>
      first
      | exact h2
      | (rw [(fetchAirspaces_cache_key env api _ rect filter flightPlanAltitude).2]; exact h2)
  · rw [(getAirspaces_remembered env api st rect mapLayer filter flightPlanAltitude false).1,
      (getAirspaces_remembered env api st rect mapLayer filter flightPlanAltitude false).2]
    by_cases hchg : filter.types ≠ st.lastAirspaceFilter.types ∨
        filter.flags ≠ st.lastAirspaceFilter.flags ∨
        almostNotEqual st.lastFlightplanAltitude flightPlanAltitude = true
    · rw [if_pos hchg, if_pos hchg]
      simp [almostNotEqual_self]
    · rw [if_neg hchg, if_neg hchg]
      exact hchg

/-- C11, as stated, fails: the datastore returns no rows; the first non-lazy
call for the viewport `[-150, 150] x [-10, 10]` with the mask `AIRSPACE_ALL`
executes two statements and leaves the list empty, and the immediately
following call with the same rectangle, layer, filter and altitude executes
two statements again. -/
theorem getAirspaces_empty_requery_counterexample :
    ((getAirspaces (sampleEnv (fun _ _ => [])) sampleAirspaceApi
        { cache := emptyCache Unit SqlRecord, executed := [],
          lastAirspaceFilter := ⟨0, 0⟩, lastFlightplanAltitude := 0 }
        ⟨10, -10, 150, -150⟩ () ⟨268435455, 0⟩ 0 false).executed.length = 2) ∧
    ((getAirspaces (sampleEnv (fun _ _ => [])) sampleAirspaceApi
        (getAirspaces (sampleEnv (fun _ _ => [])) sampleAirspaceApi
          { cache := emptyCache Unit SqlRecord, executed := [],
            lastAirspaceFilter := ⟨0, 0⟩, lastFlightplanAltitude := 0 }
          ⟨10, -10, 150, -150⟩ () ⟨268435455, 0⟩ 0 false)
        ⟨10, -10, 150, -150⟩ () ⟨268435455, 0⟩ 0 false).executed.length = 4) := by
  have hs : splitAtAntiMeridian (sampleEnv (fun _ _ => [])).cfg ⟨10, -10, 150, -150⟩ =
      [⟨131 / 10, -131 / 10, 180, -180⟩, ⟨131 / 10, -131 / 10, 180, -180⟩] :=
    splitAtAntiMeridian_wide_example
  have ht : airspaceTypeStrings sampleAirspaceApi ⟨268435455, 0⟩ = ["%"] := by
    simp [airspaceTypeStrings, sampleAirspaceApi]
  have hn : sampleAirspaceApi.AIRSPACE_NONE = 0 := rfl
  have hdb : (sampleEnv (fun _ _ => [])).db = fun _ _ => [] := rfl
  have hcovers : (sampleEnv (fun _ _ => [])).covers = fun _ _ => true := rfl
  have hsame : (sampleEnv (fun _ _ => [])).layer.hasSameQueryParametersAirspace =
      fun _ _ => true := rfl
  constructor <;>
    simp [getAirspaces, fetchAirspaces, SimpleRectCache.updateCache, SimpleRectCache.validate,
      emptyCache, hs, ht, hn, hdb, hcovers, hsame, sortByDrawingOrder, almostNotEqual_self]

/-- C11 (amended): if a non-lazy `getAirspaces` call left a non-empty list (or
the type mask is `AIRSPACE_NONE`), the immediately following non-lazy call with
the same rectangle, layer, filter and flight plan altitude executes no
statement and leaves the list and the whole state as they are; the containment
check and the layer comparison are assumed to accept equal arguments. -/
theorem getAirspaces_unchanged_call {L T : Type} (env : Env L) (api : AirspaceApi T)
    (st : AirspaceState L T) (rect : GeoDataLatLonBox) (mapLayer : L)
    (filter : MapAirspaceFilter) (flightPlanAltitude : ℚ)
    (hcov : env.covers rect rect = true)
    (hlayer : env.layer.hasSameQueryParametersAirspace mapLayer mapLayer = true)
    (hne : (getAirspaces env api st rect mapLayer filter flightPlanAltitude false).cache.list ≠ []
      ∨ filter.types = api.AIRSPACE_NONE) :
    getAirspaces env api
        (getAirspaces env api st rect mapLayer filter flightPlanAltitude false)
        rect mapLayer filter flightPlanAltitude false =
      getAirspaces env api st rect mapLayer filter flightPlanAltitude false := by
  obtain ⟨hvalid, hc, ⟨cur, hcur, hsame⟩, hkeep⟩ :=
    getAirspaces_post env api st rect mapLayer filter flightPlanAltitude hcov hlayer
  generalize getAirspaces env api st rect mapLayer filter flightPlanAltitude false = s1 at *
  have hu := updateCache_of_compatible env.covers s1.cache rect mapLayer false
    env.layer.hasSameQueryParametersAirspace hc cur hcur hsame
  obtain ⟨cache, executed, lastFilter, lastAlt⟩ := s1
  obtain ⟨list, curRect, curLayer, valid⟩ := cache
  simp only at hvalid hu hkeep hne
  subst hvalid
  simp only [getAirspaces, hu, if_neg hkeep, SimpleRectCache.validate]
  rcases hne with hne | hne
  · cases list with
    | nil => exact absurd rfl hne
    | cons a l => simp
  · simp [hne]

end MapQuery

namespace MapQuery
open Marble Marble.GeoDataLatLonBox

/-- Witness for `getAirspaces_unchanged_call`: the datastore returns the row
with id 1, so the first call leaves a non-empty list. -/
theorem getAirspaces_unchanged_call_witness :
    getAirspaces (sampleEnv (fun _ _ => [sampleRecord 1])) sampleAirspaceApi
        (getAirspaces (sampleEnv (fun _ _ => [sampleRecord 1])) sampleAirspaceApi
          { cache := emptyCache Unit SqlRecord, executed := [],
            lastAirspaceFilter := ⟨0, 0⟩, lastFlightplanAltitude := 0 }
          ⟨10, -10, 150, -150⟩ () ⟨268435455, 0⟩ 0 false)
        ⟨10, -10, 150, -150⟩ () ⟨268435455, 0⟩ 0 false =
      getAirspaces (sampleEnv (fun _ _ => [sampleRecord 1])) sampleAirspaceApi
        { cache := emptyCache Unit SqlRecord, executed := [],
          lastAirspaceFilter := ⟨0, 0⟩, lastFlightplanAltitude := 0 }
        ⟨10, -10, 150, -150⟩ () ⟨268435455, 0⟩ 0 false :=
  getAirspaces_unchanged_call (sampleEnv (fun _ _ => [sampleRecord 1])) sampleAirspaceApi
    { cache := emptyCache Unit SqlRecord, executed := [],
      lastAirspaceFilter := ⟨0, 0⟩, lastFlightplanAltitude := 0 }
    ⟨10, -10, 150, -150⟩ () ⟨268435455, 0⟩ 0 rfl rfl
    (Or.inl (by
      have hs : splitAtAntiMeridian (sampleEnv (fun _ _ => [sampleRecord 1])).cfg
          ⟨10, -10, 150, -150⟩ =
          [⟨131 / 10, -131 / 10, 180, -180⟩, ⟨131 / 10, -131 / 10, 180, -180⟩] :=
        splitAtAntiMeridian_wide_example
      have ht : airspaceTypeStrings sampleAirspaceApi ⟨268435455, 0⟩ = ["%"] := by
        simp [airspaceTypeStrings, sampleAirspaceApi]
      have hn : sampleAirspaceApi.AIRSPACE_NONE = 0 := rfl
      have hdb : (sampleEnv (fun _ _ => [sampleRecord 1])).db = fun _ _ => [sampleRecord 1] := rfl
      have hint : (sampleEnv (fun _ _ => [sampleRecord 1])).intersects = fun _ _ => true := rfl
      have hfill : sampleAirspaceApi.fillAirspace = fun row => row := rfl
      have hid : sampleAirspaceApi.idOf = fun row => row.id := rfl
      simp [getAirspaces, fetchAirspaces, SimpleRectCache.updateCache, SimpleRectCache.validate,
        emptyCache, hs, ht, hn, hdb, hint, hfill, hid, sortByDrawingOrder]))

/-! ## C12: the fetched airspaces are sorted by drawing order -/

/-- The list after a non-lazy call whose filter or altitude changed. -/
theorem getAirspaces_list_of_change {L T : Type} (env : Env L) (api : AirspaceApi T)
    (st : AirspaceState L T) (rect : GeoDataLatLonBox) (mapLayer : L)
    (filter : MapAirspaceFilter) (flightPlanAltitude : ℚ)
    (hchg : filter.types ≠ st.lastAirspaceFilter.types ∨
      filter.flags ≠ st.lastAirspaceFilter.flags ∨
      almostNotEqual st.lastFlightplanAltitude flightPlanAltitude = true) :
    (getAirspaces env api st rect mapLayer filter flightPlanAltitude false).cache.list =
      (if filter.types ≠ api.AIRSPACE_NONE then
        (fetchAirspaces env api
          { cache := { st.cache.updateCache env.covers rect mapLayer false
                        env.layer.hasSameQueryParametersAirspace with list := [] },
            executed := st.executed,
            lastAirspaceFilter := filter,
            lastFlightplanAltitude := flightPlanAltitude }
          rect filter flightPlanAltitude).cache.list
       else []) := by
  simp only [getAirspaces, SimpleRectCache.validate]
  rw [if_pos hchg]
  split_ifs <;> simp_all

/-- A non-lazy `getAirspaces` call with a non-empty type mask that fetches (the
list is empty after the cache update, or the filter or altitude changed)
returns the list of a fetch that starts from an empty list. -/
theorem getAirspaces_eq_fetch_of_trigger {L T : Type} (env : Env L) (api : AirspaceApi T)
    (st : AirspaceState L T) (rect : GeoDataLatLonBox) (mapLayer : L)
    (filter : MapAirspaceFilter) (hnone : filter.types ≠ api.AIRSPACE_NONE)
    (flightPlanAltitude : ℚ)
    (htrigger : (st.cache.updateCache env.covers rect mapLayer false
        env.layer.hasSameQueryParametersAirspace).list = [] ∨
      (filter.types ≠ st.lastAirspaceFilter.types ∨
        filter.flags ≠ st.lastAirspaceFilter.flags ∨
        almostNotEqual st.lastFlightplanAltitude flightPlanAltitude = true)) :
    ∃ st2 : AirspaceState L T, st2.cache.list = [] ∧
      (getAirspaces env api st rect mapLayer filter flightPlanAltitude false).cache.list =
        (fetchAirspaces env api st2 rect filter flightPlanAltitude).cache.list := by
  rcases htrigger with h1 | hchg
  · simp only [getAirspaces, SimpleRectCache.validate]
    split_ifs with hchg hc hc
    · exact ⟨_, rfl, rfl⟩
    · simp at hc
    · exact ⟨_, h1, rfl⟩
    · simp [h1] at hc
  · refine ⟨_, ?_, ((getAirspaces_list_of_change env api st rect mapLayer filter
      flightPlanAltitude hchg).trans (if_pos hnone))⟩
    rfl

/-- C12: after a non-lazy airspace fetch with a non-empty type mask (the call
fetches exactly when the list is empty after the cache update or the filter or
altitude changed) the returned list is a permutation of the entities accepted
during the fetch and is sorted ascending by the drawing order of the airspace
type: for all positions `i < j`,
`airspaceDrawingOrder(list[i].type) ≤ airspaceDrawingOrder(list[j].type)`. -/
theorem getAirspaces_sorted_perm {L T : Type} (env : Env L) (api : AirspaceApi T)
    (st : AirspaceState L T) (rect : GeoDataLatLonBox) (mapLayer : L)
    (filter : MapAirspaceFilter) (hnone : filter.types ≠ api.AIRSPACE_NONE)
    (flightPlanAltitude : ℚ)
    (htrigger : (st.cache.updateCache env.covers rect mapLayer false
        env.layer.hasSameQueryParametersAirspace).list = [] ∨
      (filter.types ≠ st.lastAirspaceFilter.types ∨
        filter.flags ≠ st.lastAirspaceFilter.flags ∨
        almostNotEqual st.lastFlightplanAltitude flightPlanAltitude = true)) :
    (∃ st2 : AirspaceState L T, st2.cache.list = [] ∧
      (getAirspaces env api st rect mapLayer filter flightPlanAltitude false).cache.list.Perm
        (collectAirspaces env api st2 rect filter flightPlanAltitude).st.cache.list) ∧
    (getAirspaces env api st rect mapLayer filter flightPlanAltitude false).cache.list.Pairwise
      (fun a b =>
        api.airspaceDrawingOrder (api.typeOf a) ≤ api.airspaceDrawingOrder (api.typeOf b)) ∧
    (∀ i j : Fin (getAirspaces env api st rect mapLayer filter flightPlanAltitude
        false).cache.list.length, i < j →
      api.airspaceDrawingOrder (api.typeOf
          ((getAirspaces env api st rect mapLayer filter flightPlanAltitude
            false).cache.list.get i)) ≤
        api.airspaceDrawingOrder (api.typeOf
          ((getAirspaces env api st rect mapLayer filter flightPlanAltitude
            false).cache.list.get j))) := by
  obtain ⟨st2, h2, heq⟩ := getAirspaces_eq_fetch_of_trigger env api st rect mapLayer filter hnone
    flightPlanAltitude htrigger
  haveI : IsTotal T (fun a b =>
      api.airspaceDrawingOrder (api.typeOf a) ≤ api.airspaceDrawingOrder (api.typeOf b)) :=
    ⟨fun a b => le_total _ _⟩
  haveI : IsTrans T (fun a b =>
      api.airspaceDrawingOrder (api.typeOf a) ≤ api.airspaceDrawingOrder (api.typeOf b)) :=
    ⟨fun a b c hab hbc => le_trans hab hbc⟩
  have hsorted : (getAirspaces env api st rect mapLayer filter flightPlanAltitude
      false).cache.list.Pairwise (fun a b =>
        api.airspaceDrawingOrder (api.typeOf a) ≤ api.airspaceDrawingOrder (api.typeOf b)) := by
    rw [heq, fetchAirspaces_eq_collect]
    exact List.sorted_insertionSort _ _
  refine ⟨⟨st2, h2, ?_⟩, hsorted, ?_⟩
  · rw [heq, fetchAirspaces_eq_collect]
    exact List.perm_insertionSort _ _
  · intro i j hij
    exact List.pairwise_iff_get.mp hsorted i j hij

/-- Witness for `getAirspaces_sorted_perm`: the mask `AIRSPACE_ALL` on an empty
cache. -/
theorem getAirspaces_sorted_perm_witness :
    (getAirspaces (sampleEnv (fun _ _ => [sampleRecord 1])) sampleAirspaceApi
        { cache := emptyCache Unit SqlRecord, executed := [],
          lastAirspaceFilter := ⟨0, 0⟩, lastFlightplanAltitude := 0 }
        ⟨10, -10, 150, -150⟩ () ⟨268435455, 0⟩ 0 false).cache.list.Pairwise
      (fun a b =>
        sampleAirspaceApi.airspaceDrawingOrder (sampleAirspaceApi.typeOf a) ≤
          sampleAirspaceApi.airspaceDrawingOrder (sampleAirspaceApi.typeOf b)) :=
  (getAirspaces_sorted_perm (sampleEnv (fun _ _ => [sampleRecord 1])) sampleAirspaceApi
    { cache := emptyCache Unit SqlRecord, executed := [],
      lastAirspaceFilter := ⟨0, 0⟩, lastFlightplanAltitude := 0 }
    ⟨10, -10, 150, -150⟩ () ⟨268435455, 0⟩ (by decide) 0 (Or.inl rfl)).2.1

end MapQuery

namespace MapQuery

/-! ## C13: the row cap of the prepared statements -/

theorem Sql.endsWith_append (a b : String) : Sql.EndsWith (a ++ b) b := by
  unfold Sql.EndsWith
  rw [String.data_append]
  exact List.suffix_append _ _

set_option maxRecDepth 100000 in
/-- C13, as stated, fails: with the default row limit 5000 the by-rectangle
statements for airways and for airspace boundaries do not end with
`limit 5000`; they do not contain the word `limit` at all. -/
theorem initQueries_airway_airspace_uncapped_counterexample :
    ¬ Sql.EndsWith (Sql.initQueries 5000 [] .airwayByRectQuery) (Sql.whereLimit 5000) ∧
    ¬ Sql.EndsWith (Sql.initQueries 5000 [] .airspaceByRectQuery) (Sql.whereLimit 5000) ∧
    ¬ Sql.Contains (Sql.initQueries 5000 [] .airwayByRectQuery) "limit" ∧
    ¬ Sql.Contains (Sql.initQueries 5000 [] .airspaceByRectQuery) "limit" := by
  refine ⟨?_, ?_, ?_, ?_⟩ <;> decide

set_option maxRecDepth 100000 in
/-- C13 (amended): of the statements prepared by `initQueries`, the
by-rectangle statements of airports (all three tiers), waypoints, VORs, NDBs,
markers and ILS and the runway overview statement end with the row cap
`limit N` for the configured row limit `N`; the two nearest statements end
with the fixed `limit 1`; every other statement (by ident, by id, by name, by
related entity, and the by-rectangle statements of airways and airspace
boundaries) contains no `limit`. -/
theorem initQueries_rowCap (queryMaxRows : ℤ) (airportQueryBase : List String)
    (q : PreparedQuery) :
    match Sql.rowCap q with
    | .configured =>
      Sql.EndsWith (Sql.initQueries queryMaxRows airportQueryBase q)
        ("limit " ++ toString queryMaxRows)
    | .one => Sql.EndsWith (Sql.initQueries queryMaxRows airportQueryBase q) "limit 1"
    | .absent => ¬ Sql.Contains (Sql.initQueries queryMaxRows airportQueryBase q) "limit" := by
  cases q <;> simp only [Sql.rowCap, Sql.initQueries] <;>
    first
    | exact Sql.endsWith_append _ _
    | decide

end MapQuery

namespace MapQuery
open Marble Marble.GeoDataLatLonBox

/-! ## C14: wrapped bounding boxes in the by-rectangle statements -/

/-- The rectangle clauses of the airway statement and of the unfiltered,
below-altitude and above-altitude airspace statements match a row that
overlaps the rectangle and every row with a wrapped bounding box. -/
theorem rectClause_wrapped (rect : GeoDataLatLonBox) (row : SqlRecord) :
    (airwayByRectWhere rect row = true ↔
      (overlapsClause rect row = true ∨ row.right_lonx < row.left_lonx)) ∧
    (airspaceRectClause rect row = true ↔
      (overlapsClause rect row = true ∨ row.right_lonx < row.left_lonx)) := by
  simp [airwayByRectWhere, airspaceRectClause, wrappedClause]

/-- C14 fails on the code for the at-altitude statement: the airspace
`sampleWrappedBoundary` has a wrapped bounding box (170 east to -170) and
altitudes 0 to 10000; for the sub-rectangle `[178.6, 180] x [-0.25, 1.25]`, the
pattern `%` and the altitude 5000 the where clauses of `airspaceByRectQuery`,
`airspaceByRectBelowAltQuery` and `airspaceByRectAboveAltQuery` match the row,
the one of `airspaceByRectAtAltQuery` does not (nor for the other
sub-rectangle `[-180, -178.6]`): its rectangle clause has no
`or max_lonx < min_lonx`. -/
theorem airspaceByRectAtAlt_misses_wrapped :
    sampleWrappedBoundary.right_lonx < sampleWrappedBoundary.left_lonx ∧
    airspaceByRectWhere (fun _ _ => true) ⟨5 / 4, -1 / 4, 180, 893 / 5⟩ "%"
      sampleWrappedBoundary = true ∧
    airspaceByRectBelowAltWhere (fun _ _ => true) ⟨5 / 4, -1 / 4, 180, 893 / 5⟩ "%" 5000
      sampleWrappedBoundary = true ∧
    airspaceByRectAboveAltWhere (fun _ _ => true) ⟨5 / 4, -1 / 4, 180, 893 / 5⟩ "%" 5000
      sampleWrappedBoundary = true ∧
    airspaceAtAltRectClause ⟨5 / 4, -1 / 4, 180, 893 / 5⟩ sampleWrappedBoundary = false ∧
    airspaceByRectAtAltWhere (fun _ _ => true) ⟨5 / 4, -1 / 4, 180, 893 / 5⟩ "%" 5000
      sampleWrappedBoundary = false ∧
    airspaceByRectAtAltWhere (fun _ _ => true) ⟨5 / 4, -1 / 4, -893 / 5, -180⟩ "%" 5000
      sampleWrappedBoundary = false := by
  refine ⟨?_, ?_, ?_, ?_, ?_, ?_, ?_⟩ <;>
    norm_num [sampleWrappedBoundary, airspaceByRectWhere, airspaceByRectBelowAltWhere,
      airspaceByRectAboveAltWhere, airspaceByRectAtAltWhere, airspaceRectClause,
      airspaceAtAltRectClause, overlapsClause, wrappedClause]

end MapQuery

namespace MapQuery

/-! ## C15 and C16: the geometry cache -/

namespace QCache

theorem object_touch {V : Type} (c : QCache V) (key : ℤ) (obj : V)
    (h : c.object key = some obj) : (c.touch key).object key = some obj := by
  unfold object at h
  unfold touch object
  cases hf : c.entries.find? (fun e => e.1 == key) with
  | none => simp [hf] at h
  | some e =>
    have hk : e.1 = key := by simpa using List.find?_some hf
    simp only [hf, Option.map_some', Option.some.injEq] at h
    simp [hk, h]

theorem object_insert {V : Type} (c : QCache V) (key : ℤ) (obj : V) (hcap : 1 ≤ c.maxCost) :
    (c.insert key obj).object key = some obj := by
  unfold insert object
  rw [if_neg (by omega)]
  simp

end QCache

/-- A lookup that hits the cache returns the cached object and neither queries
nor decodes nor creates an object. -/
theorem getAirspaceGeometry_hit (geometryDb : ℤ → Option Blob)
    (binaryGeometry : Blob → List (ℚ × ℚ)) (st : GeometryState) (boundaryId : ℤ)
    (obj : LineString) (h : st.airspaceLineCache.object boundaryId = some obj) :
    getAirspaceGeometry geometryDb binaryGeometry st boundaryId =
      ({ st with airspaceLineCache := st.airspaceLineCache.touch boundaryId }, obj) := by
  simp [getAirspaceGeometry, h]

/-- After a lookup with a cache of capacity at least 1 the cache holds the
returned object under the id. -/
theorem getAirspaceGeometry_cached (geometryDb : ℤ → Option Blob)
    (binaryGeometry : Blob → List (ℚ × ℚ)) (st : GeometryState) (boundaryId : ℤ)
    (hcap : 1 ≤ st.airspaceLineCache.maxCost) :
    (getAirspaceGeometry geometryDb binaryGeometry st boundaryId).1.airspaceLineCache.object
        boundaryId =
      some (getAirspaceGeometry geometryDb binaryGeometry st boundaryId).2 := by
  unfold getAirspaceGeometry
  cases hobj : st.airspaceLineCache.object boundaryId with
  | some obj => exact QCache.object_touch _ _ _ hobj
  | none =>
    cases hdb : geometryDb boundaryId with
    | some blob => exact QCache.object_insert _ _ _ hcap
    | none => exact QCache.object_insert _ _ _ hcap

/-- C15: for every boundary id and a geometry cache of capacity at least 1,
two successive calls `getAirspaceGeometry(id)` return the identical geometry
object (same address, same points), and the second call executes no query,
decodes nothing and creates no object. -/
theorem getAirspaceGeometry_twice (geometryDb : ℤ → Option Blob)
    (binaryGeometry : Blob → List (ℚ × ℚ)) (st : GeometryState) (boundaryId : ℤ)
    (hcap : 1 ≤ st.airspaceLineCache.maxCost) :
    (getAirspaceGeometry geometryDb binaryGeometry
        (getAirspaceGeometry geometryDb binaryGeometry st boundaryId).1 boundaryId).2 =
      (getAirspaceGeometry geometryDb binaryGeometry st boundaryId).2 ∧
    (getAirspaceGeometry geometryDb binaryGeometry
        (getAirspaceGeometry geometryDb binaryGeometry st boundaryId).1 boundaryId).1.executedIds =
      (getAirspaceGeometry geometryDb binaryGeometry st boundaryId).1.executedIds ∧
    (getAirspaceGeometry geometryDb binaryGeometry
        (getAirspaceGeometry geometryDb binaryGeometry st boundaryId).1 boundaryId).1.decoded =
      (getAirspaceGeometry geometryDb binaryGeometry st boundaryId).1.decoded ∧
    (getAirspaceGeometry geometryDb binaryGeometry
        (getAirspaceGeometry geometryDb binaryGeometry st boundaryId).1 boundaryId).1.allocated =
      (getAirspaceGeometry geometryDb binaryGeometry st boundaryId).1.allocated := by
  have h := getAirspaceGeometry_cached geometryDb binaryGeometry st boundaryId hcap
  rw [getAirspaceGeometry_hit geometryDb binaryGeometry _ boundaryId _ h]
  exact ⟨rfl, rfl, rfl, rfl⟩

/-- Witness for `getAirspaceGeometry_twice`: an empty cache of capacity 1 and a
datastore with the blob `[1, 2]` for every id. -/
theorem getAirspaceGeometry_twice_witness :
    (getAirspaceGeometry (fun _ => some [1, 2]) (fun _ => [(0, 0)])
        (getAirspaceGeometry (fun _ => some [1, 2]) (fun _ => [(0, 0)])
          { airspaceLineCache := { entries := [], maxCost := 1 }, executedIds := [],
            decoded := [], allocated := 0 } 7).1 7).2 =
      (getAirspaceGeometry (fun _ => some [1, 2]) (fun _ => [(0, 0)])
        { airspaceLineCache := { entries := [], maxCost := 1 }, executedIds := [],
          decoded := [], allocated := 0 } 7).2 :=
  (getAirspaceGeometry_twice (fun _ => some [1, 2]) (fun _ => [(0, 0)])
    { airspaceLineCache := { entries := [], maxCost := 1 }, executedIds := [],
      decoded := [], allocated := 0 } 7 (by decide)).1

end MapQuery

namespace MapQuery

/-- The object a consistent cache holds for an id has the points the datastore
gives for the id. -/
theorem GeometryConsistent.points_of_object {geometryDb : ℤ → Option Blob}
    {binaryGeometry : Blob → List (ℚ × ℚ)} {c : QCache LineString}
    (hcons : GeometryConsistent geometryDb binaryGeometry c) {key : ℤ} {obj : LineString}
    (h : c.object key = some obj) :
    obj.points = (match geometryDb key with
      | some blob => binaryGeometry blob
      | none => []) := by
  unfold QCache.object at h
  cases hf : c.entries.find? (fun e => e.1 == key) with
  | none => simp [hf] at h
  | some e =>
    have hk : e.1 = key := by simpa using List.find?_some hf
    have hmem : e ∈ c.entries := List.mem_of_find?_eq_some hf
    simp only [hf, Option.map_some', Option.some.injEq] at h
    rw [← h, ← hk]
    exact hcons e hmem

/-- An empty cache is consistent, and `getAirspaceGeometry` keeps the cache
consistent. -/
theorem getAirspaceGeometry_consistent (geometryDb : ℤ → Option Blob)
    (binaryGeometry : Blob → List (ℚ × ℚ)) (st : GeometryState) (boundaryId : ℤ)
    (hcons : GeometryConsistent geometryDb binaryGeometry st.airspaceLineCache) :
    GeometryConsistent geometryDb binaryGeometry { entries := [], maxCost := 0 } ∧
    GeometryConsistent geometryDb binaryGeometry
      (getAirspaceGeometry geometryDb binaryGeometry st boundaryId).1.airspaceLineCache := by
  constructor
  · intro e he
    cases he
  · unfold getAirspaceGeometry
    cases hobj : st.airspaceLineCache.object boundaryId with
    | some obj =>
      intro e he
      simp only [QCache.touch] at he
      cases hf : st.airspaceLineCache.entries.find? (fun e => e.1 == boundaryId) with
      | none =>
        simp only [hf] at he
        exact hcons e he
      | some e0 =>
        simp only [hf, List.mem_cons] at he
        rcases he with rfl | he
        · exact hcons _ (List.mem_of_find?_eq_some hf)
        · exact hcons e (List.mem_of_mem_filter he)
    | none =>
      have key : ∀ lines : LineString,
          lines.points = (match geometryDb boundaryId with
            | some blob => binaryGeometry blob
            | none => []) →
          GeometryConsistent geometryDb binaryGeometry
            (st.airspaceLineCache.insert boundaryId lines) := by
        intro lines hl e he
        unfold QCache.insert at he
        split_ifs at he
        · exact hcons e (List.mem_of_mem_filter he)
        · simp only [QCache.trim, QCache.remove, List.mem_cons] at he
          rcases he with rfl | he
          · exact hl
          · exact hcons e (List.mem_of_mem_filter (List.mem_of_mem_take he))
      cases hdb : geometryDb boundaryId with
      | some blob => exact key _ (by simp [hdb])
      | none => exact key _ (by simp [hdb])

/-- A lookup that misses a cache without room (maximal cost below 1): the query
is executed and an object is created, `QCache::insert` deletes that object, the
pointer returned is the one of the deleted object, and the cache still holds
nothing for the id. -/
theorem getAirspaceGeometry_no_room (geometryDb : ℤ → Option Blob)
    (binaryGeometry : Blob → List (ℚ × ℚ)) (st : GeometryState) (boundaryId : ℤ)
    (hcap : st.airspaceLineCache.maxCost < 1)
    (hmiss : st.airspaceLineCache.object boundaryId = none) :
    (getAirspaceGeometry geometryDb binaryGeometry st boundaryId).2.address ∈
      (getAirspaceGeometry geometryDb binaryGeometry st boundaryId).1.deleted ∧
    (getAirspaceGeometry geometryDb binaryGeometry st boundaryId).1.airspaceLineCache.object
      boundaryId = none ∧
    (getAirspaceGeometry geometryDb binaryGeometry st boundaryId).1.airspaceLineCache.maxCost =
      st.airspaceLineCache.maxCost ∧
    (getAirspaceGeometry geometryDb binaryGeometry st boundaryId).1.executedIds =
      st.executedIds ++ [boundaryId] ∧
    (getAirspaceGeometry geometryDb binaryGeometry st boundaryId).1.allocated =
      st.allocated + 1 := by
  have hgt : (1 : ℤ) > st.airspaceLineCache.maxCost := hcap
  have hrem : (st.airspaceLineCache.remove boundaryId).object boundaryId = none := by
    simp [QCache.remove, QCache.object, List.find?_eq_none]
  unfold getAirspaceGeometry
  rw [hmiss]
  cases hdb : geometryDb boundaryId with
  | some blob =>
    refine ⟨?_, ?_, ?_, rfl, rfl⟩
    · simp [QCache.insertDeleted, if_pos hgt]
    · simp only [QCache.insert, if_pos hgt]
      exact hrem
    · simp only [QCache.insert, if_pos hgt]
      rfl
  | none =>
    refine ⟨?_, ?_, ?_, rfl, rfl⟩
    · simp [QCache.insertDeleted, if_pos hgt]
    · simp only [QCache.insert, if_pos hgt]
      exact hrem
    · simp only [QCache.insert, if_pos hgt]
      rfl

/-- A lookup that misses a cache with room (maximal cost at least 1) returns a
pointer to a live object, if the addresses of the objects deleted so far and
of the cached objects are below the allocation counter. -/
theorem getAirspaceGeometry_miss_live (geometryDb : ℤ → Option Blob)
    (binaryGeometry : Blob → List (ℚ × ℚ)) (st : GeometryState) (boundaryId : ℤ)
    (hcap : 1 ≤ st.airspaceLineCache.maxCost)
    (hmiss : st.airspaceLineCache.object boundaryId = none)
    (hdel : ∀ a ∈ st.deleted, a < st.allocated)
    (hent : ∀ e ∈ st.airspaceLineCache.entries, e.2.address < st.allocated) :
    (getAirspaceGeometry geometryDb binaryGeometry st boundaryId).2.address ∉
      (getAirspaceGeometry geometryDb binaryGeometry st boundaryId).1.deleted := by
  have hle : ¬ (1 : ℤ) > st.airspaceLineCache.maxCost := by omega
  have key : ∀ lines : LineString, lines.address = st.allocated →
      lines.address ∉ st.deleted ++
        (st.airspaceLineCache.insertDeleted boundaryId lines).map (fun o => o.address) := by
    intro lines hl hmem
    rw [hl] at hmem
    simp only [QCache.insertDeleted, if_neg hle, QCache.removeDeleted, QCache.trimDeleted,
      QCache.remove, List.mem_append, List.mem_map] at hmem
    rcases hmem with h | ⟨o, (⟨e, he, rfl⟩ | ⟨e, he, rfl⟩), ho⟩
    · exact absurd (hdel _ h) (lt_irrefl _)
    · have := hent e (List.mem_of_mem_filter he)
      omega
    · have := hent e (List.mem_of_mem_filter (List.mem_of_mem_drop he))
      omega
  unfold getAirspaceGeometry
  rw [hmiss]
  cases hdb : geometryDb boundaryId with
  | some blob => exact key _ rfl
  | none => exact key _ rfl

/-- C16 fails for a geometry cache without room. With the persisted value 0 for
`AirspaceLineCache` the constructor sets the capacity 0; for the id 7, which
has no row, `QCache::insert` deletes the new `LineString` at once, so the
pointer that `getAirspaceGeometry` returns is the one of a deleted object and
not a valid polyline; the cache holds nothing for the id afterwards, and the
next lookup of the id executes the query again, creates a second object and
returns a pointer to that deleted object. -/
theorem getAirspaceGeometry_capacity_zero_dangling :
    (MapQuery ⟨none, some 0, none, none, none⟩).airspaceLineCacheMaxCost = 0 ∧
    (getAirspaceGeometry (fun _ => none) (fun _ => [])
        { airspaceLineCache := { entries := [], maxCost := 0 }, executedIds := [],
          decoded := [], allocated := 0 } 7).2.address ∈
      (getAirspaceGeometry (fun _ => none) (fun _ => [])
        { airspaceLineCache := { entries := [], maxCost := 0 }, executedIds := [],
          decoded := [], allocated := 0 } 7).1.deleted ∧
    (getAirspaceGeometry (fun _ => none) (fun _ => [])
        { airspaceLineCache := { entries := [], maxCost := 0 }, executedIds := [],
          decoded := [], allocated := 0 } 7).1.airspaceLineCache.contains 7 = false ∧
    (getAirspaceGeometry (fun _ => none) (fun _ => [])
        (getAirspaceGeometry (fun _ => none) (fun _ => [])
          { airspaceLineCache := { entries := [], maxCost := 0 }, executedIds := [],
            decoded := [], allocated := 0 } 7).1 7).1.executedIds = [7, 7] ∧
    (getAirspaceGeometry (fun _ => none) (fun _ => [])
        (getAirspaceGeometry (fun _ => none) (fun _ => [])
          { airspaceLineCache := { entries := [], maxCost := 0 }, executedIds := [],
            decoded := [], allocated := 0 } 7).1 7).1.allocated = 2 ∧
    (getAirspaceGeometry (fun _ => none) (fun _ => [])
        (getAirspaceGeometry (fun _ => none) (fun _ => [])
          { airspaceLineCache := { entries := [], maxCost := 0 }, executedIds := [],
            decoded := [], allocated := 0 } 7).1 7).2.address ∈
      (getAirspaceGeometry (fun _ => none) (fun _ => [])
        (getAirspaceGeometry (fun _ => none) (fun _ => [])
          { airspaceLineCache := { entries := [], maxCost := 0 }, executedIds := [],
            decoded := [], allocated := 0 } 7).1 7).1.deleted := by
  refine ⟨rfl, ?_, ?_, ?_, ?_, ?_⟩ <;>
    simp [getAirspaceGeometry, QCache.object, QCache.insert, QCache.insertDeleted,
      QCache.remove, QCache.removeDeleted, QCache.contains]

/-- With a geometry cache of capacity at least 1 whose entries agree with the
datastore, for every boundary id without a row `getAirspaceGeometry` returns
an empty polyline, the cache holds that polyline under the id afterwards, and
the next lookup of the id returns the same object without executing a query
or decoding. -/
theorem getAirspaceGeometry_no_row (geometryDb : ℤ → Option Blob)
    (binaryGeometry : Blob → List (ℚ × ℚ)) (st : GeometryState) (boundaryId : ℤ)
    (hcap : 1 ≤ st.airspaceLineCache.maxCost)
    (hcons : GeometryConsistent geometryDb binaryGeometry st.airspaceLineCache)
    (hun : geometryDb boundaryId = none) :
    (getAirspaceGeometry geometryDb binaryGeometry st boundaryId).2.points = [] ∧
    (getAirspaceGeometry geometryDb binaryGeometry st boundaryId).1.airspaceLineCache.object
        boundaryId =
      some (getAirspaceGeometry geometryDb binaryGeometry st boundaryId).2 ∧
    (getAirspaceGeometry geometryDb binaryGeometry
        (getAirspaceGeometry geometryDb binaryGeometry st boundaryId).1 boundaryId).2 =
      (getAirspaceGeometry geometryDb binaryGeometry st boundaryId).2 ∧
    (getAirspaceGeometry geometryDb binaryGeometry
        (getAirspaceGeometry geometryDb binaryGeometry st boundaryId).1 boundaryId).1.executedIds =
      (getAirspaceGeometry geometryDb binaryGeometry st boundaryId).1.executedIds ∧
    (getAirspaceGeometry geometryDb binaryGeometry
        (getAirspaceGeometry geometryDb binaryGeometry st boundaryId).1 boundaryId).1.decoded =
      (getAirspaceGeometry geometryDb binaryGeometry st boundaryId).1.decoded := by
  have hcached := getAirspaceGeometry_cached geometryDb binaryGeometry st boundaryId hcap
  have hcons2 :=
    (getAirspaceGeometry_consistent geometryDb binaryGeometry st boundaryId hcons).2
  have hpoints := hcons2.points_of_object hcached
  have hempty : (match geometryDb boundaryId with
      | some blob => binaryGeometry blob
      | none => []) = [] := by
    simp [hun]
  refine ⟨hpoints.trans hempty, hcached, ?_⟩
  rw [getAirspaceGeometry_hit geometryDb binaryGeometry _ boundaryId _ hcached]
  exact ⟨rfl, rfl, rfl⟩

end MapQuery

namespace MapQuery

/-! ## C17: picking with radius 0 -/

theorem manhattanDistance_nonneg (x1 y1 x2 y2 : ℤ) : 0 ≤ manhattanDistance x1 y1 x2 y2 :=
  add_nonneg (abs_nonneg _) (abs_nonneg _)

/-- A fold whose steps change nothing changes nothing. -/
theorem foldl_fixed {α β : Type} (f : β → α → β) (h : ∀ b a, f b a = b) (l : List α) (b : β) :
    l.foldl f b = b := by
  induction l with
  | nil => rfl
  | cons a l ih => rw [List.foldl_cons, h, ih]

theorem nearestStep_zero (conv : Pos → ScreenPos) (xs ys : ℤ)
    (acc : List MapObject × Option (List ℤ)) (obj : MapObject) :
    nearestStep conv xs ys 0 acc obj = acc := by
  unfold nearestStep
  rw [if_neg (not_lt.mpr (manhattanDistance_nonneg _ _ _ _))]
  split_ifs <;> rfl

theorem airportStep_zero (isVisible : MapObject → ℕ → Bool) (conv : Pos → ScreenPos)
    (airportDiagram : Bool) (types : ℕ) (xs ys : ℤ)
    (acc : (List MapObject × Option (List ℤ)) × List MapObject) (airport : MapObject) :
    airportStep isVisible conv airportDiagram types xs ys 0 acc airport = acc := by
  unfold airportStep
  have h : decide (manhattanDistance (conv airport.towerCoords).x (conv airport.towerCoords).y
      xs ys < 0) = false :=
    decide_eq_false (not_lt.mpr (manhattanDistance_nonneg _ _ _ _))
  simp only [nearestStep_zero, h, Bool.and_false, Bool.false_eq_true, if_false, ite_self]

/-- C17: for every projector, layer, kinds mask, diagram mode, screen position
and cache contents, `getNearestObjects` with `screenDistance = 0` adds nothing
to the result: the result is the one passed in, and every list of an initially
empty result stays empty. -/
theorem getNearestObjects_radius_zero {L : Type} (penv : PickEnv L) (st : MapQueryState L)
    (conv : Pos → ScreenPos) (mapLayer : L) (airportDiagram : Bool) (types : ℕ) (xs ys : ℤ)
    (result : MapSearchResult) :
    (getNearestObjects penv st conv mapLayer airportDiagram types xs ys 0 result).2 = result ∧
    (getNearestObjects penv st conv mapLayer airportDiagram types xs ys 0
      MapSearchResult.empty).2 = MapSearchResult.empty := by
  have key : ∀ result : MapSearchResult,
      (getNearestObjects penv st conv mapLayer airportDiagram types xs ys 0 result).2 =
        result := by
    intro result
    have h1 := foldl_fixed (nearestStep conv xs ys 0) (nearestStep_zero conv xs ys)
    have h2 := foldl_fixed (airportStep penv.isVisible conv airportDiagram types xs ys 0)
      (airportStep_zero penv.isVisible conv airportDiagram types xs ys)
    have h3 := foldl_fixed
      (fun (acc : List MapObject × Option (List ℤ)) (wp : MapObject) =>
        if (wp.hasVictorAirways && testFlag types penv.consts.AIRWAYV) ||
            (wp.hasJetAirways && testFlag types penv.consts.AIRWAYJ) then
          nearestStep conv xs ys 0 acc wp
        else acc)
      (fun acc wp => by simp only [nearestStep_zero, ite_self])
    have h4 := foldl_fixed
      (fun (acc : List MapObject × Option (List ℤ)) (entry : ℤ × List MapObject) =>
        entry.2.foldl (nearestStep conv xs ys 0) acc)
      (fun acc entry => h1 entry.2 acc)
    have h5 := foldl_fixed
      (fun (acc : List MapObject × Option (List ℤ)) (_ : ℤ × List MapObject) => acc)
      (fun _ _ => rfl)
    simp only [getNearestObjects, h1, h2, h3, h4, h5, Option.getD_some, ite_self]
  exact ⟨key result, key _⟩

end MapQuery

namespace MapQuery

/-! ## C18: what picking returns -/

/-- The step of a picking loop, by cases: an entity that is not near or whose
id is in the set leaves the state alone, every other entity is inserted in
order and its id joins the set. -/
theorem nearestStep_eq (conv : Pos → ScreenPos) (xs ys screenDistance : ℤ)
    (acc : List MapObject × Option (List ℤ)) (obj : MapObject) :
    nearestStep conv xs ys screenDistance acc obj =
      if Near conv xs ys screenDistance obj then
        match acc.2 with
        | some s =>
          if obj.id ∈ s then acc
          else (acc.1.orderedInsert (ByDistance conv xs ys) obj, some (obj.id :: s))
        | none => (acc.1.orderedInsert (ByDistance conv xs ys) obj, none)
      else acc := by
  obtain ⟨list, ids⟩ := acc
  unfold nearestStep Near distanceTo insertSortedByDistance
  by_cases hv : (conv obj.position).visible = true
  · by_cases hd : manhattanDistance (conv obj.position).x (conv obj.position).y xs ys <
        screenDistance
    · cases ids with
      | none => simp [hv, hd]
      | some s =>
        by_cases hin : obj.id ∈ s <;> simp [hv, hd, hin]
    · simp [hv, hd]
  · simp [hv]

theorem nearestStep_inv (conv : Pos → ScreenPos) (xs ys screenDistance : ℤ)
    (acc : List MapObject × Option (List ℤ)) (obj : MapObject) (h : PickInv conv xs ys acc) :
    PickInv conv xs ys (nearestStep conv xs ys screenDistance acc obj) := by
  rw [nearestStep_eq]
  obtain ⟨list, ids⟩ := acc
  obtain ⟨hs, hi⟩ := h
  split_ifs with hn
  · cases ids with
    | none =>
      refine ⟨hs.orderedInsert _ _, ?_⟩
      intro s h
      cases h
    | some s =>
      simp only
      split_ifs with hin
      · exact ⟨hs, hi⟩
      · obtain ⟨hmem, hnd⟩ := hi s rfl
        refine ⟨hs.orderedInsert _ _, ?_⟩
        intro s2 h2
        simp only [Option.some.injEq] at h2
        subst h2
        have hperm := (List.perm_orderedInsert (ByDistance conv xs ys) obj list).map
          (fun o => o.id)
        constructor
        · intro i
          rw [hperm.mem_iff]
          simp only [List.mem_cons, List.map_cons, hmem i]
        · rw [hperm.nodup_iff, List.map_cons, List.nodup_cons]
          exact ⟨fun h => hin ((hmem _).mpr h), hnd⟩
  · exact ⟨hs, hi⟩

/-- Every entity in the list after a step was there before or is the entity
of the step, which is near. -/
theorem nearestStep_mem (conv : Pos → ScreenPos) (xs ys screenDistance : ℤ)
    (acc : List MapObject × Option (List ℤ)) (obj x : MapObject)
    (h : x ∈ (nearestStep conv xs ys screenDistance acc obj).1) :
    x ∈ acc.1 ∨ (x = obj ∧ Near conv xs ys screenDistance obj) := by
  rw [nearestStep_eq] at h
  obtain ⟨list, ids⟩ := acc
  split_ifs at h with hn
  · cases ids with
    | none =>
      rcases (List.mem_orderedInsert _).mp h with h | h
      · exact Or.inr ⟨h, hn⟩
      · exact Or.inl h
    | some s =>
      simp only at h
      split_ifs at h with hin
      · exact Or.inl h
      · rcases (List.mem_orderedInsert _).mp h with h | h
        · exact Or.inr ⟨h, hn⟩
        · exact Or.inl h
  · exact Or.inl h

/-- A step removes nothing from the list. -/
theorem nearestStep_mono (conv : Pos → ScreenPos) (xs ys screenDistance : ℤ)
    (acc : List MapObject × Option (List ℤ)) (obj x : MapObject) (h : x ∈ acc.1) :
    x ∈ (nearestStep conv xs ys screenDistance acc obj).1 := by
  rw [nearestStep_eq]
  obtain ⟨list, ids⟩ := acc
  split_ifs with hn
  · cases ids with
    | none => exact (List.mem_orderedInsert _).mpr (Or.inr h)
    | some s =>
      simp only
      split_ifs with hin
      · exact h
      · exact (List.mem_orderedInsert _).mpr (Or.inr h)
  · exact h

/-- A step keeps the id set a set, and the null pointer a null pointer. -/
theorem nearestStep_isSome (conv : Pos → ScreenPos) (xs ys screenDistance : ℤ)
    (acc : List MapObject × Option (List ℤ)) (obj : MapObject) :
    (nearestStep conv xs ys screenDistance acc obj).2.isSome = acc.2.isSome := by
  rw [nearestStep_eq]
  obtain ⟨list, ids⟩ := acc
  split_ifs with hn
  · cases ids with
    | none => rfl
    | some s =>
      simp only
      split_ifs <;> rfl
  · rfl

/-- After the step of a near entity its id is in the list. -/
theorem nearestStep_id_mem (conv : Pos → ScreenPos) (xs ys screenDistance : ℤ)
    (acc : List MapObject × Option (List ℤ)) (obj : MapObject) (h : PickInv conv xs ys acc)
    (hn : Near conv xs ys screenDistance obj) :
    obj.id ∈ (nearestStep conv xs ys screenDistance acc obj).1.map (fun o => o.id) := by
  rw [nearestStep_eq, if_pos hn]
  obtain ⟨list, ids⟩ := acc
  cases ids with
  | none => exact List.mem_map.mpr ⟨obj, (List.mem_orderedInsert _).mpr (Or.inl rfl), rfl⟩
  | some s =>
    simp only
    split_ifs with hin
    · exact ((h.2 s rfl).1 _).mp hin
    · exact List.mem_map.mpr ⟨obj, (List.mem_orderedInsert _).mpr (Or.inl rfl), rfl⟩

end MapQuery

namespace MapQuery

/-- A loop that skips the entities failing a test is the loop over the
entities passing it. -/
theorem foldl_filter_eq {α β : Type} (c : α → Bool) (f : β → α → β) (l : List α) (b : β) :
    l.foldl (fun acc a => if c a then f acc a else acc) b = (l.filter c).foldl f b := by
  induction l generalizing b with
  | nil => rfl
  | cons a l ih =>
    by_cases h : c a = true
    · simp [List.filter_cons, h, ih]
    · simp [List.filter_cons, h, ih]

theorem nearestFold_inv (conv : Pos → ScreenPos) (xs ys screenDistance : ℤ) (l : List MapObject)
    (acc : List MapObject × Option (List ℤ)) (h : PickInv conv xs ys acc) :
    PickInv conv xs ys (l.foldl (nearestStep conv xs ys screenDistance) acc) :=
  foldl_preserves (PickInv conv xs ys) _
    (fun acc obj h => nearestStep_inv conv xs ys screenDistance acc obj h) l acc h

theorem nearestFold_mem (conv : Pos → ScreenPos) (xs ys screenDistance : ℤ) (l : List MapObject)
    (acc : List MapObject × Option (List ℤ)) (x : MapObject)
    (h : x ∈ (l.foldl (nearestStep conv xs ys screenDistance) acc).1) :
    x ∈ acc.1 ∨ (x ∈ l ∧ Near conv xs ys screenDistance x) := by
  induction l generalizing acc with
  | nil => exact Or.inl h
  | cons obj l ih =>
    rcases ih _ h with h1 | ⟨h1, h2⟩
    · rcases nearestStep_mem conv xs ys screenDistance acc obj x h1 with h3 | ⟨h3, h4⟩
      · exact Or.inl h3
      · exact Or.inr ⟨h3 ▸ List.mem_cons_self _ _, h3 ▸ h4⟩
    · exact Or.inr ⟨List.mem_cons_of_mem _ h1, h2⟩

theorem nearestFold_mono (conv : Pos → ScreenPos) (xs ys screenDistance : ℤ) (l : List MapObject)
    (acc : List MapObject × Option (List ℤ)) (x : MapObject) (h : x ∈ acc.1) :
    x ∈ (l.foldl (nearestStep conv xs ys screenDistance) acc).1 :=
  foldl_preserves (fun acc => x ∈ acc.1) _
    (fun acc obj h => nearestStep_mono conv xs ys screenDistance acc obj x h) l acc h

theorem nearestFold_isSome (conv : Pos → ScreenPos) (xs ys screenDistance : ℤ)
    (l : List MapObject) (acc : List MapObject × Option (List ℤ)) :
    (l.foldl (nearestStep conv xs ys screenDistance) acc).2.isSome = acc.2.isSome :=
  foldl_preserves (fun a => a.2.isSome = acc.2.isSome) _
    (fun a obj h => (nearestStep_isSome conv xs ys screenDistance a obj).trans h) l acc rfl

/-- After a picking loop the id of every near entity of the loop is in the list. -/
theorem nearestFold_id_mem (conv : Pos → ScreenPos) (xs ys screenDistance : ℤ)
    (l : List MapObject) (acc : List MapObject × Option (List ℤ))
    (h : PickInv conv xs ys acc) :
    ∀ obj ∈ l, Near conv xs ys screenDistance obj →
      obj.id ∈ (l.foldl (nearestStep conv xs ys screenDistance) acc).1.map (fun o => o.id) := by
  refine foldl_establishes (PickInv conv xs ys)
    (fun obj acc => Near conv xs ys screenDistance obj → obj.id ∈ acc.1.map (fun o => o.id))
    _ (fun acc obj h => nearestStep_inv conv xs ys screenDistance acc obj h) ?_ ?_ l acc h
  · intro acc obj hacc hn
    exact nearestStep_id_mem conv xs ys screenDistance acc obj hacc hn
  · intro acc obj obj2 _ h2 hn
    obtain ⟨x, hx, hid⟩ := List.mem_map.mp (h2 hn)
    exact List.mem_map.mpr ⟨x, nearestStep_mono conv xs ys screenDistance acc obj x hx, hid⟩

/-- A picking loop without an id set returns, up to the order, the list it
started from and the near entities of the loop. -/
theorem nearestFold_perm (conv : Pos → ScreenPos) (xs ys screenDistance : ℤ)
    (l : List MapObject) (list : List MapObject) :
    (l.foldl (nearestStep conv xs ys screenDistance) (list, none)).1.Perm
      (list ++ l.filter (fun obj => decide (Near conv xs ys screenDistance obj))) := by
  induction l generalizing list with
  | nil => simp
  | cons obj l ih =>
    rw [List.foldl_cons, nearestStep_eq]
    by_cases hn : Near conv xs ys screenDistance obj
    · simp only [if_pos hn, List.filter_cons, hn, decide_True, if_true]
      refine (ih _).trans ?_
      refine ((List.perm_orderedInsert (ByDistance conv xs ys) obj list).append_right _).trans ?_
      simp only [List.cons_append]
      exact List.perm_middle.symm
    · simp only [if_neg hn, List.filter_cons, hn, decide_False, Bool.false_eq_true, if_false]
      exact ih _

/-- The airport list after the airport loop is the one of a picking loop over
the visible airports. -/
theorem airportFold_fst (isVisible : MapObject → ℕ → Bool) (conv : Pos → ScreenPos)
    (airportDiagram : Bool) (types : ℕ) (xs ys screenDistance : ℤ) (l : List MapObject)
    (acc : (List MapObject × Option (List ℤ)) × List MapObject) :
    (l.foldl (airportStep isVisible conv airportDiagram types xs ys screenDistance) acc).1 =
      (l.filter (fun a => isVisible a types)).foldl (nearestStep conv xs ys screenDistance)
        acc.1 := by
  induction l generalizing acc with
  | nil => rfl
  | cons a l ih =>
    rw [List.foldl_cons, ih]
    by_cases h : isVisible a types = true
    · simp [airportStep, List.filter_cons, h]
    · simp [airportStep, List.filter_cons, h]

/-- The tower list after the airport loop: the airports inserted are visible
and, in diagram mode, have a near tower. -/
theorem airportFold_snd (isVisible : MapObject → ℕ → Bool) (conv : Pos → ScreenPos)
    (airportDiagram : Bool) (types : ℕ) (xs ys screenDistance : ℤ) (l : List MapObject)
    (acc : (List MapObject × Option (List ℤ)) × List MapObject) :
    (l.foldl (airportStep isVisible conv airportDiagram types xs ys screenDistance) acc).2 =
      (l.filter (fun a => isVisible a types && airportDiagram &&
          decide (TowerNear conv xs ys screenDistance a))).foldl
        (fun towers a => insertSortedByTowerDistance conv towers xs ys a) acc.2 := by
  induction l generalizing acc with
  | nil => rfl
  | cons a l ih =>
    rw [List.foldl_cons, ih]
    by_cases h : isVisible a types = true
    · by_cases hd : airportDiagram = true
      · by_cases ht : TowerNear conv xs ys screenDistance a
        · have ht2 := ht
          unfold TowerNear distanceTo at ht2
          simp [airportStep, List.filter_cons, h, hd, ht, ht2.1, ht2.2]
        · have ht2 := ht
          unfold TowerNear distanceTo at ht2
          simp only [not_and, not_lt] at ht2
          by_cases hv : (conv a.towerCoords).visible = true
          · simp [airportStep, List.filter_cons, h, hd, ht, hv, not_lt.mpr (ht2 hv)]
          · simp [airportStep, List.filter_cons, h, hd, ht, hv]
      · simp [airportStep, List.filter_cons, h, hd]
    · simp [airportStep, List.filter_cons, h]

/-- Inserting airports by tower distance keeps the tower list sorted and adds
only the airports inserted. -/
theorem towerFold (conv : Pos → ScreenPos) (xs ys : ℤ) (l : List MapObject)
    (towers : List MapObject) (hs : towers.Sorted (ByTowerDistance conv xs ys)) :
    (l.foldl (fun towers a => insertSortedByTowerDistance conv towers xs ys a)
      towers).Sorted (ByTowerDistance conv xs ys) ∧
    ∀ x ∈ l.foldl (fun towers a => insertSortedByTowerDistance conv towers xs ys a) towers,
      x ∈ towers ∨ x ∈ l := by
  induction l generalizing towers with
  | nil => exact ⟨hs, fun x hx => Or.inl hx⟩
  | cons a l ih =>
    obtain ⟨h1, h2⟩ := ih (insertSortedByTowerDistance conv towers xs ys a)
      (hs.orderedInsert _ _)
    refine ⟨h1, ?_⟩
    intro x hx
    rcases h2 x hx with h | h
    · rcases (List.mem_orderedInsert _).mp h with h | h
      · exact Or.inr (h ▸ List.mem_cons_self _ _)
      · exact Or.inl h
    · exact Or.inr (List.mem_cons_of_mem _ h)

end MapQuery

namespace MapQuery

theorem pickInv_nil (conv : Pos → ScreenPos) (xs ys : ℤ) (ids : Option (List ℤ))
    (h : ids = some [] ∨ ids = none) : PickInv conv xs ys ([], ids) := by
  refine ⟨List.sorted_nil, ?_⟩
  intro s hs
  rcases h with h | h
  · rw [h] at hs
    simp only [Option.some.injEq] at hs
    subst hs
    simp
  · rw [h] at hs
    cases hs

/-- The parking and helipad loops keep the list sorted and add only near
entities of the secondary cache. -/
theorem nestedFold (conv : Pos → ScreenPos) (xs ys screenDistance : ℤ)
    (cache : List (ℤ × List MapObject)) (list : List MapObject)
    (hs : list.Sorted (ByDistance conv xs ys)) :
    (cache.foldl (fun acc entry => entry.2.foldl (nearestStep conv xs ys screenDistance) acc)
      (list, none)).1.Sorted (ByDistance conv xs ys) ∧
    ∀ x ∈ (cache.foldl
        (fun acc entry => entry.2.foldl (nearestStep conv xs ys screenDistance) acc)
        (list, none)).1,
      x ∈ list ∨ ((∃ entry ∈ cache, x ∈ entry.2) ∧ Near conv xs ys screenDistance x) := by
  have h := foldl_preserves
    (fun (acc : List MapObject × Option (List ℤ)) => PickInv conv xs ys acc ∧ acc.2 = none)
    (fun acc (entry : ℤ × List MapObject) =>
      entry.2.foldl (nearestStep conv xs ys screenDistance) acc)
    (fun acc entry hacc => ⟨nearestFold_inv conv xs ys screenDistance entry.2 acc hacc.1, by
      have h1 := nearestFold_isSome conv xs ys screenDistance entry.2 acc
      rw [hacc.2] at h1
      exact Option.not_isSome_iff_eq_none.mp (by rw [h1]; simp)⟩)
    cache (list, none) ⟨⟨hs, fun s h => by cases h⟩, rfl⟩
  refine ⟨h.1.1, ?_⟩
  clear h
  induction cache generalizing list with
  | nil => intro x hx; exact Or.inl hx
  | cons entry cache ih =>
    intro x hx
    rw [List.foldl_cons] at hx
    have hnone : (entry.2.foldl (nearestStep conv xs ys screenDistance) (list, none)).2 = none := by
      have h1 := nearestFold_isSome conv xs ys screenDistance entry.2 (list, none)
      exact Option.not_isSome_iff_eq_none.mp (by rw [h1]; simp)
    have hsorted := (nearestFold_inv conv xs ys screenDistance entry.2 (list, none)
      ⟨hs, fun s h => by cases h⟩).1
    have hpair : entry.2.foldl (nearestStep conv xs ys screenDistance) (list, none) =
        ((entry.2.foldl (nearestStep conv xs ys screenDistance) (list, none)).1, none) :=
      Prod.ext rfl hnone
    rw [hpair] at hx
    rcases ih _ hsorted x hx with h | ⟨⟨e, he, hxe⟩, hn⟩
    · rcases nearestFold_mem conv xs ys screenDistance entry.2 (list, none) x h with h | ⟨h, hn⟩
      · exact Or.inl h
      · exact Or.inr ⟨⟨entry, List.mem_cons_self _ _, h⟩, hn⟩
    · exact Or.inr ⟨⟨e, List.mem_cons_of_mem _ he, hxe⟩, hn⟩

/-! ### The lists of the result, one by one -/

/-- Every list of the result of `getNearestObjects`, read off the block that
writes it. -/
theorem getNearestObjects_fields {L : Type} (penv : PickEnv L) (st : MapQueryState L)
    (conv : Pos → ScreenPos) (mapLayer : L) (airportDiagram : Bool) (types : ℕ)
    (xs ys screenDistance : ℤ) (result : MapSearchResult) :
    (getNearestObjects penv st conv mapLayer airportDiagram types xs ys screenDistance
        result).2.airports =
      (if penv.layer.isAirport mapLayer && testFlag types penv.consts.AIRPORT then
        (st.airportCache.list.reverse.foldl
          (airportStep penv.isVisible conv airportDiagram types xs ys screenDistance)
          ((result.airports, some result.airportIds), result.towers)).1.1
       else result.airports) ∧
    (getNearestObjects penv st conv mapLayer airportDiagram types xs ys screenDistance
        result).2.towers =
      (if penv.layer.isAirport mapLayer && testFlag types penv.consts.AIRPORT then
        (st.airportCache.list.reverse.foldl
          (airportStep penv.isVisible conv airportDiagram types xs ys screenDistance)
          ((result.airports, some result.airportIds), result.towers)).2
       else result.towers) ∧
    (getNearestObjects penv st conv mapLayer airportDiagram types xs ys screenDistance
        result).2.vors =
      (if penv.layer.isVor mapLayer && testFlag types penv.consts.VOR then
        (st.vorCache.list.reverse.foldl (nearestStep conv xs ys screenDistance)
          (result.vors, some result.vorIds)).1
       else result.vors) ∧
    (getNearestObjects penv st conv mapLayer airportDiagram types xs ys screenDistance
        result).2.ndbs =
      (if penv.layer.isNdb mapLayer && testFlag types penv.consts.NDB then
        (st.ndbCache.list.reverse.foldl (nearestStep conv xs ys screenDistance)
          (result.ndbs, some result.ndbIds)).1
       else result.ndbs) ∧
    (getNearestObjects penv st conv mapLayer airportDiagram types xs ys screenDistance
        result).2.waypoints =
      (if penv.layer.isAirwayWaypoint mapLayer then
        (st.waypointCache.list.reverse.foldl
          (fun acc wp =>
            if (wp.hasVictorAirways && testFlag types penv.consts.AIRWAYV) ||
                (wp.hasJetAirways && testFlag types penv.consts.AIRWAYJ) then
              nearestStep conv xs ys screenDistance acc wp
            else acc)
          (if penv.layer.isWaypoint mapLayer && testFlag types penv.consts.WAYPOINT then
            ((st.waypointCache.list.reverse.foldl (nearestStep conv xs ys screenDistance)
                (result.waypoints, some result.waypointIds)).1,
              some ((st.waypointCache.list.reverse.foldl (nearestStep conv xs ys screenDistance)
                (result.waypoints, some result.waypointIds)).2.getD result.waypointIds))
           else (result.waypoints, some result.waypointIds))).1
       else
        (if penv.layer.isWaypoint mapLayer && testFlag types penv.consts.WAYPOINT then
          (st.waypointCache.list.reverse.foldl (nearestStep conv xs ys screenDistance)
            (result.waypoints, some result.waypointIds)).1
         else result.waypoints)) ∧
    (getNearestObjects penv st conv mapLayer airportDiagram types xs ys screenDistance
        result).2.markers =
      (if penv.layer.isMarker mapLayer && testFlag types penv.consts.MARKER then
        (st.markerCache.list.reverse.foldl (nearestStep conv xs ys screenDistance)
          (result.markers, none)).1
       else result.markers) ∧
    (getNearestObjects penv st conv mapLayer airportDiagram types xs ys screenDistance
        result).2.ils =
      (if penv.layer.isIls mapLayer && testFlag types penv.consts.ILS then
        (st.ilsCache.list.reverse.foldl (nearestStep conv xs ys screenDistance)
          (result.ils, none)).1
       else result.ils) ∧
    (getNearestObjects penv st conv mapLayer airportDiagram types xs ys screenDistance
        result).2.parkings =
      (if penv.layer.isAirport mapLayer && testFlag types penv.consts.AIRPORT then
        if airportDiagram then
          (penv.parkingCache.foldl
            (fun acc entry => entry.2.foldl (nearestStep conv xs ys screenDistance) acc)
            (result.parkings, none)).1
        else result.parkings
       else result.parkings) ∧
    (getNearestObjects penv st conv mapLayer airportDiagram types xs ys screenDistance
        result).2.helipads =
      (if penv.layer.isAirport mapLayer && testFlag types penv.consts.AIRPORT then
        if airportDiagram then
          (penv.helipadCache.foldl
            (fun acc entry => entry.2.foldl (nearestStep conv xs ys screenDistance) acc)
            (result.helipads, none)).1
        else result.helipads
       else result.helipads) := by
  unfold getNearestObjects
  lift_lets
  intro acc1 r1 acc2 r2 acc3 r3 acc4 r4 acc5 r5 r6 r7 parkings helipads r8
  have e1 : r1.vors = result.vors ∧
      r1.vorIds = result.vorIds ∧
      r1.ndbs = result.ndbs ∧
      r1.ndbIds = result.ndbIds ∧
      r1.waypoints = result.waypoints ∧
      r1.waypointIds = result.waypointIds ∧
      r1.markers = result.markers ∧
      r1.ils = result.ils ∧
      r1.parkings = result.parkings ∧
      r1.helipads = result.helipads := by
    unfold r1
    split_ifs <;> exact ⟨rfl, rfl, rfl, rfl, rfl, rfl, rfl, rfl, rfl, rfl⟩
  have e2 : r2.airports = r1.airports ∧
      r2.airportIds = r1.airportIds ∧
      r2.towers = r1.towers ∧
      r2.ndbs = r1.ndbs ∧
      r2.ndbIds = r1.ndbIds ∧
      r2.waypoints = r1.waypoints ∧
      r2.waypointIds = r1.waypointIds ∧
      r2.markers = r1.markers ∧
      r2.ils = r1.ils ∧
      r2.parkings = r1.parkings ∧
      r2.helipads = r1.helipads := by
    unfold r2
    split_ifs <;> exact ⟨rfl, rfl, rfl, rfl, rfl, rfl, rfl, rfl, rfl, rfl, rfl⟩
  have e3 : r3.airports = r2.airports ∧
      r3.airportIds = r2.airportIds ∧
      r3.towers = r2.towers ∧
      r3.vors = r2.vors ∧
      r3.vorIds = r2.vorIds ∧
      r3.waypoints = r2.waypoints ∧
      r3.waypointIds = r2.waypointIds ∧
      r3.markers = r2.markers ∧
      r3.ils = r2.ils ∧
      r3.parkings = r2.parkings ∧
      r3.helipads = r2.helipads := by
    unfold r3
    split_ifs <;> exact ⟨rfl, rfl, rfl, rfl, rfl, rfl, rfl, rfl, rfl, rfl, rfl⟩
  have e4 : r4.airports = r3.airports ∧
      r4.airportIds = r3.airportIds ∧
      r4.towers = r3.towers ∧
      r4.vors = r3.vors ∧
      r4.vorIds = r3.vorIds ∧
      r4.ndbs = r3.ndbs ∧
      r4.ndbIds = r3.ndbIds ∧
      r4.markers = r3.markers ∧
      r4.ils = r3.ils ∧
      r4.parkings = r3.parkings ∧
      r4.helipads = r3.helipads := by
    unfold r4
    split_ifs <;> exact ⟨rfl, rfl, rfl, rfl, rfl, rfl, rfl, rfl, rfl, rfl, rfl⟩
  have e5 : r5.airports = r4.airports ∧
      r5.airportIds = r4.airportIds ∧
      r5.towers = r4.towers ∧
      r5.vors = r4.vors ∧
      r5.vorIds = r4.vorIds ∧
      r5.ndbs = r4.ndbs ∧
      r5.ndbIds = r4.ndbIds ∧
      r5.markers = r4.markers ∧
      r5.ils = r4.ils ∧
      r5.parkings = r4.parkings ∧
      r5.helipads = r4.helipads := by
    unfold r5
    split_ifs <;> exact ⟨rfl, rfl, rfl, rfl, rfl, rfl, rfl, rfl, rfl, rfl, rfl⟩
  have e6 : r6.airports = r5.airports ∧
      r6.airportIds = r5.airportIds ∧
      r6.towers = r5.towers ∧
      r6.vors = r5.vors ∧
      r6.vorIds = r5.vorIds ∧
      r6.ndbs = r5.ndbs ∧
      r6.ndbIds = r5.ndbIds ∧
      r6.waypoints = r5.waypoints ∧
      r6.waypointIds = r5.waypointIds ∧
      r6.ils = r5.ils ∧
      r6.parkings = r5.parkings ∧
      r6.helipads = r5.helipads := by
    unfold r6
    split_ifs <;> exact ⟨rfl, rfl, rfl, rfl, rfl, rfl, rfl, rfl, rfl, rfl, rfl, rfl⟩
  have e7 : r7.airports = r6.airports ∧
      r7.airportIds = r6.airportIds ∧
      r7.towers = r6.towers ∧
      r7.vors = r6.vors ∧
      r7.vorIds = r6.vorIds ∧
      r7.ndbs = r6.ndbs ∧
      r7.ndbIds = r6.ndbIds ∧
      r7.waypoints = r6.waypoints ∧
      r7.waypointIds = r6.waypointIds ∧
      r7.markers = r6.markers ∧
      r7.parkings = r6.parkings ∧
      r7.helipads = r6.helipads := by
    unfold r7
    split_ifs <;> exact ⟨rfl, rfl, rfl, rfl, rfl, rfl, rfl, rfl, rfl, rfl, rfl, rfl⟩
  have e8 : r8.airports = r7.airports ∧
      r8.airportIds = r7.airportIds ∧
      r8.towers = r7.towers ∧
      r8.vors = r7.vors ∧
      r8.vorIds = r7.vorIds ∧
      r8.ndbs = r7.ndbs ∧
      r8.ndbIds = r7.ndbIds ∧
      r8.waypoints = r7.waypoints ∧
      r8.waypointIds = r7.waypointIds ∧
      r8.markers = r7.markers ∧
      r8.ils = r7.ils := by
    unfold r8
    split_ifs <;> exact ⟨rfl, rfl, rfl, rfl, rfl, rfl, rfl, rfl, rfl, rfl, rfl⟩
  refine ⟨?_, ?_, ?_, ?_, ?_, ?_, ?_, ?_, ?_⟩
  · show r8.airports = _
    rw [e8.1, e7.1, e6.1, e5.1, e4.1, e3.1, e2.1]
    unfold r1
    split_ifs <;> rfl
  · show r8.towers = _
    rw [e8.2.2.1, e7.2.2.1, e6.2.2.1, e5.2.2.1, e4.2.2.1, e3.2.2.1, e2.2.2.1]
    unfold r1
    split_ifs <;> rfl
  · show r8.vors = _
    rw [e8.2.2.2.1, e7.2.2.2.1, e6.2.2.2.1, e5.2.2.2.1, e4.2.2.2.1, e3.2.2.2.1]
    have c1 : r1.vors = result.vors := by rw [e1.1]
    have c2 : r1.vorIds = result.vorIds := by rw [e1.2.1]
    rw [← c1, ← c2]
    unfold r2
    split_ifs <;> rfl
  · show r8.ndbs = _
    rw [e8.2.2.2.2.2.1, e7.2.2.2.2.2.1, e6.2.2.2.2.2.1, e5.2.2.2.2.2.1, e4.2.2.2.2.2.1]
    have c1 : r2.ndbs = result.ndbs := by rw [e2.2.2.2.1, e1.2.2.1]
    have c2 : r2.ndbIds = result.ndbIds := by rw [e2.2.2.2.2.1, e1.2.2.2.1]
    rw [← c1, ← c2]
    unfold r3
    split_ifs <;> rfl
  · show r8.waypoints = _
    rw [e8.2.2.2.2.2.2.2.1, e7.2.2.2.2.2.2.2.1, e6.2.2.2.2.2.2.2.1]
    have c1 : r3.waypoints = result.waypoints := by rw [e3.2.2.2.2.2.1, e2.2.2.2.2.2.1, e1.2.2.2.2.1]
    have c2 : r3.waypointIds = result.waypointIds := by rw [e3.2.2.2.2.2.2.1, e2.2.2.2.2.2.2.1, e1.2.2.2.2.2.1]
    rw [← c1, ← c2]
    unfold r5 acc5 r4
    split_ifs <;> rfl
  · show r8.markers = _
    rw [e8.2.2.2.2.2.2.2.2.2.1, e7.2.2.2.2.2.2.2.2.2.1]
    have c1 : r5.markers = result.markers := by rw [e5.2.2.2.2.2.2.2.1, e4.2.2.2.2.2.2.2.1, e3.2.2.2.2.2.2.2.1, e2.2.2.2.2.2.2.2.1, e1.2.2.2.2.2.2.1]
    rw [← c1]
    unfold r6
    split_ifs <;> rfl
  · show r8.ils = _
    rw [e8.2.2.2.2.2.2.2.2.2.2]
    have c1 : r6.ils = result.ils := by rw [e6.2.2.2.2.2.2.2.2.2.1, e5.2.2.2.2.2.2.2.2.1, e4.2.2.2.2.2.2.2.2.1, e3.2.2.2.2.2.2.2.2.1, e2.2.2.2.2.2.2.2.2.1, e1.2.2.2.2.2.2.2.1]
    rw [← c1]
    unfold r7
    split_ifs <;> rfl
  · show r8.parkings = _
    have c1 : r7.parkings = result.parkings := by rw [e7.2.2.2.2.2.2.2.2.2.2.1, e6.2.2.2.2.2.2.2.2.2.2.1, e5.2.2.2.2.2.2.2.2.2.1, e4.2.2.2.2.2.2.2.2.2.1, e3.2.2.2.2.2.2.2.2.2.1, e2.2.2.2.2.2.2.2.2.2.1, e1.2.2.2.2.2.2.2.2.1]
    rw [← c1]
    unfold r8
    split_ifs <;> rfl
  · show r8.helipads = _
    have c1 : r7.helipads = result.helipads := by rw [e7.2.2.2.2.2.2.2.2.2.2.2, e6.2.2.2.2.2.2.2.2.2.2.2, e5.2.2.2.2.2.2.2.2.2.2, e4.2.2.2.2.2.2.2.2.2.2, e3.2.2.2.2.2.2.2.2.2.2, e2.2.2.2.2.2.2.2.2.2.2, e1.2.2.2.2.2.2.2.2.2]
    rw [← c1]
    unfold r8
    split_ifs <;> rfl

theorem nearestFold_pair (conv : Pos → ScreenPos) (xs ys screenDistance : ℤ)
    (l : List MapObject) (acc : List MapObject × Option (List ℤ)) (d : List ℤ)
    (hacc : acc.2.isSome = true) :
    ((l.foldl (nearestStep conv xs ys screenDistance) acc).1,
      some ((l.foldl (nearestStep conv xs ys screenDistance) acc).2.getD d)) =
      l.foldl (nearestStep conv xs ys screenDistance) acc := by
  have h := nearestFold_isSome conv xs ys screenDistance l acc
  rw [hacc] at h
  obtain ⟨s, hs⟩ := Option.isSome_iff_exists.mp h
  exact Prod.ext rfl (by simp [hs])

/-- The waypoint list of the result: the plain waypoint loop followed by the
airway waypoint loop, each over the waypoint cache. -/
theorem getNearestObjects_waypoints {L : Type} (penv : PickEnv L) (st : MapQueryState L)
    (conv : Pos → ScreenPos) (mapLayer : L) (airportDiagram : Bool) (types : ℕ)
    (xs ys screenDistance : ℤ) (result : MapSearchResult) :
    (getNearestObjects penv st conv mapLayer airportDiagram types xs ys screenDistance
        result).2.waypoints =
      ((if penv.layer.isAirwayWaypoint mapLayer then
          st.waypointCache.list.reverse.filter (fun wp =>
            (wp.hasVictorAirways && testFlag types penv.consts.AIRWAYV) ||
              (wp.hasJetAirways && testFlag types penv.consts.AIRWAYJ))
        else []).foldl (nearestStep conv xs ys screenDistance)
        ((if penv.layer.isWaypoint mapLayer && testFlag types penv.consts.WAYPOINT then
            st.waypointCache.list.reverse
          else []).foldl (nearestStep conv xs ys screenDistance)
          (result.waypoints, some result.waypointIds))).1 := by
  rw [(getNearestObjects_fields penv st conv mapLayer airportDiagram types xs ys screenDistance
    result).2.2.2.2.1]
  rw [nearestFold_pair conv xs ys screenDistance st.waypointCache.list.reverse
    (result.waypoints, some result.waypointIds) result.waypointIds rfl]
  split_ifs <;> simp only [List.foldl_nil, foldl_filter_eq]

/-- Two picking loops in a row from an empty list with an empty id set: the
entities returned are near entities of the loops, the list is sorted, its ids
are pairwise different, and the id of every near entity of either loop is in
the list. -/
theorem nearestFold_two (conv : Pos → ScreenPos) (xs ys screenDistance : ℤ)
    (l1 l2 : List MapObject) :
    (∀ x ∈ (l2.foldl (nearestStep conv xs ys screenDistance)
        (l1.foldl (nearestStep conv xs ys screenDistance) ([], some []))).1,
      (x ∈ l1 ∨ x ∈ l2) ∧ Near conv xs ys screenDistance x) ∧
    (l2.foldl (nearestStep conv xs ys screenDistance)
        (l1.foldl (nearestStep conv xs ys screenDistance) ([], some []))).1.Sorted
      (ByDistance conv xs ys) ∧
    ((l2.foldl (nearestStep conv xs ys screenDistance)
        (l1.foldl (nearestStep conv xs ys screenDistance) ([], some []))).1.map
      (fun o => o.id)).Nodup ∧
    (∀ obj ∈ l1, Near conv xs ys screenDistance obj →
      obj.id ∈ (l2.foldl (nearestStep conv xs ys screenDistance)
        (l1.foldl (nearestStep conv xs ys screenDistance) ([], some []))).1.map
          (fun o => o.id)) ∧
    (∀ obj ∈ l2, Near conv xs ys screenDistance obj →
      obj.id ∈ (l2.foldl (nearestStep conv xs ys screenDistance)
        (l1.foldl (nearestStep conv xs ys screenDistance) ([], some []))).1.map
          (fun o => o.id)) := by
  have h0 : PickInv conv xs ys ([], some []) := pickInv_nil conv xs ys _ (Or.inl rfl)
  have h1 := nearestFold_inv conv xs ys screenDistance l1 _ h0
  have h2 := nearestFold_inv conv xs ys screenDistance l2 _ h1
  refine ⟨?_, h2.1, ?_, ?_, ?_⟩
  · intro x hx
    rcases nearestFold_mem conv xs ys screenDistance l2 _ x hx with h | ⟨h, hn⟩
    · rcases nearestFold_mem conv xs ys screenDistance l1 _ x h with h | ⟨h, hn⟩
      · cases h
      · exact ⟨Or.inl h, hn⟩
    · exact ⟨Or.inr h, hn⟩
  · have hs := nearestFold_isSome conv xs ys screenDistance l2
      (l1.foldl (nearestStep conv xs ys screenDistance) ([], some []))
    rw [nearestFold_isSome conv xs ys screenDistance l1 ([], some [])] at hs
    obtain ⟨ids, hids⟩ := Option.isSome_iff_exists.mp hs
    exact (h2.2 ids hids).2
  · intro obj hobj hn
    obtain ⟨x, hx, hid⟩ := List.mem_map.mp
      (nearestFold_id_mem conv xs ys screenDistance l1 _ h0 obj hobj hn)
    exact List.mem_map.mpr ⟨x, nearestFold_mono conv xs ys screenDistance l2 _ x hx, hid⟩
  · exact nearestFold_id_mem conv xs ys screenDistance l2 _ h1

/-- A picking loop without an id set from an empty list: the entities
returned are near entities of the loop, the list is sorted, and it holds the
near entities of the loop, each as often as the loop meets it. -/
theorem nearestFold_plain (conv : Pos → ScreenPos) (xs ys screenDistance : ℤ)
    (l : List MapObject) :
    (∀ x ∈ (l.foldl (nearestStep conv xs ys screenDistance) ([], none)).1,
      x ∈ l ∧ Near conv xs ys screenDistance x) ∧
    (l.foldl (nearestStep conv xs ys screenDistance) ([], none)).1.Sorted
      (ByDistance conv xs ys) ∧
    (l.foldl (nearestStep conv xs ys screenDistance) ([], none)).1.Perm
      (l.filter (fun obj => decide (Near conv xs ys screenDistance obj))) := by
  refine ⟨?_, (nearestFold_inv conv xs ys screenDistance l _
    (pickInv_nil conv xs ys _ (Or.inr rfl))).1, ?_⟩
  · intro x hx
    rcases nearestFold_mem conv xs ys screenDistance l _ x hx with h | h
    · cases h
    · exact h
  · simpa using nearestFold_perm conv xs ys screenDistance l []

end MapQuery

namespace MapQuery

/-- C18, counterexample: the kinds mask selects VORs and the one cached VOR is
on the screen at L1 distance 0, closer than the radius 10, but the layer does
not show VORs, and `getNearestObjects` returns no VOR. -/
theorem getNearestObjects_hidden_layer_counterexample :
    testFlag 2 (samplePickEnv false).consts.VOR = true ∧
    (sampleVorState [sampleObject 1]).vorCache.list = [sampleObject 1] ∧
    Near (fun _ => ⟨true, 0, 0⟩) 0 0 10 (sampleObject 1) ∧
    (getNearestObjects (samplePickEnv false) (sampleVorState [sampleObject 1])
      (fun _ => ⟨true, 0, 0⟩) () false 2 0 0 10 MapSearchResult.empty).2.vors = [] := by
  refine ⟨by decide, rfl, by decide, ?_⟩
  rw [(getNearestObjects_fields _ _ _ _ _ _ _ _ _ _).2.2.1]
  rfl

/-- C18, amended: picking into an empty result. Every entity returned comes
from the cache of its kind (parkings and helipads from the airport query
caches) and is near: its position (for the tower list the tower position) is
on the screen with L1 distance to `(xs, ys)` less than the radius. Every list
is sorted ascending by that distance, and the ids of the airport, VOR, NDB and
waypoint lists are pairwise different. For a kind that the layer shows and the
kinds mask selects, the id of every near cached entity is in the list
(airports: of every near cached airport that is visible for the mask;
waypoints also when the layer shows airway waypoints and the waypoint has an
airway of a selected kind), and the marker and ILS lists hold exactly the near
cached entities. -/
theorem getNearestObjects_near_sorted_complete {L : Type} (penv : PickEnv L)
    (st : MapQueryState L) (conv : Pos → ScreenPos) (mapLayer : L) (airportDiagram : Bool)
    (types : ℕ) (xs ys screenDistance : ℤ) :
    let R := (getNearestObjects penv st conv mapLayer airportDiagram types xs ys
      screenDistance MapSearchResult.empty).2
    ((∀ x ∈ R.airports, x ∈ st.airportCache.list ∧ penv.isVisible x types = true ∧
        Near conv xs ys screenDistance x) ∧
      (∀ x ∈ R.towers, x ∈ st.airportCache.list ∧ penv.isVisible x types = true ∧
        TowerNear conv xs ys screenDistance x) ∧
      (∀ x ∈ R.vors, x ∈ st.vorCache.list ∧ Near conv xs ys screenDistance x) ∧
      (∀ x ∈ R.ndbs, x ∈ st.ndbCache.list ∧ Near conv xs ys screenDistance x) ∧
      (∀ x ∈ R.waypoints, x ∈ st.waypointCache.list ∧ Near conv xs ys screenDistance x) ∧
      (∀ x ∈ R.markers, x ∈ st.markerCache.list ∧ Near conv xs ys screenDistance x) ∧
      (∀ x ∈ R.ils, x ∈ st.ilsCache.list ∧ Near conv xs ys screenDistance x) ∧
      (∀ x ∈ R.parkings, (∃ entry ∈ penv.parkingCache, x ∈ entry.2) ∧
        Near conv xs ys screenDistance x) ∧
      (∀ x ∈ R.helipads, (∃ entry ∈ penv.helipadCache, x ∈ entry.2) ∧
        Near conv xs ys screenDistance x)) ∧
    (R.airports.Sorted (ByDistance conv xs ys) ∧
      R.towers.Sorted (ByTowerDistance conv xs ys) ∧
      R.vors.Sorted (ByDistance conv xs ys) ∧
      R.ndbs.Sorted (ByDistance conv xs ys) ∧
      R.waypoints.Sorted (ByDistance conv xs ys) ∧
      R.markers.Sorted (ByDistance conv xs ys) ∧
      R.ils.Sorted (ByDistance conv xs ys) ∧
      R.parkings.Sorted (ByDistance conv xs ys) ∧
      R.helipads.Sorted (ByDistance conv xs ys)) ∧
    ((R.airports.map (fun o => o.id)).Nodup ∧ (R.vors.map (fun o => o.id)).Nodup ∧
      (R.ndbs.map (fun o => o.id)).Nodup ∧ (R.waypoints.map (fun o => o.id)).Nodup) ∧
    (((penv.layer.isAirport mapLayer && testFlag types penv.consts.AIRPORT) = true →
        ∀ a ∈ st.airportCache.list, penv.isVisible a types = true →
          Near conv xs ys screenDistance a → a.id ∈ R.airports.map (fun o => o.id)) ∧
      ((penv.layer.isVor mapLayer && testFlag types penv.consts.VOR) = true →
        ∀ v ∈ st.vorCache.list, Near conv xs ys screenDistance v →
          v.id ∈ R.vors.map (fun o => o.id)) ∧
      ((penv.layer.isNdb mapLayer && testFlag types penv.consts.NDB) = true →
        ∀ n ∈ st.ndbCache.list, Near conv xs ys screenDistance n →
          n.id ∈ R.ndbs.map (fun o => o.id)) ∧
      ((penv.layer.isWaypoint mapLayer && testFlag types penv.consts.WAYPOINT) = true →
        ∀ w ∈ st.waypointCache.list, Near conv xs ys screenDistance w →
          w.id ∈ R.waypoints.map (fun o => o.id)) ∧
      (penv.layer.isAirwayWaypoint mapLayer = true →
        ∀ w ∈ st.waypointCache.list,
          ((w.hasVictorAirways && testFlag types penv.consts.AIRWAYV) ||
            (w.hasJetAirways && testFlag types penv.consts.AIRWAYJ)) = true →
          Near conv xs ys screenDistance w → w.id ∈ R.waypoints.map (fun o => o.id)) ∧
      ((penv.layer.isMarker mapLayer && testFlag types penv.consts.MARKER) = true →
        R.markers.Perm (st.markerCache.list.filter
          (fun m => decide (Near conv xs ys screenDistance m)))) ∧
      ((penv.layer.isIls mapLayer && testFlag types penv.consts.ILS) = true →
        R.ils.Perm (st.ilsCache.list.filter
          (fun i => decide (Near conv xs ys screenDistance i))))) := by
  intro R
  obtain ⟨fA, fT, fV, fN, -, fM, fI, fP, fH⟩ := getNearestObjects_fields penv st conv mapLayer
    airportDiagram types xs ys screenDistance MapSearchResult.empty
  have fW := getNearestObjects_waypoints penv st conv mapLayer airportDiagram types xs ys
    screenDistance MapSearchResult.empty
  have hA := nearestFold_two conv xs ys screenDistance []
    (st.airportCache.list.reverse.filter (fun a => penv.isVisible a types))
  have hV := nearestFold_two conv xs ys screenDistance [] st.vorCache.list.reverse
  have hN := nearestFold_two conv xs ys screenDistance [] st.ndbCache.list.reverse
  have hW := nearestFold_two conv xs ys screenDistance
    (if penv.layer.isWaypoint mapLayer && testFlag types penv.consts.WAYPOINT then
      st.waypointCache.list.reverse else [])
    (if penv.layer.isAirwayWaypoint mapLayer then
      st.waypointCache.list.reverse.filter (fun wp =>
        (wp.hasVictorAirways && testFlag types penv.consts.AIRWAYV) ||
          (wp.hasJetAirways && testFlag types penv.consts.AIRWAYJ))
     else [])
  have hM := nearestFold_plain conv xs ys screenDistance st.markerCache.list.reverse
  have hI := nearestFold_plain conv xs ys screenDistance st.ilsCache.list.reverse
  have hP := nestedFold conv xs ys screenDistance penv.parkingCache [] List.sorted_nil
  have hH := nestedFold conv xs ys screenDistance penv.helipadCache [] List.sorted_nil
  have hT := towerFold conv xs ys
    (st.airportCache.list.reverse.filter (fun a => penv.isVisible a types &&
      airportDiagram && decide (TowerNear conv xs ys screenDistance a))) [] List.sorted_nil
  rw [airportFold_fst] at fA
  rw [airportFold_snd] at fT
  simp only [List.foldl_nil] at hA hV hN
  change R.airports = _ at fA
  change R.towers = _ at fT
  change R.vors = _ at fV
  change R.ndbs = _ at fN
  change R.waypoints = _ at fW
  change R.markers = _ at fM
  change R.ils = _ at fI
  change R.parkings = _ at fP
  change R.helipads = _ at fH
  clear_value R
  simp only [MapSearchResult.empty] at fA fT fV fN fW fM fI fP fH
  refine ⟨⟨?_, ?_, ?_, ?_, ?_, ?_, ?_, ?_, ?_⟩, ⟨?_, ?_, ?_, ?_, ?_, ?_, ?_, ?_, ?_⟩,
    ⟨?_, ?_, ?_, ?_⟩, ⟨?_, ?_, ?_, ?_, ?_, ?_, ?_⟩⟩
  · intro x hx
    rw [fA] at hx
    split_ifs at hx with g
    · obtain ⟨hm, hn⟩ := hA.1 x hx
      rcases hm with hm | hm
      · cases hm
      · exact ⟨List.mem_reverse.mp (List.mem_filter.mp hm).1, (List.mem_filter.mp hm).2, hn⟩
    · cases hx
  · intro x hx
    rw [fT] at hx
    split_ifs at hx with g
    · rcases hT.2 x hx with hm | hm
      · cases hm
      · have hc := (List.mem_filter.mp hm).2
        simp only [Bool.and_eq_true, decide_eq_true_eq] at hc
        exact ⟨List.mem_reverse.mp (List.mem_filter.mp hm).1, hc.1.1, hc.2⟩
    · cases hx
  · intro x hx
    rw [fV] at hx
    split_ifs at hx with g
    · obtain ⟨hm, hn⟩ := hV.1 x hx
      rcases hm with hm | hm
      · cases hm
      · exact ⟨List.mem_reverse.mp hm, hn⟩
    · cases hx
  · intro x hx
    rw [fN] at hx
    split_ifs at hx with g
    · obtain ⟨hm, hn⟩ := hN.1 x hx
      rcases hm with hm | hm
      · cases hm
      · exact ⟨List.mem_reverse.mp hm, hn⟩
    · cases hx
  · intro x hx
    rw [fW] at hx
    obtain ⟨hm, hn⟩ := hW.1 x hx
    rcases hm with hm | hm
    · split_ifs at hm with g
      · exact ⟨List.mem_reverse.mp hm, hn⟩
      · cases hm
    · split_ifs at hm with g
      · exact ⟨List.mem_reverse.mp (List.mem_filter.mp hm).1, hn⟩
      · cases hm
  · intro x hx
    rw [fM] at hx
    split_ifs at hx with g
    · exact ⟨List.mem_reverse.mp (hM.1 x hx).1, (hM.1 x hx).2⟩
    · cases hx
  · intro x hx
    rw [fI] at hx
    split_ifs at hx with g
    · exact ⟨List.mem_reverse.mp (hI.1 x hx).1, (hI.1 x hx).2⟩
    · cases hx
  · intro x hx
    rw [fP] at hx
    split_ifs at hx with g d
    · rcases hP.2 x hx with hm | hm
      · cases hm
      · exact hm
    · cases hx
    · cases hx
  · intro x hx
    rw [fH] at hx
    split_ifs at hx with g d
    · rcases hH.2 x hx with hm | hm
      · cases hm
      · exact hm
    · cases hx
    · cases hx
  · rw [fA]
    split_ifs
    · exact hA.2.1
    · exact List.sorted_nil
  · rw [fT]
    split_ifs
    · exact hT.1
    · exact List.sorted_nil
  · rw [fV]
    split_ifs
    · exact hV.2.1
    · exact List.sorted_nil
  · rw [fN]
    split_ifs
    · exact hN.2.1
    · exact List.sorted_nil
  · rw [fW]
    exact hW.2.1
  · rw [fM]
    split_ifs
    · exact hM.2.1
    · exact List.sorted_nil
  · rw [fI]
    split_ifs
    · exact hI.2.1
    · exact List.sorted_nil
  · rw [fP]
    split_ifs
    · exact hP.1
    · exact List.sorted_nil
    · exact List.sorted_nil
  · rw [fH]
    split_ifs
    · exact hH.1
    · exact List.sorted_nil
    · exact List.sorted_nil
  · rw [fA]
    split_ifs
    · exact hA.2.2.1
    · exact List.nodup_nil
  · rw [fV]
    split_ifs
    · exact hV.2.2.1
    · exact List.nodup_nil
  · rw [fN]
    split_ifs
    · exact hN.2.2.1
    · exact List.nodup_nil
  · rw [fW]
    exact hW.2.2.1
  · intro g a ha hv hn
    rw [fA, if_pos g]
    exact hA.2.2.2.2 a (List.mem_filter.mpr ⟨List.mem_reverse.mpr ha, hv⟩) hn
  · intro g v hv hn
    rw [fV, if_pos g]
    exact hV.2.2.2.2 v (List.mem_reverse.mpr hv) hn
  · intro g n hv hn
    rw [fN, if_pos g]
    exact hN.2.2.2.2 n (List.mem_reverse.mpr hv) hn
  · intro g w hw hn
    rw [fW]
    refine hW.2.2.2.1 w ?_ hn
    rw [if_pos g]
    exact List.mem_reverse.mpr hw
  · intro g w hw hc hn
    rw [fW]
    refine hW.2.2.2.2 w ?_ hn
    rw [if_pos g]
    exact List.mem_filter.mpr ⟨List.mem_reverse.mpr hw, hc⟩
  · intro g
    rw [fM, if_pos g]
    exact hM.2.2.trans ((List.reverse_perm _).filter _)
  · intro g
    rw [fI, if_pos g]
    exact hI.2.2.trans ((List.reverse_perm _).filter _)

/-- C18, amended, at a concrete input: the layer shows every kind, the mask
selects VORs, and the cached VOR with id 1 is near; its id is in the VOR list
of the result. -/
theorem getNearestObjects_near_sorted_complete_witness :
    ((samplePickEnv true).layer.isVor () && testFlag 2 (samplePickEnv true).consts.VOR) = true ∧
    Near (fun _ => ⟨true, 0, 0⟩) 0 0 10 (sampleObject 1) ∧
    (sampleObject 1).id ∈ (getNearestObjects (samplePickEnv true)
      (sampleVorState [sampleObject 1]) (fun _ => ⟨true, 0, 0⟩) () false 2 0 0 10
      MapSearchResult.empty).2.vors.map (fun o => o.id) :=
  ⟨by decide, by decide,
    (getNearestObjects_near_sorted_complete (samplePickEnv true)
      (sampleVorState [sampleObject 1]) (fun _ => ⟨true, 0, 0⟩) () false 2 0 0 10).2.2.2.2.1
      (by decide) (sampleObject 1) (List.mem_singleton.mpr rfl) (by decide)⟩

end MapQuery

namespace MapQuery

/-- C19: `getNearestObjects` leaves the state of `MapQuery` as it is, for every
input: no statement is added to the log of executed statements and every
per-kind cache keeps its entity list, stored viewport, stored layer and
validity flag. Its result is determined by the inputs and the entity lists of
the airport, VOR, NDB, waypoint, marker and ILS caches: a state with the same
six lists gives the same result. -/
theorem getNearestObjects_frame {L : Type} (penv : PickEnv L) (st : MapQueryState L)
    (conv : Pos → ScreenPos) (mapLayer : L) (airportDiagram : Bool) (types : ℕ)
    (xs ys screenDistance : ℤ) (result : MapSearchResult) :
    (getNearestObjects penv st conv mapLayer airportDiagram types xs ys screenDistance
      result).1 = st ∧
    (getNearestObjects penv st conv mapLayer airportDiagram types xs ys screenDistance
      result).1.executed = st.executed ∧
    ∀ st2 : MapQueryState L,
      st2.airportCache.list = st.airportCache.list →
      st2.vorCache.list = st.vorCache.list →
      st2.ndbCache.list = st.ndbCache.list →
      st2.waypointCache.list = st.waypointCache.list →
      st2.markerCache.list = st.markerCache.list →
      st2.ilsCache.list = st.ilsCache.list →
      (getNearestObjects penv st2 conv mapLayer airportDiagram types xs ys screenDistance
        result).2 =
      (getNearestObjects penv st conv mapLayer airportDiagram types xs ys screenDistance
        result).2 := by
  refine ⟨rfl, rfl, ?_⟩
  intro st2 h1 h2 h3 h4 h5 h6
  unfold getNearestObjects
  rw [h1, h2, h3, h4, h5, h6]

/-- C19 at a concrete input: a state that differs from the sample state in
the log of executed statements and in the validity flag of the VOR cache
gives the same picking result. -/
theorem getNearestObjects_frame_witness :
    (getNearestObjects (samplePickEnv true)
      { sampleVorState [sampleObject 1] with
        executed := [],
        vorCache := { (sampleVorState [sampleObject 1]).vorCache with valid := true } }
      (fun _ => ⟨true, 0, 0⟩) () false 2 0 0 10 MapSearchResult.empty).2 =
    (getNearestObjects (samplePickEnv true) (sampleVorState [sampleObject 1])
      (fun _ => ⟨true, 0, 0⟩) () false 2 0 0 10 MapSearchResult.empty).2 :=
  (getNearestObjects_frame (samplePickEnv true) (sampleVorState [sampleObject 1])
    (fun _ => ⟨true, 0, 0⟩) () false 2 0 0 10 MapSearchResult.empty).2.2 _ rfl rfl rfl rfl rfl rfl

end MapQuery

namespace MapQuery

/-- After the handles of a list are set one by one, a handle of the list holds
the value set and every other handle is as before. -/
theorem foldl_update_apply (v : PreparedQuery → Option String) (l : List PreparedQuery)
    (handles : PreparedQuery → Option String) (q : PreparedQuery) :
    l.foldl (fun handles q => Function.update handles q (v q)) handles q =
      if q ∈ l then v q else handles q := by
  induction l generalizing handles with
  | nil => simp
  | cons a l ih =>
    rw [List.foldl_cons, ih]
    by_cases hq : q ∈ l
    · simp [hq]
    · by_cases hqa : q = a
      · subst hqa
        simp [hq]
      · simp [hq, hqa, Function.update_noteq hqa]

/-- C20: reload. `initQueries` is `deInitQueries` followed by the preparation
of every statement, and it executes no statement. The statements deleted by
`deInitQueries` are the statements created by `initQueries`, each once, and
they are all the statement handles. After `deInitQueries` every handle is null
and every cache (the eight per-kind caches, the airspace geometry cache and
the runway overview cache) is empty; after `initQueries` every handle holds
the prepared statement of its text and every cache is empty. -/
theorem initQueries_reload {L R : Type} (queryMaxRows : ℤ) (airportQueryBase : List String)
    (m : MapQueryMembers L R) :
    (initQueries queryMaxRows airportQueryBase m =
      { deInitQueries m with
        statements := fun q => some (Sql.initQueries queryMaxRows airportQueryBase q) }) ∧
    (∀ q, q ∈ deletedByDeInitQueries ↔ q ∈ createdByInitQueries) ∧
    deletedByDeInitQueries.Nodup ∧ createdByInitQueries.Nodup ∧
    (∀ q, q ∈ createdByInitQueries) ∧
    (∀ q, (deInitQueries m).statements q = none) ∧
    CachesEmpty (deInitQueries m) ∧
    (∀ q, (initQueries queryMaxRows airportQueryBase m).statements q =
      some (Sql.initQueries queryMaxRows airportQueryBase q)) ∧
    CachesEmpty (initQueries queryMaxRows airportQueryBase m) ∧
    (deInitQueries m).caches.executed = m.caches.executed ∧
    (initQueries queryMaxRows airportQueryBase m).caches.executed = m.caches.executed := by
  have hall : ∀ q, q ∈ createdByInitQueries := by
    intro q
    cases q <;> decide
  have hdel : ∀ q, q ∈ deletedByDeInitQueries := by
    intro q
    cases q <;> decide
  have hinit : ∀ q, (initQueries queryMaxRows airportQueryBase m).statements q =
      some (Sql.initQueries queryMaxRows airportQueryBase q) := by
    intro q
    show createdByInitQueries.foldl
      (fun handles q =>
        Function.update handles q (some (Sql.initQueries queryMaxRows airportQueryBase q)))
      (deInitQueries m).statements q = _
    rw [foldl_update_apply (fun q => some (Sql.initQueries queryMaxRows airportQueryBase q)),
      if_pos (hall q)]
  have hempty : CachesEmpty (deInitQueries m) :=
    ⟨rfl, rfl, rfl, rfl, rfl, rfl, rfl, rfl, rfl, rfl⟩
  refine ⟨?_, fun q => ⟨fun _ => hall q, fun _ => hdel q⟩, by decide, by decide, hall, ?_,
    hempty, hinit, hempty, rfl, rfl⟩
  · have hfun : (initQueries queryMaxRows airportQueryBase m).statements =
        fun q => some (Sql.initQueries queryMaxRows airportQueryBase q) := funext hinit
    rw [← hfun]
    rfl
  · intro q
    show deletedByDeInitQueries.foldl (fun handles q => Function.update handles q none)
      m.statements q = _
    rw [foldl_update_apply (fun _ => none), if_pos (hdel q)]

end MapQuery

namespace MapQuery

open Marble Marble.GeoDataLatLonBox

/-! ## C21: a statement that fails to execute -/

/-- After a throw the remaining iterations do not run. -/
theorem forThrowing_stuck {α σ : Type} (l : List α) (body : σ → α → σ × Option SqlException)
    (s : σ) (e : SqlException) :
    l.foldl
      (fun (acc : σ × Option SqlException) a =>
        match acc.2 with
        | some _ => acc
        | none => body acc.1 a)
      (s, some e) = (s, some e) := by
  induction l with
  | nil => rfl
  | cons a l ih => exact ih

theorem forThrowing_nil {α σ : Type} (body : σ → α → σ × Option SqlException) (s : σ) :
    forThrowing [] body s = (s, none) := rfl

/-- A loop that can throw, by its first iteration. -/
theorem forThrowing_cons {α σ : Type} (a : α) (l : List α)
    (body : σ → α → σ × Option SqlException) (s : σ) :
    forThrowing (a :: l) body s =
      match (body s a).2 with
      | some e => ((body s a).1, some e)
      | none => forThrowing l body (body s a).1 := by
  unfold forThrowing
  rw [List.foldl_cons]
  cases h : (body s a).2 with
  | none =>
    simp only
    rw [show body s a = ((body s a).1, none) from Prod.ext rfl h]
  | some e =>
    simp only
    rw [show body s a = ((body s a).1, some e) from Prod.ext rfl h]
    exact forThrowing_stuck l body _ e

/-- A loop whose body does not throw is the plain loop. -/
theorem forThrowing_of_ok {α σ : Type} (l : List α) (body : σ → α → σ × Option SqlException)
    (step : σ → α → σ) (h : ∀ s a, body s a = (step s a, none)) (s : σ) :
    forThrowing l body s = (l.foldl step s, none) := by
  induction l generalizing s with
  | nil => rfl
  | cons a l ih =>
    rw [forThrowing_cons, h s a]
    exact ih (step s a)

/-- A loop whose body never throws is the plain loop over the states. -/
theorem forThrowing_of_none {α σ : Type} (l : List α) (body : σ → α → σ × Option SqlException)
    (s : σ) (h : ∀ s a, (body s a).2 = none) :
    forThrowing l body s = (l.foldl (fun s a => (body s a).1) s, none) :=
  forThrowing_of_ok l body (fun s a => (body s a).1) (fun s a => Prod.ext rfl (h s a)) s

/-- A loop over a non-empty list whose first iteration throws leaves with the
state and the exception of that iteration. -/
theorem forThrowing_of_first {α σ : Type} (l : List α) (hl : l ≠ [])
    (body : σ → α → σ × Option SqlException) (s : σ) (e : SqlException)
    (h : ∀ a, (body s a).2 = some e) :
    ∃ a ∈ l, forThrowing l body s = ((body s a).1, some e) := by
  obtain ⟨a, rest, rfl⟩ := List.exists_cons_of_ne_nil hl
  refine ⟨a, List.mem_cons_self _ _, ?_⟩
  rw [forThrowing_cons, h a]

/-- A loop over a non-empty list whose first iteration throws, as an equation. -/
theorem forThrowing_head {α σ : Type} (l : List α) (hl : l ≠ [])
    (body : σ → α → σ × Option SqlException) (s : σ) (e : SqlException)
    (h : (body s (l.head hl)).2 = some e) :
    forThrowing l body s = ((body s (l.head hl)).1, some e) := by
  obtain ⟨a, rest, rfl⟩ := List.exists_cons_of_ne_nil hl
  rw [forThrowing_cons]
  simp only [List.head_cons] at h ⊢
  rw [h]

/-- A viewport is split into at least one sub-rectangle. -/
theorem splitAtAntiMeridian_ne_nil (cfg : Settings) (rect : GeoDataLatLonBox) :
    splitAtAntiMeridian cfg rect ≠ [] := by
  unfold splitAtAntiMeridian
  dsimp only
  split_ifs <;> simp

/-! ### Statements that do not fail: the getters are the ones without exceptions -/

theorem throwing_fetchByRect_ok {L T : Type} (env : Env L) (stmt : Statement)
    (fill : SqlRecord → T) (rect : GeoDataLatLonBox) (st : QueryState L T) :
    Throwing.fetchByRect env (neverFailing env.db) stmt fill rect st =
      (fetchByRect env stmt fill rect st, none) := by
  unfold Throwing.fetchByRect fetchByRect
  exact forThrowing_of_ok _ _ _ (fun s a => rfl) st

theorem throwing_getByRect_ok {L T : Type} (env : Env L) (stmt : Statement)
    (funcSameLayer : L → L → Bool) (fill : SqlRecord → T) (st : QueryState L T)
    (rect : GeoDataLatLonBox) (mapLayer : L) (lazy : Bool) :
    Throwing.getByRect env (neverFailing env.db) stmt funcSameLayer fill st rect mapLayer lazy =
      (getByRect env stmt funcSameLayer fill st rect mapLayer lazy, none) := by
  unfold Throwing.getByRect getByRect
  simp only [throwing_fetchByRect_ok]
  split_ifs <;> rfl

theorem throwing_getAirports_ok {L T : Type} (env : Env L)
    (fillOverview fillComplete : SqlRecord → T) (st : QueryState L T) (rect : GeoDataLatLonBox)
    (mapLayer : L) (lazy : Bool) :
    Throwing.getAirports env (neverFailing env.db) fillOverview fillComplete st rect mapLayer
        lazy =
      (getAirports env fillOverview fillComplete st rect mapLayer lazy, none) := by
  have key : ∀ (st : QueryState L T) (query : Statement) (minlength : Option ℤ)
      (reverse overview : Bool),
      Throwing.fetchAirports env (neverFailing env.db) fillOverview fillComplete st rect query
          minlength reverse lazy overview =
        (fetchAirports env fillOverview fillComplete st rect query minlength reverse lazy
          overview, none) := by
    intro st query minlength reverse overview
    unfold Throwing.fetchAirports fetchAirports
    rw [forThrowing_of_none]
    · split_ifs <;> rfl
    · intro s a
      rfl
  unfold Throwing.getAirports getAirports
  cases env.layer.getDataSource mapLayer <;> exact key _ _ _ _ _

theorem throwing_getAirways_ok {L T : Type} (env : Env L) (fillAirway : SqlRecord → T)
    (idOf : T → ℤ) (st : QueryState L T) (rect : GeoDataLatLonBox) (mapLayer : L)
    (lazy : Bool) :
    Throwing.getAirways env (neverFailing env.db) fillAirway idOf st rect mapLayer lazy =
      (getAirways env fillAirway idOf st rect mapLayer lazy, none) := by
  unfold Throwing.getAirways getAirways
  dsimp only
  rw [forThrowing_of_none]
  · split_ifs <;> rfl
  · intro s a
    rfl

theorem throwing_fetchAirspaces_ok {L T : Type} (env : Env L) (api : AirspaceApi T)
    (st : AirspaceState L T) (rect : GeoDataLatLonBox) (filter : MapAirspaceFilter)
    (flightPlanAltitude : ℚ) :
    Throwing.fetchAirspaces env (neverFailing env.db) api st rect filter flightPlanAltitude =
      (fetchAirspaces env api st rect filter flightPlanAltitude, none) := by
  unfold Throwing.fetchAirspaces fetchAirspaces
  have hinner : ∀ (r : GeoDataLatLonBox) (fs : FetchState (AirspaceState L T)),
      forThrowing (airspaceTypeStrings api filter)
        (fun (fs : FetchState (AirspaceState L T)) typeStr =>
          let b : Bindings :=
            { bindCoordinatePointInRect r with
              type := some typeStr,
              alt := if (airspaceQueryAndAlt api filter flightPlanAltitude).2 > 0
                     then some (airspaceQueryAndAlt api filter flightPlanAltitude).2 else none }
          let fs1 : FetchState (AirspaceState L T) :=
            { fs with st := { fs.st with
                executed := fs.st.executed ++
                  [{ stmt := (airspaceQueryAndAlt api filter flightPlanAltitude).1,
                     bound := b }] } }
          match neverFailing env.db (airspaceQueryAndAlt api filter flightPlanAltitude).1 b with
          | .error e => (fs1, some e)
          | .ok rows =>
            (rows.foldl
              (fun (fs : FetchState (AirspaceState L T)) row =>
                if row.id ∈ fs.ids then fs
                else if env.intersects rect (recordBox row) then
                  let airspace := api.fillAirspace row
                  { st := { fs.st with
                            cache := { fs.st.cache with
                              list := fs.st.cache.list ++ [airspace] } },
                    ids := api.idOf airspace :: fs.ids }
                else fs)
              fs1, none))
        fs = _ := fun r fs => forThrowing_of_none _ _ fs (fun s a => rfl)
  dsimp only
  simp only [hinner]
  rw [forThrowing_of_none]
  · rfl
  · intro s a
    rfl

theorem throwing_getAirspaces_ok {L T : Type} (env : Env L) (api : AirspaceApi T)
    (st : AirspaceState L T) (rect : GeoDataLatLonBox) (mapLayer : L)
    (filter : MapAirspaceFilter) (flightPlanAltitude : ℚ) (lazy : Bool) :
    Throwing.getAirspaces env (neverFailing env.db) api st rect mapLayer filter
        flightPlanAltitude lazy =
      (getAirspaces env api st rect mapLayer filter flightPlanAltitude lazy, none) := by
  unfold Throwing.getAirspaces getAirspaces
  simp only [throwing_fetchAirspaces_ok]
  split_ifs <;> rfl

/-! ### Statements that fail: the exception leaves the getter -/

/-- A point getter whose statement fails throws at the first execution: the
cache stays as `updateCache` left it. -/
theorem throwing_getByRect_fails {L T : Type} (env : Env L) (db : FailingDatabase)
    (stmt : Statement) (funcSameLayer : L → L → Bool) (fill : SqlRecord → T)
    (st : QueryState L T) (rect : GeoDataLatLonBox) (mapLayer : L) (e : SqlException)
    (hfail : ∀ b, db stmt b = .error e)
    (hempty : (st.cache.updateCache env.covers rect mapLayer false funcSameLayer).list = []) :
    (Throwing.getByRect env db stmt funcSameLayer fill st rect mapLayer false).2 = some e ∧
    (Throwing.getByRect env db stmt funcSameLayer fill st rect mapLayer false).1.cache =
      st.cache.updateCache env.covers rect mapLayer false funcSameLayer ∧
    (Throwing.getByRect env db stmt funcSameLayer fill st rect mapLayer false).1.executed.length =
      st.executed.length + 1 := by
  unfold Throwing.getByRect Throwing.fetchByRect
  dsimp only
  rw [if_pos (by rw [hempty]; rfl)]
  obtain ⟨a, -, ha⟩ := forThrowing_of_first (splitAtAntiMeridian env.cfg rect)
    (splitAtAntiMeridian_ne_nil env.cfg rect)
    (fun (st : QueryState L T) r =>
      match db stmt (bindCoordinatePointInRect r) with
      | .error e =>
        (({ st with executed := st.executed ++
            [{ stmt := stmt, bound := bindCoordinatePointInRect r }] } : QueryState L T), some e)
      | .ok rows =>
        (rows.foldl
          (fun st row => { st with cache := { st.cache with list := st.cache.list ++ [fill row] } })
          ({ st with executed := st.executed ++
            [{ stmt := stmt, bound := bindCoordinatePointInRect r }] } : QueryState L T), none))
    { st with cache := st.cache.updateCache env.covers rect mapLayer false funcSameLayer } e
    (fun a => by simp only [hfail])
  rw [ha]
  simp [hfail]

/-- `getAirports` throws at the first execution if its statements fail. -/
theorem throwing_getAirports_fails {L T : Type} (env : Env L) (db : FailingDatabase)
    (fillOverview fillComplete : SqlRecord → T) (st : QueryState L T) (rect : GeoDataLatLonBox)
    (mapLayer : L) (e : SqlException) (hfail : ∀ stmt b, db stmt b = .error e)
    (hempty : (st.cache.updateCache env.covers rect mapLayer false
      env.layer.hasSameQueryParametersAirport).list = []) :
    (Throwing.getAirports env db fillOverview fillComplete st rect mapLayer false).2 = some e ∧
    (Throwing.getAirports env db fillOverview fillComplete st rect mapLayer false).1.cache =
      st.cache.updateCache env.covers rect mapLayer false
        env.layer.hasSameQueryParametersAirport ∧
    (Throwing.getAirports env db fillOverview fillComplete st rect mapLayer
      false).1.executed.length = st.executed.length + 1 := by
  have key : ∀ (query : Statement) (minlength : Option ℤ) (reverse overview : Bool),
      (Throwing.fetchAirports env db fillOverview fillComplete
        { st with cache := st.cache.updateCache env.covers rect mapLayer false
                    env.layer.hasSameQueryParametersAirport }
        rect query minlength reverse false overview).2 = some e ∧
      (Throwing.fetchAirports env db fillOverview fillComplete
        { st with cache := st.cache.updateCache env.covers rect mapLayer false
                    env.layer.hasSameQueryParametersAirport }
        rect query minlength reverse false overview).1.cache =
        st.cache.updateCache env.covers rect mapLayer false
          env.layer.hasSameQueryParametersAirport ∧
      (Throwing.fetchAirports env db fillOverview fillComplete
        { st with cache := st.cache.updateCache env.covers rect mapLayer false
                    env.layer.hasSameQueryParametersAirport }
        rect query minlength reverse false overview).1.executed.length =
        st.executed.length + 1 := by
    intro query minlength reverse overview
    unfold Throwing.fetchAirports
    dsimp only
    rw [if_pos (by rw [hempty]; rfl),
      forThrowing_head _ (splitAtAntiMeridian_ne_nil env.cfg rect) _ _ e (by simp only [hfail])]
    simp [hfail]
  unfold Throwing.getAirports
  cases env.layer.getDataSource mapLayer <;> exact key _ _ _ _

/-- `getAirways` throws at the first execution if its statement fails. -/
theorem throwing_getAirways_fails {L T : Type} (env : Env L) (db : FailingDatabase)
    (fillAirway : SqlRecord → T) (idOf : T → ℤ) (st : QueryState L T)
    (rect : GeoDataLatLonBox) (mapLayer : L) (e : SqlException)
    (hfail : ∀ stmt b, db stmt b = .error e)
    (hempty : (st.cache.updateCache env.covers rect mapLayer false
      env.layer.hasSameQueryParametersAirway).list = []) :
    (Throwing.getAirways env db fillAirway idOf st rect mapLayer false).2 = some e ∧
    (Throwing.getAirways env db fillAirway idOf st rect mapLayer false).1.cache =
      st.cache.updateCache env.covers rect mapLayer false
        env.layer.hasSameQueryParametersAirway ∧
    (Throwing.getAirways env db fillAirway idOf st rect mapLayer false).1.executed.length =
      st.executed.length + 1 := by
  unfold Throwing.getAirways
  dsimp only
  rw [if_pos (by rw [hempty]; rfl),
    forThrowing_head _ (splitAtAntiMeridian_ne_nil env.cfg rect) _ _ e (by simp only [hfail])]
  simp [hfail]

/-- An airspace fetch throws at the first execution if its statements fail
and there is a type string to query. -/
theorem throwing_fetchAirspaces_fails {L T : Type} (env : Env L) (db : FailingDatabase)
    (api : AirspaceApi T) (st : AirspaceState L T) (rect : GeoDataLatLonBox)
    (filter : MapAirspaceFilter) (flightPlanAltitude : ℚ) (e : SqlException)
    (hfail : ∀ stmt b, db stmt b = .error e)
    (htypes : airspaceTypeStrings api filter ≠ []) :
    (Throwing.fetchAirspaces env db api st rect filter flightPlanAltitude).2 = some e ∧
    (Throwing.fetchAirspaces env db api st rect filter flightPlanAltitude).1.cache = st.cache ∧
    (Throwing.fetchAirspaces env db api st rect filter flightPlanAltitude).1.executed.length =
      st.executed.length + 1 := by
  unfold Throwing.fetchAirspaces
  dsimp only
  rw [forThrowing_head _ (splitAtAntiMeridian_ne_nil env.cfg rect) _ _ e
    (by rw [forThrowing_head _ htypes _ _ e (by simp only [hfail])])]
  dsimp only
  rw [forThrowing_head _ htypes _ _ e (by simp only [hfail])]
  simp [hfail]

/-- `getAirspaces` throws at the first execution if its statements fail and
the call fetches. -/
theorem throwing_getAirspaces_fails {L T : Type} (env : Env L) (db : FailingDatabase)
    (api : AirspaceApi T) (st : AirspaceState L T) (rect : GeoDataLatLonBox) (mapLayer : L)
    (filter : MapAirspaceFilter) (flightPlanAltitude : ℚ) (e : SqlException)
    (hfail : ∀ stmt b, db stmt b = .error e)
    (htypes : airspaceTypeStrings api filter ≠ [])
    (hnone : filter.types ≠ api.AIRSPACE_NONE)
    (hfetch : (st.cache.updateCache env.covers rect mapLayer false
        env.layer.hasSameQueryParametersAirspace).list = [] ∨
      (filter.types ≠ st.lastAirspaceFilter.types ∨
        filter.flags ≠ st.lastAirspaceFilter.flags ∨
        almostNotEqual st.lastFlightplanAltitude flightPlanAltitude = true)) :
    (Throwing.getAirspaces env db api st rect mapLayer filter flightPlanAltitude false).2 =
      some e ∧
    (Throwing.getAirspaces env db api st rect mapLayer filter flightPlanAltitude
      false).1.cache.list = [] ∧
    (Throwing.getAirspaces env db api st rect mapLayer filter flightPlanAltitude
      false).1.cache.valid =
      (st.cache.updateCache env.covers rect mapLayer false
        env.layer.hasSameQueryParametersAirspace).valid ∧
    (Throwing.getAirspaces env db api st rect mapLayer filter flightPlanAltitude
      false).1.executed.length = st.executed.length + 1 := by
  unfold Throwing.getAirspaces
  lift_lets
  intro st1 src st2
  have h2 : st2.cache.list = [] ∧ st2.cache.valid = st1.cache.valid ∧
      st2.executed = st.executed := by
    unfold st2
    split_ifs with hchg
    · exact ⟨rfl, rfl, rfl⟩
    · rcases hfetch with h | h
      · exact ⟨h, rfl, rfl⟩
      · exact absurd h hchg
  obtain ⟨f1, f2, f3⟩ := throwing_fetchAirspaces_fails env db api st2 rect filter
    flightPlanAltitude e hfail htypes
  rw [if_pos (by rw [h2.1]; rfl), if_pos hnone]
  rcases hr : Throwing.fetchAirspaces env db api st2 rect filter flightPlanAltitude
    with ⟨s3, o⟩
  rw [hr] at f1 f2 f3
  dsimp only at f1 f2 f3
  subst f1
  dsimp only
  rw [f2, f3, h2.2.2]
  exact ⟨rfl, h2.1, h2.2.1, rfl⟩

/-! ### Any datastore: the cache is marked valid exactly if nothing is thrown -/

/-- What every iteration keeps for the state, and what holds for every
exception an iteration throws, holds after a loop that can throw. -/
theorem forThrowing_inv {α σ : Type} (P : σ → Prop) (R : SqlException → Prop) (l : List α)
    (body : σ → α → σ × Option SqlException) (s : σ) (hs : P s)
    (hbody : ∀ s a, P s → P (body s a).1 ∧ ∀ e, (body s a).2 = some e → R e) :
    P (forThrowing l body s).1 ∧ ∀ e, (forThrowing l body s).2 = some e → R e := by
  induction l generalizing s with
  | nil => exact ⟨hs, fun e h => by cases h⟩
  | cons a l ih =>
    rw [forThrowing_cons]
    cases h : (body s a).2 with
    | none => exact ih _ (hbody s a hs).1
    | some e =>
      refine ⟨(hbody s a hs).1, ?_⟩
      intro e2 he2
      cases he2
      exact (hbody s a hs).2 e h

/-- A point getter over any datastore: if it throws, the exception is the one
of a failed execution of its statement and the cache is not marked valid by
the call; if it returns, the cache is marked valid. -/
theorem throwing_getByRect_valid {L T : Type} (env : Env L) (db : FailingDatabase)
    (stmt : Statement) (funcSameLayer : L → L → Bool) (fill : SqlRecord → T)
    (st : QueryState L T) (rect : GeoDataLatLonBox) (mapLayer : L) (lazy : Bool) :
    (∀ e, (Throwing.getByRect env db stmt funcSameLayer fill st rect mapLayer lazy).2 = some e →
      (Throwing.getByRect env db stmt funcSameLayer fill st rect mapLayer lazy).1.cache.valid =
        (st.cache.updateCache env.covers rect mapLayer lazy funcSameLayer).valid ∧
      ∃ b, db stmt b = .error e) ∧
    ((Throwing.getByRect env db stmt funcSameLayer fill st rect mapLayer lazy).2 = none →
      (Throwing.getByRect env db stmt funcSameLayer fill st rect mapLayer lazy).1.cache.valid =
        true) := by
  have hrows : ∀ (rows : List SqlRecord) (s : QueryState L T),
      (rows.foldl
        (fun st row => { st with cache := { st.cache with list := st.cache.list ++ [fill row] } })
        s).cache.valid = s.cache.valid := by
    intro rows s
    refine foldl_preserves (fun x => x.cache.valid = s.cache.valid) _ ?_ rows s rfl
    intro b a h
    exact h
  have inv := forThrowing_inv
    (fun (s : QueryState L T) => s.cache.valid =
      (st.cache.updateCache env.covers rect mapLayer lazy funcSameLayer).valid)
    (fun e => ∃ b, db stmt b = .error e)
    (splitAtAntiMeridian env.cfg rect)
    (fun (st : QueryState L T) r =>
      match db stmt (bindCoordinatePointInRect r) with
      | .error e =>
        (({ st with executed := st.executed ++
            [{ stmt := stmt, bound := bindCoordinatePointInRect r }] } : QueryState L T), some e)
      | .ok rows =>
        (rows.foldl
          (fun st row => { st with cache := { st.cache with list := st.cache.list ++ [fill row] } })
          ({ st with executed := st.executed ++
            [{ stmt := stmt, bound := bindCoordinatePointInRect r }] } : QueryState L T), none))
    { st with cache := st.cache.updateCache env.covers rect mapLayer lazy funcSameLayer } rfl
    (by
      intro s r hs
      dsimp only
      cases hdb : db stmt (bindCoordinatePointInRect r) with
      | error e =>
        refine ⟨hs, ?_⟩
        intro e2 he2
        cases he2
        exact ⟨_, hdb⟩
      | ok rows =>
        refine ⟨?_, fun e2 he2 => by cases he2⟩
        exact (hrows rows _).trans hs)
  unfold Throwing.getByRect Throwing.fetchByRect
  dsimp only
  split_ifs with hc
  · rcases hr : forThrowing (splitAtAntiMeridian env.cfg rect)
        (fun (st : QueryState L T) r =>
          match db stmt (bindCoordinatePointInRect r) with
          | .error e =>
            (({ st with executed := st.executed ++
                [{ stmt := stmt, bound := bindCoordinatePointInRect r }] } : QueryState L T),
              some e)
          | .ok rows =>
            (rows.foldl
              (fun st row =>
                { st with cache := { st.cache with list := st.cache.list ++ [fill row] } })
              ({ st with executed := st.executed ++
                [{ stmt := stmt, bound := bindCoordinatePointInRect r }] } : QueryState L T),
              none))
        { st with cache := st.cache.updateCache env.covers rect mapLayer lazy funcSameLayer }
      with ⟨s2, o⟩
    rw [hr] at inv
    cases o with
    | none => exact ⟨fun e h => (by cases h), fun _ => rfl⟩
    | some e =>
      refine ⟨?_, fun h => by cases h⟩
      intro e2 he2
      cases he2
      exact ⟨inv.1, inv.2 e rfl⟩
  · exact ⟨fun e h => (by cases h), fun _ => rfl⟩

/-- The invariant of a loop that can throw, for a given result of the loop. -/
theorem forThrowing_inv_of_eq {α σ : Type} (P : σ → Prop) (R : SqlException → Prop)
    (l : List α) (body : σ → α → σ × Option SqlException) (s : σ)
    (res : σ × Option SqlException) (hres : forThrowing l body s = res) (hs : P s)
    (hbody : ∀ s a, P s → P (body s a).1 ∧ ∀ e, (body s a).2 = some e → R e) :
    P res.1 ∧ ∀ e, res.2 = some e → R e :=
  hres ▸ forThrowing_inv P R l body s hs hbody

/-- `getAirports` over any datastore: if it throws, the exception is the one
of a failed execution and the cache is not marked valid by the call; if it
returns, the cache is marked valid. -/
theorem throwing_getAirports_valid {L T : Type} (env : Env L) (db : FailingDatabase)
    (fillOverview fillComplete : SqlRecord → T) (st : QueryState L T) (rect : GeoDataLatLonBox)
    (mapLayer : L) (lazy : Bool) :
    (∀ e, (Throwing.getAirports env db fillOverview fillComplete st rect mapLayer lazy).2 =
        some e →
      (Throwing.getAirports env db fillOverview fillComplete st rect mapLayer
        lazy).1.cache.valid =
        (st.cache.updateCache env.covers rect mapLayer lazy
          env.layer.hasSameQueryParametersAirport).valid ∧
      ∃ stmt b, db stmt b = .error e) ∧
    ((Throwing.getAirports env db fillOverview fillComplete st rect mapLayer lazy).2 = none →
      (Throwing.getAirports env db fillOverview fillComplete st rect mapLayer
        lazy).1.cache.valid = true) := by
  have key : ∀ (s1 : QueryState L T) (query : Statement) (minlength : Option ℤ)
      (reverse overview : Bool),
      (∀ e, (Throwing.fetchAirports env db fillOverview fillComplete s1 rect query minlength
          reverse lazy overview).2 = some e →
        (Throwing.fetchAirports env db fillOverview fillComplete s1 rect query minlength
          reverse lazy overview).1.cache.valid = s1.cache.valid ∧
        ∃ stmt b, db stmt b = .error e) ∧
      ((Throwing.fetchAirports env db fillOverview fillComplete s1 rect query minlength
          reverse lazy overview).2 = none →
        (Throwing.fetchAirports env db fillOverview fillComplete s1 rect query minlength
          reverse lazy overview).1.cache.valid = true) := by
    intro s1 query minlength reverse overview
    have hrows : ∀ (rows : List SqlRecord) (s : QueryState L T),
        (rows.foldl
          (fun (st : QueryState L T) row =>
            let ap := if overview then fillOverview row else fillComplete row
            if reverse then { st with cache := { st.cache with list := ap :: st.cache.list } }
            else { st with cache := { st.cache with list := st.cache.list ++ [ap] } })
          s).cache.valid = s.cache.valid := by
      intro rows s
      refine foldl_preserves (fun x => x.cache.valid = s.cache.valid) _ ?_ rows s rfl
      intro b a h
      dsimp only
      split_ifs <;> exact h
    unfold Throwing.fetchAirports
    by_cases hc : (s1.cache.list.isEmpty && !lazy) = true
    · rw [if_pos hc]
      split
      · rename_i s2 e heq
        have inv := forThrowing_inv_of_eq
          (fun (s : QueryState L T) => s.cache.valid = s1.cache.valid)
          (fun e => ∃ stmt b, db stmt b = .error e) _ _ _ _ heq rfl
          (by
            intro s r hs
            dsimp only
            split
            · rename_i e hdb
              refine ⟨hs, ?_⟩
              intro e2 he2
              cases he2
              exact ⟨_, _, hdb⟩
            · rename_i rows hdb
              exact ⟨(hrows rows _).trans hs, fun e2 he2 => by cases he2⟩)
        refine ⟨?_, fun h => by cases h⟩
        intro e2 he2
        cases he2
        exact ⟨inv.1, inv.2 e rfl⟩
      · exact ⟨fun e h => (by cases h), fun _ => rfl⟩
    · rw [if_neg hc]
      exact ⟨fun e h => (by cases h), fun _ => rfl⟩
  unfold Throwing.getAirports
  cases env.layer.getDataSource mapLayer <;> exact key _ _ _ _ _

/-- `getAirways` over any datastore: if it throws, the exception is the one of
a failed execution and the cache is not marked valid by the call; if it
returns, the cache is marked valid. -/
theorem throwing_getAirways_valid {L T : Type} (env : Env L) (db : FailingDatabase)
    (fillAirway : SqlRecord → T) (idOf : T → ℤ) (st : QueryState L T)
    (rect : GeoDataLatLonBox) (mapLayer : L) (lazy : Bool) :
    (∀ e, (Throwing.getAirways env db fillAirway idOf st rect mapLayer lazy).2 = some e →
      (Throwing.getAirways env db fillAirway idOf st rect mapLayer lazy).1.cache.valid =
        (st.cache.updateCache env.covers rect mapLayer lazy
          env.layer.hasSameQueryParametersAirway).valid ∧
      ∃ stmt b, db stmt b = .error e) ∧
    ((Throwing.getAirways env db fillAirway idOf st rect mapLayer lazy).2 = none →
      (Throwing.getAirways env db fillAirway idOf st rect mapLayer lazy).1.cache.valid =
        true) := by
  have hrows : ∀ (rows : List SqlRecord) (s : FetchState (QueryState L T)),
      (rows.foldl
        (fun (fs : FetchState (QueryState L T)) row =>
          if row.id ∈ fs.ids then fs
          else if env.intersects rect (recordBox row) then
            let airway := fillAirway row
            { st := { fs.st with
                      cache := { fs.st.cache with list := fs.st.cache.list ++ [airway] } },
              ids := idOf airway :: fs.ids }
          else fs)
        s).st.cache.valid = s.st.cache.valid := by
    intro rows s
    refine foldl_preserves (fun x => x.st.cache.valid = s.st.cache.valid) _ ?_ rows s rfl
    intro b a h
    dsimp only
    split_ifs <;> exact h
  unfold Throwing.getAirways
  dsimp only
  by_cases hc : ((st.cache.updateCache env.covers rect mapLayer lazy
      env.layer.hasSameQueryParametersAirway).list.isEmpty && !lazy) = true
  · rw [if_pos hc]
    split
    · rename_i s2 e heq
      have inv := forThrowing_inv_of_eq
        (fun (s : FetchState (QueryState L T)) => s.st.cache.valid =
          (st.cache.updateCache env.covers rect mapLayer lazy
            env.layer.hasSameQueryParametersAirway).valid)
        (fun e => ∃ stmt b, db stmt b = .error e) _ _ _ _ heq rfl
        (by
          intro s r hs
          dsimp only
          split
          · rename_i e hdb
            refine ⟨hs, ?_⟩
            intro e2 he2
            cases he2
            exact ⟨_, _, hdb⟩
          · rename_i rows hdb
            exact ⟨(hrows rows _).trans hs, fun e2 he2 => by cases he2⟩)
      refine ⟨?_, fun h => by cases h⟩
      intro e2 he2
      cases he2
      exact ⟨inv.1, inv.2 e rfl⟩
    · exact ⟨fun e h => (by cases h), fun _ => rfl⟩
  · rw [if_neg hc]
    exact ⟨fun e h => (by cases h), fun _ => rfl⟩

/-- An airspace fetch over any datastore: if it throws, the exception is the
one of a failed execution and the validity flag is untouched. -/
theorem throwing_fetchAirspaces_valid {L T : Type} (env : Env L) (db : FailingDatabase)
    (api : AirspaceApi T) (st : AirspaceState L T) (rect : GeoDataLatLonBox)
    (filter : MapAirspaceFilter) (flightPlanAltitude : ℚ) (e : SqlException)
    (h : (Throwing.fetchAirspaces env db api st rect filter flightPlanAltitude).2 = some e) :
    (Throwing.fetchAirspaces env db api st rect filter flightPlanAltitude).1.cache.valid =
      st.cache.valid ∧
    ∃ stmt b, db stmt b = .error e := by
  have hrows : ∀ (rows : List SqlRecord) (s : FetchState (AirspaceState L T)),
      (rows.foldl
        (fun (fs : FetchState (AirspaceState L T)) row =>
          if row.id ∈ fs.ids then fs
          else if env.intersects rect (recordBox row) then
            let airspace := api.fillAirspace row
            { st := { fs.st with
                      cache := { fs.st.cache with list := fs.st.cache.list ++ [airspace] } },
              ids := api.idOf airspace :: fs.ids }
          else fs)
        s).st.cache.valid = s.st.cache.valid := by
    intro rows s
    refine foldl_preserves (fun x => x.st.cache.valid = s.st.cache.valid) _ ?_ rows s rfl
    intro b a h
    dsimp only
    split_ifs <;> exact h
  generalize hR : Throwing.fetchAirspaces env db api st rect filter flightPlanAltitude = R
    at h ⊢
  unfold Throwing.fetchAirspaces at hR
  dsimp only at hR
  split at hR
  · rename_i s2 e1 heq
    subst hR
    cases h
    have inv := forThrowing_inv_of_eq
      (fun (s : FetchState (AirspaceState L T)) => s.st.cache.valid = st.cache.valid)
      (fun e => ∃ stmt b, db stmt b = .error e) _ _ _ _ heq rfl
      (by
        intro s r hs
        refine forThrowing_inv
          (fun (s : FetchState (AirspaceState L T)) => s.st.cache.valid = st.cache.valid)
          (fun e => ∃ stmt b, db stmt b = .error e) _ _ s hs ?_
        intro s typeStr hs
        dsimp only
        split
        · rename_i e hdb
          refine ⟨hs, ?_⟩
          intro e2 he2
          cases he2
          exact ⟨_, _, hdb⟩
        · rename_i rows hdb
          exact ⟨(hrows rows _).trans hs, fun e2 he2 => by cases he2⟩)
    exact ⟨inv.1, inv.2 e rfl⟩
  · subst hR
    cases h

/-- `getAirspaces` over any datastore: if it throws, the exception is the one
of a failed execution and the cache is not marked valid by the call; if it
returns, the cache is marked valid. -/
theorem throwing_getAirspaces_valid {L T : Type} (env : Env L) (db : FailingDatabase)
    (api : AirspaceApi T) (st : AirspaceState L T) (rect : GeoDataLatLonBox) (mapLayer : L)
    (filter : MapAirspaceFilter) (flightPlanAltitude : ℚ) (lazy : Bool) :
    (∀ e, (Throwing.getAirspaces env db api st rect mapLayer filter flightPlanAltitude lazy).2 =
        some e →
      (Throwing.getAirspaces env db api st rect mapLayer filter flightPlanAltitude
        lazy).1.cache.valid =
        (st.cache.updateCache env.covers rect mapLayer lazy
          env.layer.hasSameQueryParametersAirspace).valid ∧
      ∃ stmt b, db stmt b = .error e) ∧
    ((Throwing.getAirspaces env db api st rect mapLayer filter flightPlanAltitude lazy).2 =
        none →
      (Throwing.getAirspaces env db api st rect mapLayer filter flightPlanAltitude
        lazy).1.cache.valid = true) := by
  unfold Throwing.getAirspaces
  lift_lets
  intro st1 src st2
  have h2 : st2.cache.valid = st1.cache.valid := by
    unfold st2
    split_ifs <;> rfl
  by_cases hc : (st2.cache.list.isEmpty && !lazy) = true
  · rw [if_pos hc]
    by_cases hn : filter.types ≠ api.AIRSPACE_NONE
    · rw [if_pos hn]
      split
      · rename_i s3 e heq
        have hv := throwing_fetchAirspaces_valid env db api st2 rect filter flightPlanAltitude e
          (by rw [heq])
        rw [heq] at hv
        refine ⟨?_, fun h => by cases h⟩
        intro e2 he2
        cases he2
        exact ⟨hv.1.trans h2, hv.2⟩
      · exact ⟨fun e h => (by cases h), fun _ => rfl⟩
    · rw [if_neg hn]
      exact ⟨fun e h => (by cases h), fun _ => rfl⟩
  · rw [if_neg hc]
    exact ⟨fun e h => (by cases h), fun _ => rfl⟩

/-- C21, as stated, fails: the statement of `getWaypoints` cannot be executed
(`exec()` throws); a non-lazy call on an empty cache leaves the getter with the
exception, and the cache is not marked valid. With a datastore that returns
zero rows the same call returns normally and marks the cache valid. -/
theorem getWaypoints_exec_failure_counterexample :
    (Throwing.getWaypoints (sampleEnv (fun _ _ => [])) (fun _ _ => .error ⟨"stale handle"⟩) id
      { cache := emptyCache Unit SqlRecord, executed := [] }
      ⟨10, -10, 150, -150⟩ () false).2 = some ⟨"stale handle"⟩ ∧
    (Throwing.getWaypoints (sampleEnv (fun _ _ => [])) (fun _ _ => .error ⟨"stale handle"⟩) id
      { cache := emptyCache Unit SqlRecord, executed := [] }
      ⟨10, -10, 150, -150⟩ () false).1.cache.valid = false ∧
    (Throwing.getWaypoints (sampleEnv (fun _ _ => [])) (neverFailing (fun _ _ => [])) id
      { cache := emptyCache Unit SqlRecord, executed := [] }
      ⟨10, -10, 150, -150⟩ () false).2 = none ∧
    (Throwing.getWaypoints (sampleEnv (fun _ _ => [])) (neverFailing (fun _ _ => [])) id
      { cache := emptyCache Unit SqlRecord, executed := [] }
      ⟨10, -10, 150, -150⟩ () false).1.cache.valid = true := by
  obtain ⟨h1, h2, -⟩ := throwing_getByRect_fails (sampleEnv (fun _ _ => []))
    (fun _ _ => .error ⟨"stale handle"⟩) .waypointsByRectQuery
    (sampleEnv (fun _ _ => [])).layer.hasSameQueryParametersWaypoint id
    { cache := emptyCache Unit SqlRecord, executed := [] }
    ⟨10, -10, 150, -150⟩ () ⟨"stale handle"⟩ (fun _ => rfl) rfl
  have h3 := throwing_getByRect_ok (sampleEnv (fun _ _ => [])) .waypointsByRectQuery
    (sampleEnv (fun _ _ => [])).layer.hasSameQueryParametersWaypoint id
    { cache := emptyCache Unit SqlRecord, executed := [] }
    ⟨10, -10, 150, -150⟩ () false
  refine ⟨h1, ?_, ?_, ?_⟩
  · unfold Throwing.getWaypoints
    rw [h2]
    rfl
  · unfold Throwing.getWaypoints
    exact congrArg Prod.snd h3
  · unfold Throwing.getWaypoints
    exact (congrArg (fun r => r.1.cache.valid) h3).trans rfl

/-- C21 (amended): there is no handler in the by-viewport getters. If the
statements fail to execute (`exec()` throws), then for every by-viewport getter
(`getWaypoints`, `getVors`, `getNdbs`, `getMarkers`, `getIls`, `getAirports`,
`getAirways`, `getAirspaces`) a non-lazy call that fetches leaves the getter
with the exception of the first execution: exactly one execution took place,
no entity was appended, and the cache is not marked valid by the call (it is
as `updateCache` left it). -/
theorem getters_propagate_exec_failure {L T : Type} (env : Env L) (db : FailingDatabase)
    (e : SqlException) (hfail : ∀ stmt b, db stmt b = .error e)
    (fill fillOverview fillComplete : SqlRecord → T) (idOf : T → ℤ) (api : AirspaceApi T)
    (st : QueryState L T) (ast : AirspaceState L T) (rect : GeoDataLatLonBox) (mapLayer : L)
    (filter : MapAirspaceFilter) (flightPlanAltitude : ℚ) :
    ((st.cache.updateCache env.covers rect mapLayer false
        env.layer.hasSameQueryParametersWaypoint).list = [] →
      (Throwing.getWaypoints env db fill st rect mapLayer false).2 = some e ∧
      (Throwing.getWaypoints env db fill st rect mapLayer false).1.cache =
        st.cache.updateCache env.covers rect mapLayer false
          env.layer.hasSameQueryParametersWaypoint ∧
      (Throwing.getWaypoints env db fill st rect mapLayer false).1.executed.length =
        st.executed.length + 1) ∧
    ((st.cache.updateCache env.covers rect mapLayer false
        env.layer.hasSameQueryParametersVor).list = [] →
      (Throwing.getVors env db fill st rect mapLayer false).2 = some e ∧
      (Throwing.getVors env db fill st rect mapLayer false).1.cache =
        st.cache.updateCache env.covers rect mapLayer false
          env.layer.hasSameQueryParametersVor ∧
      (Throwing.getVors env db fill st rect mapLayer false).1.executed.length =
        st.executed.length + 1) ∧
    ((st.cache.updateCache env.covers rect mapLayer false
        env.layer.hasSameQueryParametersNdb).list = [] →
      (Throwing.getNdbs env db fill st rect mapLayer false).2 = some e ∧
      (Throwing.getNdbs env db fill st rect mapLayer false).1.cache =
        st.cache.updateCache env.covers rect mapLayer false
          env.layer.hasSameQueryParametersNdb ∧
      (Throwing.getNdbs env db fill st rect mapLayer false).1.executed.length =
        st.executed.length + 1) ∧
    ((st.cache.updateCache env.covers rect mapLayer false
        env.layer.hasSameQueryParametersMarker).list = [] →
      (Throwing.getMarkers env db fill st rect mapLayer false).2 = some e ∧
      (Throwing.getMarkers env db fill st rect mapLayer false).1.cache =
        st.cache.updateCache env.covers rect mapLayer false
          env.layer.hasSameQueryParametersMarker ∧
      (Throwing.getMarkers env db fill st rect mapLayer false).1.executed.length =
        st.executed.length + 1) ∧
    ((st.cache.updateCache env.covers rect mapLayer false
        env.layer.hasSameQueryParametersIls).list = [] →
      (Throwing.getIls env db fill st rect mapLayer false).2 = some e ∧
      (Throwing.getIls env db fill st rect mapLayer false).1.cache =
        st.cache.updateCache env.covers rect mapLayer false
          env.layer.hasSameQueryParametersIls ∧
      (Throwing.getIls env db fill st rect mapLayer false).1.executed.length =
        st.executed.length + 1) ∧
    ((st.cache.updateCache env.covers rect mapLayer false
        env.layer.hasSameQueryParametersAirport).list = [] →
      (Throwing.getAirports env db fillOverview fillComplete st rect mapLayer false).2 =
        some e ∧
      (Throwing.getAirports env db fillOverview fillComplete st rect mapLayer false).1.cache =
        st.cache.updateCache env.covers rect mapLayer false
          env.layer.hasSameQueryParametersAirport ∧
      (Throwing.getAirports env db fillOverview fillComplete st rect mapLayer
        false).1.executed.length = st.executed.length + 1) ∧
    ((st.cache.updateCache env.covers rect mapLayer false
        env.layer.hasSameQueryParametersAirway).list = [] →
      (Throwing.getAirways env db fill idOf st rect mapLayer false).2 = some e ∧
      (Throwing.getAirways env db fill idOf st rect mapLayer false).1.cache =
        st.cache.updateCache env.covers rect mapLayer false
          env.layer.hasSameQueryParametersAirway ∧
      (Throwing.getAirways env db fill idOf st rect mapLayer false).1.executed.length =
        st.executed.length + 1) ∧
    (airspaceTypeStrings api filter ≠ [] → filter.types ≠ api.AIRSPACE_NONE →
      ((ast.cache.updateCache env.covers rect mapLayer false
          env.layer.hasSameQueryParametersAirspace).list = [] ∨
        (filter.types ≠ ast.lastAirspaceFilter.types ∨
          filter.flags ≠ ast.lastAirspaceFilter.flags ∨
          almostNotEqual ast.lastFlightplanAltitude flightPlanAltitude = true)) →
      (Throwing.getAirspaces env db api ast rect mapLayer filter flightPlanAltitude false).2 =
        some e ∧
      (Throwing.getAirspaces env db api ast rect mapLayer filter flightPlanAltitude
        false).1.cache.list = [] ∧
      (Throwing.getAirspaces env db api ast rect mapLayer filter flightPlanAltitude
        false).1.cache.valid =
        (ast.cache.updateCache env.covers rect mapLayer false
          env.layer.hasSameQueryParametersAirspace).valid ∧
      (Throwing.getAirspaces env db api ast rect mapLayer filter flightPlanAltitude
        false).1.executed.length = ast.executed.length + 1) := by
  refine ⟨?_, ?_, ?_, ?_, ?_, ?_, ?_, ?_⟩
  · exact throwing_getByRect_fails env db _ _ fill st rect mapLayer e (hfail _)
  · exact throwing_getByRect_fails env db _ _ fill st rect mapLayer e (hfail _)
  · exact throwing_getByRect_fails env db _ _ fill st rect mapLayer e (hfail _)
  · exact throwing_getByRect_fails env db _ _ fill st rect mapLayer e (hfail _)
  · exact throwing_getByRect_fails env db _ _ fill st rect mapLayer e (hfail _)
  · exact throwing_getAirports_fails env db fillOverview fillComplete st rect mapLayer e hfail
  · exact throwing_getAirways_fails env db fill idOf st rect mapLayer e hfail
  · exact throwing_getAirspaces_fails env db api ast rect mapLayer filter flightPlanAltitude e
      hfail

/-- C21 (amended) at a concrete input: every statement fails with the
exception `stale handle`; `getVors` on an empty cache throws it. -/
theorem getters_propagate_exec_failure_witness :
    (Throwing.getVors (sampleEnv (fun _ _ => [])) (fun _ _ => .error ⟨"stale handle"⟩) id
      { cache := emptyCache Unit SqlRecord, executed := [] }
      ⟨10, -10, 150, -150⟩ () false).2 = some ⟨"stale handle"⟩ :=
  ((getters_propagate_exec_failure (sampleEnv (fun _ _ => []))
    (fun _ _ => .error ⟨"stale handle"⟩) ⟨"stale handle"⟩ (fun _ _ => rfl) id id id
    (fun row => row.id) sampleAirspaceApi
    { cache := emptyCache Unit SqlRecord, executed := [] }
    { cache := emptyCache Unit SqlRecord, executed := [],
      lastAirspaceFilter := ⟨0, 0⟩, lastFlightplanAltitude := 0 }
    ⟨10, -10, 150, -150⟩ () ⟨268435455, 0⟩ 0).2.1 rfl).1

end MapQuery

namespace MapQuery

open Marble Marble.GeoDataLatLonBox

/-! ## C22, C29: lookups by id -/

/-- The by-id statement returns no row for an id that no row of the table has. -/
theorem selectById_eq_nil (table : List SqlRecord) (id : ℤ)
    (h : ∀ row ∈ table, row.id ≠ id) : selectById table id = [] := by
  unfold selectById
  rw [List.filter_eq_nil_iff]
  intro row hrow
  simpa using h row hrow

theorem selectWaypointById_eq_nil (table : List WaypointRecord) (id : ℤ)
    (h : ∀ row ∈ table, row.waypoint_id ≠ id) : selectWaypointById table id = [] := by
  unfold selectWaypointById
  rw [List.filter_eq_nil_iff]
  intro row hrow
  simpa using h row hrow

/-- C22: for every kind and id that matches no row of the table of the kind,
the lookup by id gives the default entity, which is not valid, and no error:
`getVorById`, `getNdbById`, `getIlsById` and `getWaypointById` (and
`getAirspaceById`) return the default entity, and `getMapObjectById` with the
type of the kind appends nothing, so that an empty result stays empty. The
type constants are assumed to be pairwise different. -/
theorem getById_no_row {E : Type} (consts : MapObjectIdConsts) (f : MapTypesFactory E)
    (t : Tables) (result : MapSearchResultOf E) (id : ℤ) (airportFromNavDatabase : Bool)
    (hdefault : f.isValid f.default = false)
    (hdistinct : [consts.AIRPORT, consts.VOR, consts.NDB, consts.WAYPOINT, consts.ILS,
      consts.RUNWAYEND, consts.AIRSPACE].Nodup) :
    ((∀ row ∈ t.vor, row.id ≠ id) →
      getVorById f t id = f.default ∧
      getMapObjectById consts f t result consts.VOR id airportFromNavDatabase = result ∧
      getMapObjectById consts f t (MapSearchResultOf.empty E) consts.VOR id
        airportFromNavDatabase = MapSearchResultOf.empty E) ∧
    ((∀ row ∈ t.ndb, row.id ≠ id) →
      getNdbById f t id = f.default ∧
      getMapObjectById consts f t result consts.NDB id airportFromNavDatabase = result ∧
      getMapObjectById consts f t (MapSearchResultOf.empty E) consts.NDB id
        airportFromNavDatabase = MapSearchResultOf.empty E) ∧
    ((∀ row ∈ t.ils, row.id ≠ id) →
      getIlsById f t id = f.default ∧
      getMapObjectById consts f t result consts.ILS id airportFromNavDatabase = result ∧
      getMapObjectById consts f t (MapSearchResultOf.empty E) consts.ILS id
        airportFromNavDatabase = MapSearchResultOf.empty E) ∧
    ((∀ row ∈ t.waypoint, row.waypoint_id ≠ id) →
      getWaypointById f t id = f.default ∧
      getMapObjectById consts f t result consts.WAYPOINT id airportFromNavDatabase = result ∧
      getMapObjectById consts f t (MapSearchResultOf.empty E) consts.WAYPOINT id
        airportFromNavDatabase = MapSearchResultOf.empty E) ∧
    ((∀ row ∈ t.boundary, row.id ≠ id) →
      getAirspaceById f t id = f.default ∧
      getMapObjectById consts f t result consts.AIRSPACE id airportFromNavDatabase = result ∧
      getMapObjectById consts f t (MapSearchResultOf.empty E) consts.AIRSPACE id
        airportFromNavDatabase = MapSearchResultOf.empty E) ∧
    ((∀ row ∈ (if airportFromNavDatabase then t.airportNav else t.airportSim), row.id ≠ id) →
      getMapObjectById consts f t result consts.AIRPORT id airportFromNavDatabase = result ∧
      getMapObjectById consts f t (MapSearchResultOf.empty E) consts.AIRPORT id
        airportFromNavDatabase = MapSearchResultOf.empty E) ∧
    ((∀ row ∈ (if airportFromNavDatabase then t.runwayEndNav else t.runwayEndSim),
        row.id ≠ id) →
      getMapObjectById consts f t result consts.RUNWAYEND id airportFromNavDatabase = result ∧
      getMapObjectById consts f t (MapSearchResultOf.empty E) consts.RUNWAYEND id
        airportFromNavDatabase = MapSearchResultOf.empty E) := by
  simp only [List.nodup_cons, List.mem_cons, List.mem_singleton, not_or, List.not_mem_nil,
    not_false_eq_true, List.nodup_nil, and_true] at hdistinct
  obtain ⟨⟨h12, h13, h14, h15, h16, h17⟩, ⟨h23, h24, h25, h26, h27⟩, ⟨h34, h35, h36, h37⟩,
    ⟨h45, h46, h47⟩, ⟨h56, h57⟩, h67⟩ := hdistinct
  refine ⟨?_, ?_, ?_, ?_, ?_, ?_, ?_⟩
  · intro h
    have hv : getVorById f t id = f.default := by
      simp only [getVorById, selectById_eq_nil _ _ h]
    have key : ∀ r : MapSearchResultOf E,
        getMapObjectById consts f t r consts.VOR id airportFromNavDatabase = r := by
      intro r
      simp only [getMapObjectById, hv, hdefault, Ne.symm h12, if_false, if_true]
      simp
    exact ⟨hv, key _, key _⟩
  · intro h
    have hv : getNdbById f t id = f.default := by
      simp only [getNdbById, selectById_eq_nil _ _ h]
    have key : ∀ r : MapSearchResultOf E,
        getMapObjectById consts f t r consts.NDB id airportFromNavDatabase = r := by
      intro r
      simp only [getMapObjectById, hv, hdefault, Ne.symm h13, Ne.symm h23, if_false, if_true]
      simp
    exact ⟨hv, key _, key _⟩
  · intro h
    have hv : getIlsById f t id = f.default := by
      simp only [getIlsById, selectById_eq_nil _ _ h]
    have key : ∀ r : MapSearchResultOf E,
        getMapObjectById consts f t r consts.ILS id airportFromNavDatabase = r := by
      intro r
      simp only [getMapObjectById, hv, hdefault, Ne.symm h15, Ne.symm h25, Ne.symm h35,
        Ne.symm h45, if_false, if_true]
      simp
    exact ⟨hv, key _, key _⟩
  · intro h
    have hv : getWaypointById f t id = f.default := by
      simp only [getWaypointById, selectWaypointById_eq_nil _ _ h]
    have key : ∀ r : MapSearchResultOf E,
        getMapObjectById consts f t r consts.WAYPOINT id airportFromNavDatabase = r := by
      intro r
      simp only [getMapObjectById, hv, hdefault, Ne.symm h14, Ne.symm h24, Ne.symm h34,
        if_false, if_true]
      simp
    exact ⟨hv, key _, key _⟩
  · intro h
    have hv : getAirspaceById f t id = f.default := by
      simp only [getAirspaceById, selectById_eq_nil _ _ h]
    have key : ∀ r : MapSearchResultOf E,
        getMapObjectById consts f t r consts.AIRSPACE id airportFromNavDatabase = r := by
      intro r
      simp only [getMapObjectById, hv, hdefault, Ne.symm h17, Ne.symm h27, Ne.symm h37,
        Ne.symm h47, Ne.symm h57, Ne.symm h67, if_false, if_true]
      simp
    exact ⟨hv, key _, key _⟩
  · intro h
    have hv : getAirportById f
        (if airportFromNavDatabase then t.airportNav else t.airportSim) id = f.default := by
      simp only [getAirportById, selectById_eq_nil _ _ h]
    have key : ∀ r : MapSearchResultOf E,
        getMapObjectById consts f t r consts.AIRPORT id airportFromNavDatabase = r := by
      intro r
      simp only [getMapObjectById, hv, hdefault, if_false, if_true]
      simp
    exact ⟨key _, key _⟩
  · intro h
    have hv : getRunwayEndById f
        (if airportFromNavDatabase then t.runwayEndNav else t.runwayEndSim) id = f.default := by
      simp only [getRunwayEndById, selectById_eq_nil _ _ h]
    have key : ∀ r : MapSearchResultOf E,
        getMapObjectById consts f t r consts.RUNWAYEND id airportFromNavDatabase = r := by
      intro r
      simp only [getMapObjectById, hv, hdefault, Ne.symm h16, Ne.symm h26, Ne.symm h36,
        Ne.symm h46, Ne.symm h56, if_false, if_true]
      simp
    exact ⟨key _, key _⟩

/-- C22 at a concrete input: no VOR of the sample tables has the id 7. -/
theorem getById_no_row_witness :
    sampleFactory.isValid sampleFactory.default = false ∧
    (∀ row ∈ sampleTables.vor, row.id ≠ 7) ∧
    getVorById sampleFactory sampleTables 7 = sampleFactory.default ∧
    getMapObjectById sampleIdConsts sampleFactory sampleTables (MapSearchResultOf.empty _)
      sampleIdConsts.VOR 7 false = MapSearchResultOf.empty _ :=
  ⟨rfl, by decide,
    ((getById_no_row sampleIdConsts sampleFactory sampleTables (MapSearchResultOf.empty _) 7
      false rfl (by decide)).1 (by decide)).1,
    ((getById_no_row sampleIdConsts sampleFactory sampleTables (MapSearchResultOf.empty _) 7
      false rfl (by decide)).1 (by decide)).2.1⟩

end MapQuery

namespace MapQuery

open Marble Marble.GeoDataLatLonBox

/-- A value with two different bits set is not a single bit. -/
theorem two_bits_ne_one_bit (i j k : ℕ) (hij : i ≠ j) : 2 ^ i ||| 2 ^ j ≠ 2 ^ k := by
  intro h
  have hi : (2 ^ i ||| 2 ^ j).testBit i = true := by
    rw [Nat.testBit_lor, Nat.testBit_two_pow_self]; rfl
  have hj : (2 ^ i ||| 2 ^ j).testBit j = true := by
    rw [Nat.testBit_lor, Nat.testBit_two_pow_self, Bool.or_true]
  rw [h, Nat.testBit_two_pow] at hi hj
  simp only [decide_eq_true_eq] at hi hj
  exact hij (hi.symm.trans hj)

/-- A type value that is none of the seven constants appends nothing. -/
theorem getMapObjectById_other {E : Type} (consts : MapObjectIdConsts) (f : MapTypesFactory E)
    (t : Tables) (result : MapSearchResultOf E) (type : ℕ) (id : ℤ)
    (airportFromNavDatabase : Bool)
    (h : type ∉ [consts.AIRPORT, consts.VOR, consts.NDB, consts.WAYPOINT, consts.ILS,
      consts.RUNWAYEND, consts.AIRSPACE]) :
    getMapObjectById consts f t result type id airportFromNavDatabase = result := by
  simp only [List.mem_cons, List.mem_singleton, not_or, List.not_mem_nil, or_false] at h
  obtain ⟨h1, h2, h3, h4, h5, h6, h7⟩ := h
  simp only [getMapObjectById, h1, h2, h3, h4, h5, h6, h7, if_false]

/-- C29: for every type value and id `getMapObjectById` either leaves the
result as it is or appends exactly one entity to the list of the one kind
whose constant the type value is equal to; every other list and every entry
already present are unchanged. A type value that is none of the seven
constants appends nothing; if every constant is a single bit, that holds for
every value that combines two different bits (such as `VOR | NDB`) and for the
value 0 (`NONE`). -/
theorem getMapObjectById_frame {E : Type} (consts : MapObjectIdConsts) (f : MapTypesFactory E)
    (t : Tables) (result : MapSearchResultOf E) (type : ℕ) (id : ℤ)
    (airportFromNavDatabase : Bool) :
    (getMapObjectById consts f t result type id airportFromNavDatabase = result ∨
      (type = consts.AIRPORT ∧ ∃ e, getMapObjectById consts f t result type id
        airportFromNavDatabase = { result with airports := result.airports ++ [e] }) ∨
      (type = consts.VOR ∧ ∃ e, getMapObjectById consts f t result type id
        airportFromNavDatabase = { result with vors := result.vors ++ [e] }) ∨
      (type = consts.NDB ∧ ∃ e, getMapObjectById consts f t result type id
        airportFromNavDatabase = { result with ndbs := result.ndbs ++ [e] }) ∨
      (type = consts.WAYPOINT ∧ ∃ e, getMapObjectById consts f t result type id
        airportFromNavDatabase = { result with waypoints := result.waypoints ++ [e] }) ∨
      (type = consts.ILS ∧ ∃ e, getMapObjectById consts f t result type id
        airportFromNavDatabase = { result with ils := result.ils ++ [e] }) ∨
      (type = consts.RUNWAYEND ∧ ∃ e, getMapObjectById consts f t result type id
        airportFromNavDatabase = { result with runwayEnds := result.runwayEnds ++ [e] }) ∨
      (type = consts.AIRSPACE ∧ ∃ e, getMapObjectById consts f t result type id
        airportFromNavDatabase = { result with airspaces := result.airspaces ++ [e] })) ∧
    (type ∉ [consts.AIRPORT, consts.VOR, consts.NDB, consts.WAYPOINT, consts.ILS,
        consts.RUNWAYEND, consts.AIRSPACE] →
      getMapObjectById consts f t result type id airportFromNavDatabase = result) ∧
    ((∀ c ∈ [consts.AIRPORT, consts.VOR, consts.NDB, consts.WAYPOINT, consts.ILS,
        consts.RUNWAYEND, consts.AIRSPACE], ∃ k, c = 2 ^ k) →
      (∀ i j, i ≠ j →
        getMapObjectById consts f t result (2 ^ i ||| 2 ^ j) id airportFromNavDatabase =
          result) ∧
      getMapObjectById consts f t result 0 id airportFromNavDatabase = result) := by
  refine ⟨?_, getMapObjectById_other consts f t result type id airportFromNavDatabase, ?_⟩
  · generalize hR : getMapObjectById consts f t result type id airportFromNavDatabase = R
    unfold getMapObjectById at hR
    by_cases h1 : type = consts.AIRPORT
    · rw [if_pos h1] at hR
      dsimp only at hR
      generalize (if airportFromNavDatabase = true then t.airportNav else t.airportSim) =
        table at hR
      split_ifs at hR
      · exact Or.inr (Or.inl ⟨h1, _, hR.symm⟩)
      · exact Or.inl hR.symm
    rw [if_neg h1] at hR
    by_cases h2 : type = consts.VOR
    · rw [if_pos h2] at hR
      dsimp only at hR
      split_ifs at hR
      · exact Or.inr (Or.inr (Or.inl ⟨h2, _, hR.symm⟩))
      · exact Or.inl hR.symm
    rw [if_neg h2] at hR
    by_cases h3 : type = consts.NDB
    · rw [if_pos h3] at hR
      dsimp only at hR
      split_ifs at hR
      · exact Or.inr (Or.inr (Or.inr (Or.inl ⟨h3, _, hR.symm⟩)))
      · exact Or.inl hR.symm
    rw [if_neg h3] at hR
    by_cases h4 : type = consts.WAYPOINT
    · rw [if_pos h4] at hR
      dsimp only at hR
      split_ifs at hR
      · exact Or.inr (Or.inr (Or.inr (Or.inr (Or.inl ⟨h4, _, hR.symm⟩))))
      · exact Or.inl hR.symm
    rw [if_neg h4] at hR
    by_cases h5 : type = consts.ILS
    · rw [if_pos h5] at hR
      dsimp only at hR
      split_ifs at hR
      · exact Or.inr (Or.inr (Or.inr (Or.inr (Or.inr (Or.inl ⟨h5, _, hR.symm⟩)))))
      · exact Or.inl hR.symm
    rw [if_neg h5] at hR
    by_cases h6 : type = consts.RUNWAYEND
    · rw [if_pos h6] at hR
      dsimp only at hR
      generalize (if airportFromNavDatabase = true then t.runwayEndNav else t.runwayEndSim) =
        table at hR
      split_ifs at hR
      · exact Or.inr (Or.inr (Or.inr (Or.inr (Or.inr (Or.inr (Or.inl ⟨h6, _, hR.symm⟩))))))
      · exact Or.inl hR.symm
    rw [if_neg h6] at hR
    by_cases h7 : type = consts.AIRSPACE
    · rw [if_pos h7] at hR
      dsimp only at hR
      split_ifs at hR
      · exact Or.inr (Or.inr (Or.inr (Or.inr (Or.inr (Or.inr (Or.inr (⟨h7, _, hR.symm⟩)))))))
      · exact Or.inl hR.symm
    rw [if_neg h7] at hR
    exact Or.inl hR.symm
  · intro hbits
    constructor
    · intro i j hij
      apply getMapObjectById_other
      intro hmem
      obtain ⟨k, hk⟩ := hbits _ hmem
      exact two_bits_ne_one_bit i j k hij hk
    · apply getMapObjectById_other
      intro hmem
      obtain ⟨k, hk⟩ := hbits _ hmem
      exact (Nat.pos_pow_of_pos k (by norm_num)).ne hk

/-- C29 at a concrete input: with the sample constants the type `VOR | NDB`
appends nothing although the tables hold a VOR and an NDB. -/
theorem getMapObjectById_frame_witness :
    (6 : ℕ) ∉ [sampleIdConsts.AIRPORT, sampleIdConsts.VOR, sampleIdConsts.NDB,
      sampleIdConsts.WAYPOINT, sampleIdConsts.ILS, sampleIdConsts.RUNWAYEND,
      sampleIdConsts.AIRSPACE] ∧
    sampleIdConsts.VOR ||| sampleIdConsts.NDB = 6 ∧
    getMapObjectById sampleIdConsts sampleFactory sampleTables (MapSearchResultOf.empty _) 6 1
      false = MapSearchResultOf.empty _ :=
  ⟨by decide, by decide,
    (getMapObjectById_frame sampleIdConsts sampleFactory sampleTables
      (MapSearchResultOf.empty _) 6 1 false).2.1 (by decide)⟩

end MapQuery

namespace MapQuery

open Marble Marble.GeoDataLatLonBox

/-! ## C23: the tunables after construction -/

/-- C23, as stated, fails: with the persisted inflation factor -2, the
persisted row limit -1 and the persisted geometry cache capacity -5 the
constructor uses -2, -1 and -5; nothing is clamped. With the row limit -1 the
clause `limit -1` of a point statement bounds nothing. -/
theorem MapQuery_negative_tunables_counterexample :
    (MapQuery ⟨none, some (-5), some (-2), none, some (-1)⟩).cfg.queryRectInflationFactor = -2 ∧
    (MapQuery ⟨none, some (-5), some (-2), none, some (-1)⟩).cfg.queryMaxRows = -1 ∧
    (MapQuery ⟨none, some (-5), some (-2), none, some (-1)⟩).airspaceLineCacheMaxCost = -5 ∧
    ¬ (0 ≤ (MapQuery ⟨none, some (-5), some (-2), none,
        some (-1)⟩).cfg.queryRectInflationFactor) ∧
    whereLimit (MapQuery ⟨none, some (-5), some (-2), none, some (-1)⟩).cfg.queryMaxRows
      [sampleRecord 1, sampleRecord 2] = [sampleRecord 1, sampleRecord 2] := by
  refine ⟨rfl, rfl, rfl, ?_, ?_⟩
  · show ¬ ((0 : ℚ) ≤ -2)
    norm_num
  · show whereLimit (-1) _ = _
    simp [whereLimit]

/-- C23 (amended): for every persisted value of the tunables the value that
`MapQuery` uses after construction is the persisted value as read, and the
default (inflation factor 0.3, inflation increment 0.1, row limit 5000,
geometry cache capacity 10000, overview cache capacity 1000) where nothing is
persisted. -/
theorem MapQuery_uses_persisted (persisted : PersistedSettings) :
    (MapQuery persisted).cfg.queryRectInflationFactor =
      persisted.QueryRectInflationFactor.getD (3 / 10) ∧
    (MapQuery persisted).cfg.queryRectInflationIncrement =
      persisted.QueryRectInflationIncrement.getD (1 / 10) ∧
    (MapQuery persisted).cfg.queryMaxRows = persisted.QueryRowLimit.getD 5000 ∧
    (MapQuery persisted).airspaceLineCacheMaxCost = persisted.AirspaceLineCache.getD 10000 ∧
    (MapQuery persisted).runwayOverwiewCacheMaxCost =
      persisted.RunwayOverwiewCache.getD 1000 ∧
    (MapQuery ⟨none, none, none, none, none⟩).cfg = defaultSettings := by
  obtain ⟨a, b, c, d, e⟩ := persisted
  refine ⟨?_, ?_, ?_, ?_, ?_, rfl⟩
  · cases c <;> rfl
  · cases d <;> rfl
  · cases e <;> rfl
  · cases b <;> rfl
  · cases a <;> rfl

end MapQuery

namespace MapQuery

open Marble Marble.GeoDataLatLonBox

/-! ## C24: nearest navaid -/

/-- The nearest statement returns no row for an empty table, and for a
non-empty table one row of the table whose order key is minimal: the first row
of the table sorted ascending by the key. -/
theorem selectNearest_spec (table : List SqlRecord) (lonx laty : ℚ) :
    (table = [] → selectNearest table lonx laty = []) ∧
    (table ≠ [] → ∃ row rest, selectNearest table lonx laty = [row] ∧
      (row :: rest).Perm table ∧
      (row :: rest).Sorted
        (fun a b => nearestOrderKey lonx laty a ≤ nearestOrderKey lonx laty b) ∧
      row ∈ table ∧
      ∀ r ∈ table, nearestOrderKey lonx laty row ≤ nearestOrderKey lonx laty r) := by
  haveI : IsTotal SqlRecord
      (fun a b => nearestOrderKey lonx laty a ≤ nearestOrderKey lonx laty b) :=
    ⟨fun a b => le_total _ _⟩
  haveI : IsTrans SqlRecord
      (fun a b => nearestOrderKey lonx laty a ≤ nearestOrderKey lonx laty b) :=
    ⟨fun a b c hab hbc => le_trans hab hbc⟩
  constructor
  · intro h
    rw [h]
    rfl
  · intro hne
    have hperm := List.perm_insertionSort
      (fun a b => nearestOrderKey lonx laty a ≤ nearestOrderKey lonx laty b) table
    have hsorted := List.sorted_insertionSort
      (fun a b => nearestOrderKey lonx laty a ≤ nearestOrderKey lonx laty b) table
    unfold selectNearest
    cases hs : table.insertionSort
        (fun a b => nearestOrderKey lonx laty a ≤ nearestOrderKey lonx laty b) with
    | nil =>
      rw [hs] at hperm
      exact absurd (List.Perm.nil_eq hperm) (Ne.symm hne)
    | cons row rest =>
      rw [hs] at hperm hsorted
      refine ⟨row, rest, rfl, hperm, hsorted, hperm.subset (List.mem_cons_self _ _), ?_⟩
      intro r hr
      rcases List.mem_cons.mp (hperm.symm.subset hr) with h | h
      · rw [h]
      · exact List.rel_of_sorted_cons hsorted r h

/-- C24: for every position and non-empty VOR (NDB) table `getVorNearest`
(`getNdbNearest`) fills the entity passed in from a row of the table that
minimises `|lonx - p.lon| + |laty - p.lat|` over all rows, the first row of the
table in ascending order of that sum (plain differences, no wrapping of the
longitude at the date line); for an empty table the entity passed in is
returned unchanged. -/
theorem getNearest_minimises {E : Type} (f : MapTypesFactory E) (t : Tables) (entity : E)
    (pos : Pos) :
    (t.vor ≠ [] → ∃ row rest,
      (row :: rest).Perm t.vor ∧
      (row :: rest).Sorted (fun a b =>
        |a.lonx - pos.lonx| + |a.laty - pos.laty| ≤ |b.lonx - pos.lonx| + |b.laty - pos.laty|) ∧
      row ∈ t.vor ∧
      (∀ r ∈ t.vor,
        |row.lonx - pos.lonx| + |row.laty - pos.laty| ≤
          |r.lonx - pos.lonx| + |r.laty - pos.laty|) ∧
      getVorNearest f t entity pos = f.fillVor row entity) ∧
    (t.vor = [] → getVorNearest f t entity pos = entity) ∧
    (t.ndb ≠ [] → ∃ row rest,
      (row :: rest).Perm t.ndb ∧
      (row :: rest).Sorted (fun a b =>
        |a.lonx - pos.lonx| + |a.laty - pos.laty| ≤ |b.lonx - pos.lonx| + |b.laty - pos.laty|) ∧
      row ∈ t.ndb ∧
      (∀ r ∈ t.ndb,
        |row.lonx - pos.lonx| + |row.laty - pos.laty| ≤
          |r.lonx - pos.lonx| + |r.laty - pos.laty|) ∧
      getNdbNearest f t entity pos = f.fillNdb row entity) ∧
    (t.ndb = [] → getNdbNearest f t entity pos = entity) := by
  refine ⟨?_, ?_, ?_, ?_⟩
  · intro hne
    obtain ⟨row, rest, hsel, hperm, hsorted, hmem, hmin⟩ :=
      (selectNearest_spec t.vor pos.lonx pos.laty).2 hne
    refine ⟨row, rest, hperm, hsorted, hmem, hmin, ?_⟩
    simp only [getVorNearest, hsel]
  · intro h
    simp only [getVorNearest, (selectNearest_spec t.vor pos.lonx pos.laty).1 h]
  · intro hne
    obtain ⟨row, rest, hsel, hperm, hsorted, hmem, hmin⟩ :=
      (selectNearest_spec t.ndb pos.lonx pos.laty).2 hne
    refine ⟨row, rest, hperm, hsorted, hmem, hmin, ?_⟩
    simp only [getNdbNearest, hsel]
  · intro h
    simp only [getNdbNearest, (selectNearest_spec t.ndb pos.lonx pos.laty).1 h]

/-- C24 at a concrete input: the VOR table of the sample tables is not empty,
so the entity is filled from a row of the table. -/
theorem getNearest_minimises_witness :
    sampleTables.vor ≠ [] ∧
    ∃ row ∈ sampleTables.vor,
      getVorNearest sampleFactory sampleTables none ⟨10, 20⟩ = sampleFactory.fillVor row none :=
  ⟨by decide,
    let ⟨row, _, _, _, hmem, _, hfill⟩ :=
      (getNearest_minimises sampleFactory sampleTables none ⟨10, 20⟩).1 (by decide)
    ⟨row, hmem, hfill⟩⟩

end MapQuery

namespace MapQuery

open Marble Marble.GeoDataLatLonBox

/-! ## C25, C28: the statement, the altitude and what an airspace fetch executes -/

/-- The executions of an airspace fetch: one per sub-rectangle and type string,
in this order, all of the statement chosen from the flags, with `:alt` bound
only if the chosen altitude is positive. -/
theorem collectAirspaces_executed {L T : Type} (env : Env L) (api : AirspaceApi T)
    (st : AirspaceState L T) (rect : GeoDataLatLonBox) (filter : MapAirspaceFilter)
    (flightPlanAltitude : ℚ) :
    (collectAirspaces env api st rect filter flightPlanAltitude).st.executed =
      st.executed ++ (splitAtAntiMeridian env.cfg rect).flatMap (fun r =>
        (airspaceTypeStrings api filter).map (fun typeStr =>
          ({ stmt := (airspaceQueryAndAlt api filter flightPlanAltitude).1
             bound :=
              { bindCoordinatePointInRect r with
                type := some typeStr
                alt := if (airspaceQueryAndAlt api filter flightPlanAltitude).2 > 0
                       then some (airspaceQueryAndAlt api filter flightPlanAltitude).2
                       else none } } : Execution))) := by
  unfold collectAirspaces
  show _ = (⟨st, []⟩ : FetchState (AirspaceState L T)).st.executed ++ _
  have hrows : ∀ (rows : List SqlRecord) (fs : FetchState (AirspaceState L T)),
      (rows.foldl
        (fun (fs : FetchState (AirspaceState L T)) row =>
          if row.id ∈ fs.ids then fs
          else if env.intersects rect (recordBox row) then
            let airspace := api.fillAirspace row
            { st := { fs.st with
                      cache := { fs.st.cache with list := fs.st.cache.list ++ [airspace] } },
              ids := api.idOf airspace :: fs.ids }
          else fs) fs).st.executed = fs.st.executed := by
    intro rows fs
    refine foldl_preserves (fun x => x.st.executed = fs.st.executed) _ ?_ rows fs rfl
    intro b row hb
    dsimp only
    split_ifs
    · exact hb
    · exact hb
    · exact hb
  have htypes : ∀ (r : GeoDataLatLonBox) (ts : List String)
      (fs : FetchState (AirspaceState L T)),
      (ts.foldl
        (fun (fs : FetchState (AirspaceState L T)) typeStr =>
          let b : Bindings :=
            { bindCoordinatePointInRect r with
              type := some typeStr,
              alt := if (airspaceQueryAndAlt api filter flightPlanAltitude).2 > 0
                     then some (airspaceQueryAndAlt api filter flightPlanAltitude).2 else none }
          (env.db (airspaceQueryAndAlt api filter flightPlanAltitude).1 b).foldl
            (fun (fs : FetchState (AirspaceState L T)) row =>
              if row.id ∈ fs.ids then fs
              else if env.intersects rect (recordBox row) then
                let airspace := api.fillAirspace row
                { st := { fs.st with
                          cache := { fs.st.cache with list := fs.st.cache.list ++ [airspace] } },
                  ids := api.idOf airspace :: fs.ids }
              else fs)
            { fs with st := { fs.st with
                executed := fs.st.executed ++
                  [{ stmt := (airspaceQueryAndAlt api filter flightPlanAltitude).1, bound := b }] } })
        fs).st.executed =
      fs.st.executed ++ ts.map (fun typeStr =>
          ({ stmt := (airspaceQueryAndAlt api filter flightPlanAltitude).1
             bound :=
              { bindCoordinatePointInRect r with
                type := some typeStr
                alt := if (airspaceQueryAndAlt api filter flightPlanAltitude).2 > 0
                       then some (airspaceQueryAndAlt api filter flightPlanAltitude).2
                       else none } } : Execution)) := by
    intro r ts
    induction ts with
    | nil => intro fs; simp
    | cons t ts ih =>
      intro fs
      rw [List.foldl_cons, ih, hrows]
      simp
  generalize (⟨st, []⟩ : FetchState (AirspaceState L T)) = fs0
  show _ = fs0.st.executed ++ _
  induction (splitAtAntiMeridian env.cfg rect) generalizing fs0 with
  | nil => simp
  | cons r rs ih =>
    rw [List.foldl_cons, ih, htypes]
    simp

/-- The executions of `fetchAirspaces` are those of its loop; the sort does not
execute anything. -/
theorem fetchAirspaces_executed {L T : Type} (env : Env L) (api : AirspaceApi T)
    (st : AirspaceState L T) (rect : GeoDataLatLonBox) (filter : MapAirspaceFilter)
    (flightPlanAltitude : ℚ) :
    (fetchAirspaces env api st rect filter flightPlanAltitude).executed =
      st.executed ++ (splitAtAntiMeridian env.cfg rect).flatMap (fun r =>
        (airspaceTypeStrings api filter).map (fun typeStr =>
          ({ stmt := (airspaceQueryAndAlt api filter flightPlanAltitude).1
             bound :=
              { bindCoordinatePointInRect r with
                type := some typeStr
                alt := if (airspaceQueryAndAlt api filter flightPlanAltitude).2 > 0
                       then some (airspaceQueryAndAlt api filter flightPlanAltitude).2
                       else none } } : Execution))) := by
  rw [fetchAirspaces_eq_collect]
  exact collectAirspaces_executed env api st rect filter flightPlanAltitude

/-- What a `getAirspaces` call executes: nothing, or, when it fetches, the
executions of the fetch. -/
theorem getAirspaces_executed {L T : Type} (env : Env L) (api : AirspaceApi T)
    (st : AirspaceState L T) (rect : GeoDataLatLonBox) (mapLayer : L)
    (filter : MapAirspaceFilter) (flightPlanAltitude : ℚ) (lazy : Bool) :
    (getAirspaces env api st rect mapLayer filter flightPlanAltitude lazy).executed =
        st.executed ∨
    (getAirspaces env api st rect mapLayer filter flightPlanAltitude lazy).executed =
      st.executed ++ (splitAtAntiMeridian env.cfg rect).flatMap (fun r =>
        (airspaceTypeStrings api filter).map (fun typeStr =>
          ({ stmt := (airspaceQueryAndAlt api filter flightPlanAltitude).1
             bound :=
              { bindCoordinatePointInRect r with
                type := some typeStr
                alt := if (airspaceQueryAndAlt api filter flightPlanAltitude).2 > 0
                       then some (airspaceQueryAndAlt api filter flightPlanAltitude).2
                       else none } } : Execution))) := by
  unfold getAirspaces
  lift_lets
  intro st1 src st2 st3
  show st3.executed = _ ∨ st3.executed = _
  have h2 : st2.executed = st.executed := by
    unfold st2
    split_ifs <;> rfl
  by_cases hc : (st2.cache.list.isEmpty && !lazy) = true
  · by_cases hn : filter.types ≠ api.AIRSPACE_NONE
    · have h3 : st3 = fetchAirspaces env api st2 rect filter flightPlanAltitude := by
        unfold st3
        rw [if_pos hc, if_pos hn]
      right
      rw [h3, fetchAirspaces_executed, h2]
    · have h3 : st3 = st2 := by
        unfold st3
        rw [if_pos hc, if_neg hn]
      left
      rw [h3, h2]
  · have h3 : st3 = st2 := by
      unfold st3
      rw [if_neg hc]
    left
    rw [h3, h2]

/-- A non-lazy call with a non-empty type mask whose filter or altitude
changed executes the statements of a fetch. -/
theorem getAirspaces_executed_of_change {L T : Type} (env : Env L) (api : AirspaceApi T)
    (st : AirspaceState L T) (rect : GeoDataLatLonBox) (mapLayer : L)
    (filter : MapAirspaceFilter) (flightPlanAltitude : ℚ)
    (hchg : filter.types ≠ st.lastAirspaceFilter.types ∨
      filter.flags ≠ st.lastAirspaceFilter.flags ∨
      almostNotEqual st.lastFlightplanAltitude flightPlanAltitude = true)
    (hnone : filter.types ≠ api.AIRSPACE_NONE) :
    (getAirspaces env api st rect mapLayer filter flightPlanAltitude false).executed =
      st.executed ++ (splitAtAntiMeridian env.cfg rect).flatMap (fun r =>
        (airspaceTypeStrings api filter).map (fun typeStr =>
          ({ stmt := (airspaceQueryAndAlt api filter flightPlanAltitude).1
             bound :=
              { bindCoordinatePointInRect r with
                type := some typeStr
                alt := if (airspaceQueryAndAlt api filter flightPlanAltitude).2 > 0
                       then some (airspaceQueryAndAlt api filter flightPlanAltitude).2
                       else none } } : Execution))) := by
  unfold getAirspaces
  lift_lets
  intro st1 src st2 st3
  show st3.executed = _
  have h2 : st2.executed = st.executed ∧ st2.cache.list = [] := by
    unfold st2
    rw [if_pos hchg]
    exact ⟨rfl, rfl⟩
  have h3 : st3 = fetchAirspaces env api st2 rect filter flightPlanAltitude := by
    unfold st3
    rw [if_pos (by rw [h2.2]; rfl), if_pos hnone]
  rw [h3, fetchAirspaces_executed, h2.1]

/-- C25: the statement and the altitude of an airspace fetch are chosen by the
first filter flag that is set, in the order at-flight-plan (at-altitude
statement, the flight plan altitude rounded to an integer), below 10000 (below
statement, 10000), below 18000 (below statement, 18000), above 10000 (above
statement, 10000), above 18000 (above statement, 18000); with none of these
flags set it is the unfiltered by-rectangle statement with altitude 0. One
statement is chosen for every flag combination: every statement that a
`getAirspaces` call executes is the chosen one. -/
theorem airspaceQueryAndAlt_first_flag {L T : Type} (env : Env L) (api : AirspaceApi T)
    (st : AirspaceState L T) (rect : GeoDataLatLonBox) (mapLayer : L)
    (filter : MapAirspaceFilter) (flightPlanAltitude : ℚ) (lazy : Bool) :
    (filter.flags &&& api.AIRSPACE_AT_FLIGHTPLAN ≠ 0 →
      airspaceQueryAndAlt api filter flightPlanAltitude =
        (.airspaceByRectAtAltQuery, roundToInt flightPlanAltitude)) ∧
    (filter.flags &&& api.AIRSPACE_AT_FLIGHTPLAN = 0 →
      filter.flags &&& api.AIRSPACE_BELOW_10000 ≠ 0 →
      airspaceQueryAndAlt api filter flightPlanAltitude =
        (.airspaceByRectBelowAltQuery, 10000)) ∧
    (filter.flags &&& api.AIRSPACE_AT_FLIGHTPLAN = 0 →
      filter.flags &&& api.AIRSPACE_BELOW_10000 = 0 →
      filter.flags &&& api.AIRSPACE_BELOW_18000 ≠ 0 →
      airspaceQueryAndAlt api filter flightPlanAltitude =
        (.airspaceByRectBelowAltQuery, 18000)) ∧
    (filter.flags &&& api.AIRSPACE_AT_FLIGHTPLAN = 0 →
      filter.flags &&& api.AIRSPACE_BELOW_10000 = 0 →
      filter.flags &&& api.AIRSPACE_BELOW_18000 = 0 →
      filter.flags &&& api.AIRSPACE_ABOVE_10000 ≠ 0 →
      airspaceQueryAndAlt api filter flightPlanAltitude =
        (.airspaceByRectAboveAltQuery, 10000)) ∧
    (filter.flags &&& api.AIRSPACE_AT_FLIGHTPLAN = 0 →
      filter.flags &&& api.AIRSPACE_BELOW_10000 = 0 →
      filter.flags &&& api.AIRSPACE_BELOW_18000 = 0 →
      filter.flags &&& api.AIRSPACE_ABOVE_10000 = 0 →
      filter.flags &&& api.AIRSPACE_ABOVE_18000 ≠ 0 →
      airspaceQueryAndAlt api filter flightPlanAltitude =
        (.airspaceByRectAboveAltQuery, 18000)) ∧
    (filter.flags &&& api.AIRSPACE_AT_FLIGHTPLAN = 0 →
      filter.flags &&& api.AIRSPACE_BELOW_10000 = 0 →
      filter.flags &&& api.AIRSPACE_BELOW_18000 = 0 →
      filter.flags &&& api.AIRSPACE_ABOVE_10000 = 0 →
      filter.flags &&& api.AIRSPACE_ABOVE_18000 = 0 →
      airspaceQueryAndAlt api filter flightPlanAltitude = (.airspaceByRectQuery, 0)) ∧
    (∀ e ∈ (getAirspaces env api st rect mapLayer filter flightPlanAltitude lazy).executed,
      e ∈ st.executed ∨ e.stmt = (airspaceQueryAndAlt api filter flightPlanAltitude).1) := by
  refine ⟨?_, ?_, ?_, ?_, ?_, ?_, ?_⟩
  · intro h1
    simp only [airspaceQueryAndAlt, if_pos h1]
  · intro h1 h2
    simp only [airspaceQueryAndAlt, h1, ne_eq, not_true_eq_false, if_false, if_pos h2]
  · intro h1 h2 h3
    simp only [airspaceQueryAndAlt, h1, h2, ne_eq, not_true_eq_false, if_false, if_pos h3]
  · intro h1 h2 h3 h4
    simp only [airspaceQueryAndAlt, h1, h2, h3, ne_eq, not_true_eq_false, if_false, if_pos h4]
  · intro h1 h2 h3 h4 h5
    simp only [airspaceQueryAndAlt, h1, h2, h3, h4, ne_eq, not_true_eq_false, if_false,
      if_pos h5]
  · intro h1 h2 h3 h4 h5
    simp only [airspaceQueryAndAlt, h1, h2, h3, h4, h5, ne_eq, not_true_eq_false, if_false]
  · intro e he
    rcases getAirspaces_executed env api st rect mapLayer filter flightPlanAltitude lazy
      with h | h
    · rw [h] at he
      exact Or.inl he
    · rw [h] at he
      rcases List.mem_append.mp he with he | he
      · exact Or.inl he
      · obtain ⟨r, -, hr⟩ := List.mem_flatMap.mp he
        obtain ⟨typeStr, -, ht⟩ := List.mem_map.mp hr
        exact Or.inr (ht ▸ rfl)

/-- C25 at a concrete input: with the flags at-flight-plan and below 10000 both
set, the at-altitude statement is chosen with the rounded flight plan altitude. -/
theorem airspaceQueryAndAlt_first_flag_witness :
    (34 : ℕ) &&& sampleAirspaceApi.AIRSPACE_AT_FLIGHTPLAN ≠ 0 ∧
    (34 : ℕ) &&& sampleAirspaceApi.AIRSPACE_BELOW_10000 ≠ 0 ∧
    airspaceQueryAndAlt sampleAirspaceApi ⟨1, 34⟩ (2469 / 2) =
      (.airspaceByRectAtAltQuery, roundToInt (2469 / 2)) :=
  ⟨by decide, by decide,
    (airspaceQueryAndAlt_first_flag (sampleEnv (fun _ _ => [])) sampleAirspaceApi
      { cache := emptyCache Unit SqlRecord, executed := [],
        lastAirspaceFilter := ⟨0, 0⟩, lastFlightplanAltitude := 0 }
      ⟨1, 0, 1, 0⟩ () ⟨1, 34⟩ (2469 / 2) false).1 (by decide)⟩

end MapQuery

namespace MapQuery

open Marble Marble.GeoDataLatLonBox

/-- The flight plan altitude 0 is rounded to 0. -/
theorem roundToInt_zero : roundToInt 0 = 0 := by
  simp [roundToInt, Int.floor_eq_iff]
  norm_num

/-- The flight plan altitude 5000 is rounded to 5000. -/
theorem roundToInt_5000 : roundToInt 5000 = 5000 := by
  simp [roundToInt, Int.floor_eq_iff]
  norm_num

/-- C28 fails on the code for the at-altitude statement: with the flag
`AIRSPACE_AT_FLIGHTPLAN`, the type mask `AIRSPACE_ALL` and the flight plan
altitude 0 a non-lazy call on an empty cache executes
`airspaceByRectAtAltQuery` once per sub-rectangle without binding `:alt`
(the guard is `alt > 0`); with the flight plan altitude 5000 the same call
binds `:alt` to 5000 before each execution. -/
theorem getAirspaces_atFlightplan_alt_unbound :
    (airspaceQueryAndAlt sampleAirspaceApi ⟨268435455, 32⟩ 0 =
      (.airspaceByRectAtAltQuery, 0)) ∧
    ((getAirspaces (sampleEnv (fun _ _ => [])) sampleAirspaceApi
        { cache := emptyCache Unit SqlRecord, executed := [],
          lastAirspaceFilter := ⟨0, 0⟩, lastFlightplanAltitude := 0 }
        ⟨10, -10, 150, -150⟩ () ⟨268435455, 32⟩ 0 false).executed.map
          (fun e => (e.stmt, e.bound.type, e.bound.alt)) =
      [(.airspaceByRectAtAltQuery, some "%", none),
       (.airspaceByRectAtAltQuery, some "%", none)]) ∧
    ((getAirspaces (sampleEnv (fun _ _ => [])) sampleAirspaceApi
        { cache := emptyCache Unit SqlRecord, executed := [],
          lastAirspaceFilter := ⟨0, 0⟩, lastFlightplanAltitude := 0 }
        ⟨10, -10, 150, -150⟩ () ⟨268435455, 32⟩ 5000 false).executed.map
          (fun e => (e.stmt, e.bound.type, e.bound.alt)) =
      [(.airspaceByRectAtAltQuery, some "%", some 5000),
       (.airspaceByRectAtAltQuery, some "%", some 5000)]) := by
  have hs : splitAtAntiMeridian (sampleEnv (fun _ _ => [])).cfg ⟨10, -10, 150, -150⟩ =
      [⟨131 / 10, -131 / 10, 180, -180⟩, ⟨131 / 10, -131 / 10, 180, -180⟩] :=
    splitAtAntiMeridian_wide_example
  have ht : airspaceTypeStrings sampleAirspaceApi ⟨268435455, 32⟩ = ["%"] := by
    simp [airspaceTypeStrings, sampleAirspaceApi]
  have hq0 : airspaceQueryAndAlt sampleAirspaceApi ⟨268435455, 32⟩ 0 =
      (.airspaceByRectAtAltQuery, 0) := by
    simp [airspaceQueryAndAlt, sampleAirspaceApi, roundToInt_zero]
  have hq1 : airspaceQueryAndAlt sampleAirspaceApi ⟨268435455, 32⟩ 5000 =
      (.airspaceByRectAtAltQuery, 5000) := by
    simp [airspaceQueryAndAlt, sampleAirspaceApi, roundToInt_5000]
  refine ⟨hq0, ?_, ?_⟩
  · rw [getAirspaces_executed_of_change _ _ _ _ _ _ _ (Or.inl (by decide)) (by decide),
      hs, ht, hq0]
    simp [bindCoordinatePointInRect]
  · rw [getAirspaces_executed_of_change _ _ _ _ _ _ _ (Or.inl (by decide)) (by decide),
      hs, ht, hq1]
    simp [bindCoordinatePointInRect]

end MapQuery

namespace MapQuery

open Marble Marble.GeoDataLatLonBox

/-! ## C26: the order of the airport list -/

/-- The list after the fetch loop of `fetchAirports`: with `reverse` the filled
rows of all sub-rectangles in reverse order before the old list, without it
the filled rows in query order after the old list. -/
theorem fetchAirports_loop_list {L T : Type} (env : Env L) (fillOverview fillComplete : SqlRecord → T)
    (query : Statement) (minlength : Option ℤ) (reverse overview : Bool)
    (rects : List GeoDataLatLonBox) (st : QueryState L T) :
    (rects.foldl
        (fun (st : QueryState L T) r =>
          let b : Bindings := { bindCoordinatePointInRect r with minlength := minlength }
          (env.db query b).foldl
            (fun (st : QueryState L T) row =>
              let ap := if overview then fillOverview row else fillComplete row
              if reverse then { st with cache := { st.cache with list := ap :: st.cache.list } }
              else { st with cache := { st.cache with list := st.cache.list ++ [ap] } })
            { st with executed := st.executed ++ [{ stmt := query, bound := b }] })
        st).cache.list =
      if reverse then
        ((rects.flatMap (fun r => env.db query
            { bindCoordinatePointInRect r with minlength := minlength })).map
          (fun row => if overview then fillOverview row else fillComplete row)).reverse ++
          st.cache.list
      else
        st.cache.list ++ (rects.flatMap (fun r => env.db query
            { bindCoordinatePointInRect r with minlength := minlength })).map
          (fun row => if overview then fillOverview row else fillComplete row) := by
  have hrows : ∀ (rows : List SqlRecord) (st : QueryState L T),
      (rows.foldl
        (fun (st : QueryState L T) row =>
          let ap := if overview then fillOverview row else fillComplete row
          if reverse then { st with cache := { st.cache with list := ap :: st.cache.list } }
          else { st with cache := { st.cache with list := st.cache.list ++ [ap] } })
        st).cache.list =
      if reverse then
        (rows.map (fun row => if overview then fillOverview row else fillComplete row)).reverse ++
          st.cache.list
      else
        st.cache.list ++
          rows.map (fun row => if overview then fillOverview row else fillComplete row) := by
    intro rows
    induction rows with
    | nil => intro st; cases reverse <;> simp
    | cons row rows ih =>
      intro st
      rw [List.foldl_cons, ih]
      cases reverse <;> simp
  induction rects generalizing st with
  | nil => cases reverse <;> simp
  | cons r rects ih =>
    rw [List.foldl_cons, ih, hrows]
    cases reverse <;> simp

/-- C26: after a non-lazy `getAirports` call on an empty cache the airport list
is, with data source `ALL`, the reverse of the concatenation of the rows
returned for the sub-rectangles in order (each row is prepended, so the first
row returned ends up last), and with data source `MEDIUM` or `LARGE` that
concatenation in query order (each row is appended). -/
theorem getAirports_order {L T : Type} (env : Env L) (fillOverview fillComplete : SqlRecord → T)
    (st : QueryState L T) (rect : GeoDataLatLonBox) (mapLayer : L)
    (hempty : st.cache.list = []) :
    (getAirports env fillOverview fillComplete st rect mapLayer false).cache.list =
      (match env.layer.getDataSource mapLayer with
       | .ALL =>
         (((splitAtAntiMeridian env.cfg rect).flatMap (fun r => env.db .airportByRectQuery
            { bindCoordinatePointInRect r with
              minlength := some (env.layer.getMinRunwayLength mapLayer) })).map
            fillComplete).reverse
       | .MEDIUM =>
         ((splitAtAntiMeridian env.cfg rect).flatMap (fun r =>
            env.db .airportMediumByRectQuery (bindCoordinatePointInRect r))).map fillOverview
       | .LARGE =>
         ((splitAtAntiMeridian env.cfg rect).flatMap (fun r =>
            env.db .airportLargeByRectQuery (bindCoordinatePointInRect r))).map fillOverview) ∧
    (env.layer.getDataSource mapLayer = .ALL →
      ∀ first rest, (splitAtAntiMeridian env.cfg rect).flatMap (fun r =>
          env.db .airportByRectQuery
            { bindCoordinatePointInRect r with
              minlength := some (env.layer.getMinRunwayLength mapLayer) }) = first :: rest →
        (getAirports env fillOverview fillComplete st rect mapLayer false).cache.list.getLast? =
          some (fillComplete first)) := by
  have h1 := updateCache_list_of_empty env.covers st.cache rect mapLayer false
    env.layer.hasSameQueryParametersAirport hempty
  have key : ∀ (query : Statement) (minlength : Option ℤ) (reverse overview : Bool),
      (fetchAirports env fillOverview fillComplete
        { st with cache := st.cache.updateCache env.covers rect mapLayer false
                    env.layer.hasSameQueryParametersAirport }
        rect query minlength reverse false overview).cache.list =
      if reverse then
        (((splitAtAntiMeridian env.cfg rect).flatMap (fun r => env.db query
            { bindCoordinatePointInRect r with minlength := minlength })).map
          (fun row => if overview then fillOverview row else fillComplete row)).reverse
      else
        ((splitAtAntiMeridian env.cfg rect).flatMap (fun r => env.db query
            { bindCoordinatePointInRect r with minlength := minlength })).map
          (fun row => if overview then fillOverview row else fillComplete row) := by
    intro query minlength reverse overview
    unfold fetchAirports
    simp only [h1, List.isEmpty_nil, Bool.not_false, Bool.and_self, if_true,
      SimpleRectCache.validate]
    rw [fetchAirports_loop_list]
    cases reverse <;> simp [h1]
  have hlist : (getAirports env fillOverview fillComplete st rect mapLayer false).cache.list =
      (match env.layer.getDataSource mapLayer with
       | .ALL =>
         (((splitAtAntiMeridian env.cfg rect).flatMap (fun r => env.db .airportByRectQuery
            { bindCoordinatePointInRect r with
              minlength := some (env.layer.getMinRunwayLength mapLayer) })).map
            fillComplete).reverse
       | .MEDIUM =>
         ((splitAtAntiMeridian env.cfg rect).flatMap (fun r =>
            env.db .airportMediumByRectQuery (bindCoordinatePointInRect r))).map fillOverview
       | .LARGE =>
         ((splitAtAntiMeridian env.cfg rect).flatMap (fun r =>
            env.db .airportLargeByRectQuery (bindCoordinatePointInRect r))).map fillOverview) := by
    unfold getAirports
    cases hds : env.layer.getDataSource mapLayer
    · simpa using key .airportByRectQuery (some (env.layer.getMinRunwayLength mapLayer))
        true false
    · simpa using key .airportMediumByRectQuery none false true
    · simpa using key .airportLargeByRectQuery none false true
  refine ⟨hlist, ?_⟩
  intro hall first rest hrows
  rw [hlist, hall]
  simp only [hrows, List.map_cons, List.reverse_cons]
  simp

/-- C26 at a concrete input: data source `ALL`, an empty cache and the viewport
`[-150, 150] x [-10, 10]`. -/
theorem getAirports_order_witness :
    (emptyCache Unit SqlRecord).list = [] ∧
    sampleLayerApi.getDataSource () = .ALL ∧
    (getAirports (sampleEnv (fun _ _ => [sampleRecord 1, sampleRecord 2])) id id
        { cache := emptyCache Unit SqlRecord, executed := [] }
        ⟨10, -10, 150, -150⟩ () false).cache.list =
      (((splitAtAntiMeridian defaultSettings ⟨10, -10, 150, -150⟩).flatMap
          (fun _ => [sampleRecord 1, sampleRecord 2])).map id).reverse :=
  ⟨rfl, rfl,
    (getAirports_order (sampleEnv (fun _ _ => [sampleRecord 1, sampleRecord 2])) id id
      { cache := emptyCache Unit SqlRecord, executed := [] }
      ⟨10, -10, 150, -150⟩ () rfl).1⟩

end MapQuery

namespace MapQuery

open Marble Marble.GeoDataLatLonBox

/-! ## C27: the entries of `getWaypointListForAirwayName` -/

end MapQuery

namespace MapQuery

open Marble Marble.GeoDataLatLonBox

/-! ## C30: the pattern `%` in `getWaypointsForAirway` -/

/-- C30 fails on the code: the sample tables hold the airway `V1` from the
waypoint `ABC` (id 1) to the waypoint `DEF` (id 2). With both names given the
lookup finds `ABC`; with an empty airway name, or with an empty waypoint
ident, `%` is bound and compared with `=`, so it matches no row and the lookup
returns nothing, although `ABC` is on an airway and `V1` has two waypoints. -/
theorem getWaypointsForAirway_percent_no_wildcard :
    getWaypointsForAirway sampleFactory sampleTables [] "V1" "ABC" = [some 1] ∧
    getWaypointsForAirway sampleFactory sampleTables [] "" "ABC" = [] ∧
    getWaypointsForAirway sampleFactory sampleTables [] "V1" "" = [] ∧
    selectAirwayWaypointByIdent sampleTables "ABC" "%" = [] ∧
    selectAirwayWaypointByIdent sampleTables "%" "V1" = [] := by
  refine ⟨?_, ?_, ?_, ?_, ?_⟩ <;> decide

end MapQuery
